import Mathlib

/-!
# STUN agent: validation and message life cycle (`stun/stunagent.c`)

A shallow embedding of the functions of `stun/stunagent.c`.

* Memory reached through a `uint8_t *` is a `List Nat` of bytes read with `rdb`
  (reduced modulo 256, zero beyond the list) and written with `wrb`.
* A pointer that may be `NULL` is an `Option`.
* `stun_agent_validate` returns `none` exactly where the C code dereferences a
  `NULL` digest pointer or where a loop of the embedding ran out of fuel.
* The message accessors of `stunmessage.h`, the cryptographic primitives and the
  frame pre-check are not part of `stunagent.c`; the accessors are modelled from
  the specification, the primitives are fields of `Collab`.
-/

set_option autoImplicit false

namespace StunAgentModel

/-! ## Memory -/

/-- Byte at offset `i` of a memory region. -/
def rdb (buf : List Nat) (i : Nat) : Nat := buf.getD i 0 % 256

/-- Store of one byte at offset `i`; the region is extended with zero bytes when needed. -/
def wrb (buf : List Nat) (i : Nat) (v : Nat) : List Nat :=
  (buf ++ List.replicate (i + 1 - buf.length) 0).set i (v % 256)

/-- Copy of the bytes `vs` to offset `off` (the effect of `memcpy (buf + off, vs, n)`). -/
def wrbs (buf : List Nat) (off : Nat) : List Nat → List Nat
  | [] => buf
  | v :: vs => wrbs (wrb buf off v) (off + 1) vs

/-- The `n` bytes found at offset `off`. -/
def rdbs (buf : List Nat) (off n : Nat) : List Nat :=
  (List.range n).map (fun i => rdb buf (off + i))

/-! ## External collaborators -/

/-- What `stunagent.c` consumes from outside the message accessors: the byte order
of the host, the frame pre-check `stun_message_validate_buffer_length`, the keyed
hash behind `stun_sha1`, the checksum `stun_fingerprint`, the reason phrases of
`stun_strerror` and the `PACKAGE_STRING` written by `stun_message_append_server`. -/
structure Collab where
  bigEndian : Bool
  validate_buffer_length : List Nat → Nat → Int
  sha1 : List Nat → Nat → List Nat → Nat → List Nat
  fingerprint : List Nat → Nat → Nat
  strerror : Nat → List Nat
  server : List Nat

/-- Value of a 32-bit word with its four bytes reversed. -/
def bswap32 (x : Nat) : Nat :=
  (x % 256) * 16777216 + (x / 256 % 256) * 65536 + (x / 65536 % 256) * 256 + x / 16777216 % 256

/-- Value of a 16-bit word with its two bytes reversed. -/
def bswap16 (x : Nat) : Nat := (x % 256) * 256 + x / 256 % 256

/-- C `ntohl` on the host described by `X`. -/
def ntohl (X : Collab) (x : Nat) : Nat :=
  if X.bigEndian then x % 4294967296 else bswap32 x

/-- C `htons` on the host described by `X`. -/
def htons (X : Collab) (x : Nat) : Nat :=
  if X.bigEndian then x % 65536 else bswap16 x

/-- In-memory bytes of a `uint32_t` on the host described by `X`. -/
def hostBytes32 (X : Collab) (x : Nat) : List Nat :=
  if X.bigEndian then [x / 16777216 % 256, x / 65536 % 256, x / 256 % 256, x % 256]
  else [x % 256, x / 256 % 256, x / 65536 % 256, x / 16777216 % 256]

/-- In-memory bytes of a `uint16_t` on the host described by `X`. -/
def hostBytes16 (X : Collab) (x : Nat) : List Nat :=
  if X.bigEndian then [x / 256 % 256, x % 256] else [x % 256, x / 256 % 256]

/-! ## Constants of `stunmessage.h` and `stunagent.h` -/

/-- Modelled from the spec: result of the buffer-length pre-check for "not this protocol". -/
def STUN_MESSAGE_BUFFER_INVALID : Int := -1
/-- Modelled from the spec: result of the buffer-length pre-check for "needs more bytes". -/
def STUN_MESSAGE_BUFFER_INCOMPLETE : Int := 0

/-- Modelled from the spec: offset of the declared length in the header. -/
def STUN_MESSAGE_LENGTH_POS : Nat := 2
/-- Modelled from the spec: offset of the transaction id in the header. -/
def STUN_MESSAGE_TRANS_ID_POS : Nat := 4
/-- Modelled from the spec: size of `stun_transid_t`. -/
def STUN_MESSAGE_TRANS_ID_LEN : Nat := 16
/-- Modelled from the spec: the first attribute offset. -/
def STUN_MESSAGE_ATTRIBUTES_POS : Nat := 20
/-- Modelled from the spec: size of the message header. -/
def STUN_MESSAGE_HEADER_LENGTH : Nat := 20
/-- Modelled from the spec: size of the type field of an attribute header. -/
def STUN_ATTRIBUTE_TYPE_LEN : Nat := 2
/-- Modelled from the spec: offset of the value in an attribute (the 4-byte attribute header). -/
def STUN_ATTRIBUTE_VALUE_POS : Nat := 4
/-- Modelled from the spec: the four bytes of the magic cookie, in wire order. -/
def STUN_MAGIC_COOKIE_BYTES : List Nat := [0x21, 0x12, 0xA4, 0x42]

/-- Modelled from the spec: attribute type codes (the enum of `stunmessage.h`). -/
def STUN_ATTRIBUTE_USERNAME : Nat := 0x0006
/-- Modelled from the spec: type code of the integrity attribute. -/
def STUN_ATTRIBUTE_MESSAGE_INTEGRITY : Nat := 0x0008
/-- Modelled from the spec: type code of the error-code attribute. -/
def STUN_ATTRIBUTE_ERROR_CODE : Nat := 0x0009
/-- Modelled from the spec: type code of the unknown-attributes list. -/
def STUN_ATTRIBUTE_UNKNOWN_ATTRIBUTES : Nat := 0x000A
/-- Modelled from the spec: type code of the realm attribute. -/
def STUN_ATTRIBUTE_REALM : Nat := 0x0014
/-- Modelled from the spec: type code of the nonce attribute. -/
def STUN_ATTRIBUTE_NONCE : Nat := 0x0015
/-- Modelled from the spec: type code of the server-identification attribute. -/
def STUN_ATTRIBUTE_SERVER : Nat := 0x8022
/-- Modelled from the spec: type code of the checksum trailer. -/
def STUN_ATTRIBUTE_FINGERPRINT : Nat := 0x8028

/-- Modelled from the spec: error code carried by an unknown-attributes error. -/
def STUN_ERROR_UNKNOWN_ATTRIBUTE : Nat := 420

/-- Modelled from the spec: usage flag "require short-term credentials". -/
def STUN_AGENT_USAGE_SHORT_TERM_CREDENTIALS : Nat := 1
/-- Modelled from the spec: usage flag "require long-term credentials". -/
def STUN_AGENT_USAGE_LONG_TERM_CREDENTIALS : Nat := 2
/-- Modelled from the spec: usage flag "require checksum trailer". -/
def STUN_AGENT_USAGE_USE_FINGERPRINT : Nat := 4
/-- Modelled from the spec: usage flag "auto-append server identification on response". -/
def STUN_AGENT_USAGE_ADD_SERVER : Nat := 8
/-- Modelled from the spec: usage flag "ignore credentials entirely". -/
def STUN_AGENT_USAGE_IGNORE_CREDENTIALS : Nat := 16

/-- Modelled from the spec: size of the id array of `stun_agent_build_unknown_attributes_error`. -/
def STUN_AGENT_MAX_UNKNOWN_ATTRIBUTES : Nat := 256

/-! ## Data model -/

/-- The message classes. -/
inductive StunClass where
  | STUN_REQUEST
  | STUN_INDICATION
  | STUN_RESPONSE
  | STUN_ERROR
  deriving DecidableEq, Repr

/-- The two protocol profiles: the legacy one and the modern one. -/
inductive StunCompatibility where
  | STUN_COMPATIBILITY_RFC3489
  | STUN_COMPATIBILITY_3489BIS
  deriving DecidableEq, Repr

/-- The validation outcomes. -/
inductive StunValidationStatus where
  | STUN_VALIDATION_SUCCESS
  | STUN_VALIDATION_NOT_STUN
  | STUN_VALIDATION_INCOMPLETE_STUN
  | STUN_VALIDATION_BAD_REQUEST
  | STUN_VALIDATION_UNAUTHORIZED
  | STUN_VALIDATION_UNMATCHED_RESPONSE
  | STUN_VALIDATION_UNKNOWN_REQUEST_ATTRIBUTE
  | STUN_VALIDATION_UNKNOWN_ATTRIBUTE
  deriving DecidableEq, Repr

/-- One slot of `agent->sent_ids`. -/
structure StunAgentSavedIds where
  id : List Nat
  method : Nat
  key : Option (List Nat)
  key_len : Nat
  valid : Bool
  deriving DecidableEq, Repr

/-- The agent. The length of `sent_ids` is the capacity `STUN_AGENT_MAX_SAVED_IDS`;
`known_attributes` is the memory the pointer refers to, read up to its `0` terminator. -/
structure StunAgent where
  known_attributes : List Nat
  compatibility : StunCompatibility
  usage_flags : Nat
  sent_ids : List StunAgentSavedIds
  deriving DecidableEq, Repr

/-- The message view (the back pointer `msg->agent` is not represented). -/
structure StunMessage where
  buffer : List Nat
  buffer_len : Nat
  key : Option (List Nat)
  key_len : Nat
  deriving DecidableEq, Repr

/-- The capacity of the transaction cache of an agent. -/
def STUN_AGENT_MAX_SAVED_IDS (agent : StunAgent) : Nat := agent.sent_ids.length

/-- The authenticator callback: from the agent, the message, the username bytes
(`none` for a `NULL` pointer) and their length, either failure (`none`, C `FALSE`)
or the key pointer and key length it stored. -/
abbrev StunMessageIntegrityValidate :=
  StunAgent → StunMessage → Option (List Nat) → Nat → Option (Option (List Nat) × Nat)

/-- One entry of the credential list given to `stun_agent_default_validater`. -/
structure stun_validater_data where
  username : Option (List Nat)
  username_len : Nat
  password : Option (List Nat)
  password_len : Nat
  deriving DecidableEq, Repr

/-! ## Message accessors (`stunmessage.h`) -/

/-- Modelled from the spec: the big-endian 16-bit read helper `stun_getw`. -/
def stun_getw (buf : List Nat) (off : Nat) : Nat := rdb buf off * 256 + rdb buf (off + 1)

/-- Modelled from the spec: the big-endian 16-bit write helper `stun_setw`. -/
def stun_setw (buf : List Nat) (off : Nat) (v : Nat) : List Nat :=
  wrb (wrb buf off (v / 256)) (off + 1) v

/-- Modelled from the spec: the number of bytes that pad a value to 4-byte alignment. -/
def stun_padding (l : Nat) : Nat := (4 - l % 4) % 4

/-- Modelled from the spec: the attribute length-to-padded-offset helper `stun_align`. -/
def stun_align (l : Nat) : Nat := l + stun_padding l

/-- Modelled from the spec: `stun_optional`, attribute type codes are partitioned by
numeric range, the upper half of the 16-bit range being optional-class. -/
def stun_optional (t : Nat) : Bool := decide (32768 ≤ t % 65536)

/-- Modelled from the spec: `stun_message_length`, the declared length plus the header. -/
def stun_message_length (msg : StunMessage) : Nat :=
  stun_getw msg.buffer STUN_MESSAGE_LENGTH_POS + STUN_MESSAGE_HEADER_LENGTH

/-- Modelled from the spec: `stun_message_get_class`, the two class bits of the type field. -/
def stun_message_get_class (msg : StunMessage) : StunClass :=
  let t := stun_getw msg.buffer 0
  match t / 256 % 2, t / 16 % 2 with
  | 0, 0 => StunClass.STUN_REQUEST
  | 0, _ => StunClass.STUN_INDICATION
  | _, 0 => StunClass.STUN_RESPONSE
  | _, _ => StunClass.STUN_ERROR

/-- Modelled from the spec: `stun_message_get_method`, the twelve method bits of the type field. -/
def stun_message_get_method (msg : StunMessage) : Nat :=
  let t := stun_getw msg.buffer 0
  (t / 512 % 32) * 128 + (t / 32 % 8) * 16 + t % 16

/-- Modelled from the spec: `stun_message_id`, the 16 bytes of the transaction id. -/
def stun_message_id (msg : StunMessage) : List Nat :=
  rdbs msg.buffer STUN_MESSAGE_TRANS_ID_POS STUN_MESSAGE_TRANS_ID_LEN

/-- Modelled from the spec: `stun_has_cookie`, the id starts with the magic cookie. -/
def stun_has_cookie (msg : StunMessage) : Bool :=
  rdbs msg.buffer STUN_MESSAGE_TRANS_ID_POS 4 == STUN_MAGIC_COOKIE_BYTES

/-- The attribute walk of `stun_message_find`: offset of the value and declared length
of the first attribute of type `type` between `offset` and `length`. -/
def stun_message_find_loop (buf : List Nat) (type length : Nat) : Nat → Nat → Option (Nat × Nat)
  | 0, _ => none
  | fuel + 1, offset =>
    if offset < length then
      let atype := stun_getw buf offset
      let alen := stun_getw buf (offset + STUN_ATTRIBUTE_TYPE_LEN)
      if atype = type then some (offset + STUN_ATTRIBUTE_VALUE_POS, alen)
      else stun_message_find_loop buf type length fuel
        (offset + STUN_ATTRIBUTE_VALUE_POS + stun_align alen)
    else none

/-- Modelled from the spec: `stun_message_find`, attribute-by-type lookup returning
pointer (as an offset into the buffer) and length, `none` for `NULL`. -/
def stun_message_find (msg : StunMessage) (type : Nat) : Option (Nat × Nat) :=
  stun_message_find_loop msg.buffer type (stun_message_length msg) (stun_message_length msg)
    STUN_MESSAGE_ATTRIBUTES_POS

/-- Modelled from the spec: `stun_message_has_attribute`, the lookup is not `NULL`. -/
def stun_message_has_attribute (msg : StunMessage) (type : Nat) : Bool :=
  (stun_message_find msg type).isSome

/-- Modelled from the spec: `stun_message_find32`, the big-endian value of a 4-byte
attribute; `none` stands for a non-zero return (absent, or not 4 bytes long). -/
def stun_message_find32 (msg : StunMessage) (type : Nat) : Option Nat :=
  match stun_message_find msg type with
  | none => none
  | some (off, len) =>
    if len = 4 then
      some (rdb msg.buffer off * 16777216 + rdb msg.buffer (off + 1) * 65536
        + rdb msg.buffer (off + 2) * 256 + rdb msg.buffer (off + 3))
    else none

/-- Modelled from the spec: the type field written by `stun_message_init` for a class
and a method (inverse of `stun_message_get_class` and `stun_message_get_method`). -/
def stun_set_type (buf : List Nat) (c : StunClass) (m : Nat) : List Nat :=
  let cn : Nat := match c with
    | StunClass.STUN_REQUEST => 0
    | StunClass.STUN_INDICATION => 1
    | StunClass.STUN_RESPONSE => 2
    | StunClass.STUN_ERROR => 3
  wrb (wrb buf 0 (cn / 2 + 2 * (m / 128 % 32))) 1 (16 * (cn % 2) + 32 * (m / 16 % 8) + m % 16)

/-- Modelled from the spec: `stun_message_init`, writes class, method and id into the
header with a declared length of zero; fails when the buffer cannot hold a header. -/
def stun_message_init (msg : StunMessage) (c : StunClass) (m : Nat) (id : List Nat) :
    Bool × StunMessage :=
  if msg.buffer_len < STUN_MESSAGE_HEADER_LENGTH then (false, msg)
  else
    let b1 := wrbs msg.buffer 0 [0, 0, 0, 0]
    let b2 := stun_set_type b1 c m
    let b3 := wrbs b2 STUN_MESSAGE_TRANS_ID_POS (rdbs id 0 STUN_MESSAGE_TRANS_ID_LEN)
    (true, { msg with buffer := b3 })

/-- Modelled from the spec: `stun_message_append`, append attribute reserving `length`
bytes; `none` for `NULL` (buffer exhausted), else the offset of the reserved value and
the message with the attribute header written and the declared length advanced. -/
def stun_message_append (msg : StunMessage) (type length : Nat) : Option (Nat × StunMessage) :=
  let mlen := stun_message_length msg
  if mlen + STUN_ATTRIBUTE_VALUE_POS + length > msg.buffer_len then none
  else
    let b1 := stun_setw msg.buffer mlen type
    let b2 := stun_setw b1 (mlen + STUN_ATTRIBUTE_TYPE_LEN)
      (if stun_has_cookie msg then length else stun_align length)
    let b3 := wrbs b2 (mlen + STUN_ATTRIBUTE_VALUE_POS + length)
      (List.replicate (stun_padding length) 0x20)
    let b4 := stun_setw b3 STUN_MESSAGE_LENGTH_POS
      (mlen + STUN_ATTRIBUTE_VALUE_POS + stun_align length - STUN_MESSAGE_HEADER_LENGTH)
    some (mlen + STUN_ATTRIBUTE_VALUE_POS, { msg with buffer := b4 })

/-- Modelled from the spec: `stun_message_append_bytes`, append fixed byte sequence;
`none` stands for a non-zero return. -/
def stun_message_append_bytes (msg : StunMessage) (type : Nat) (data : List Nat) (len : Nat) :
    Option StunMessage :=
  match stun_message_append msg type len with
  | none => none
  | some (ptr, m1) => some { m1 with buffer := wrbs m1.buffer ptr (rdbs data 0 len) }

/-- Modelled from the spec: `stun_message_append_error`, appends a standard error-code
attribute (class and number of the code, then the reason phrase). -/
def stun_message_append_error (X : Collab) (msg : StunMessage) (code : Nat) : Option StunMessage :=
  let str := X.strerror code
  match stun_message_append msg STUN_ATTRIBUTE_ERROR_CODE (4 + str.length) with
  | none => none
  | some (ptr, m1) =>
    some { m1 with buffer := wrbs m1.buffer ptr ([0, 0, code / 100, code % 100] ++ str) }

/-- Modelled from the spec: `stun_message_append_server`, appends the
server-identification attribute when there is room for it. -/
def stun_message_append_server (X : Collab) (msg : StunMessage) : StunMessage :=
  match stun_message_append_bytes msg STUN_ATTRIBUTE_SERVER X.server X.server.length with
  | none => msg
  | some m1 => m1

/-- The 20-byte digest `stun_sha1` stores for the first `len` bytes of `buf`. -/
def stun_sha1 (X : Collab) (buf : List Nat) (len : Nat) (key : List Nat) (key_len : Nat) :
    List Nat :=
  rdbs (X.sha1 buf len key key_len) 0 20

/-- The 32-bit checksum `stun_fingerprint` returns for the first `len` bytes of `buf`. -/
def stun_fingerprint (X : Collab) (buf : List Nat) (len : Nat) : Nat :=
  X.fingerprint buf len % 4294967296

/-! ## The agent (`stun/stunagent.c`) -/

/-- C truth value of `agent->usage_flags & flag`. -/
def usage (agent : StunAgent) (flag : Nat) : Bool :=
  decide ((agent.usage_flags % 4294967296) &&& flag ≠ 0)

/-- The cast `(int) buffer_len` of a `size_t` to a 32-bit `int`. -/
def int_of_size (n : Nat) : Int :=
  if n % 4294967296 < 2147483648 then ((n % 4294967296 : Nat) : Int)
  else ((n % 4294967296 : Nat) : Int) - 4294967296

/-- Source `stun_agent_init`: stores the configuration and marks every slot empty. -/
def stun_agent_init (agent : StunAgent) (known_attributes : List Nat)
    (compatibility : StunCompatibility) (usage_flags : Nat) : StunAgent :=
  { known_attributes := known_attributes
    compatibility := compatibility
    usage_flags := usage_flags
    sent_ids := agent.sent_ids.map (fun s => { s with valid := false }) }

/-- The scan of `stun_agent_default_validater` over the credential list. -/
def stun_agent_default_validater_loop (username : Option (List Nat)) (username_len : Nat) :
    List stun_validater_data → Option (Option (List Nat) × Nat)
  | [] => none
  | v :: vs =>
    match v.username with
    | none => none
    | some u =>
      if username_len = v.username_len ∨
          rdbs (username.getD []) 0 username_len = rdbs u 0 username_len then
        some (v.password, v.password_len)
      else stun_agent_default_validater_loop username username_len vs

/-- Source `stun_agent_default_validater`, with `user_data` the credential list
(`none` for `NULL`). -/
def stun_agent_default_validater (user_data : Option (List stun_validater_data)) :
    StunMessageIntegrityValidate :=
  fun _ _ username username_len =>
    match user_data with
    | none => none
    | some val => stun_agent_default_validater_loop username username_len val

/-- Source `stun_agent_is_unknown`, as a walk over the known-attribute memory. -/
def stun_agent_is_unknown_loop : List Nat → Nat → Bool
  | [], _ => true
  | k :: ks, type =>
    if k % 65536 = 0 then true
    else if k % 65536 = type then false
    else stun_agent_is_unknown_loop ks type

/-- Source `stun_agent_is_unknown`. -/
def stun_agent_is_unknown (agent : StunAgent) (type : Nat) : Bool :=
  stun_agent_is_unknown_loop agent.known_attributes type

/-- The `while` loop of `stun_agent_find_unknowns`; `list` holds the entries written
so far (so `count` is its length), `none` means the fuel ran out. -/
def stun_agent_find_unknowns_loop (X : Collab) (agent : StunAgent) (buf : List Nat)
    (len max : Nat) : Nat → Nat → List Nat → Option (List Nat)
  | 0, offset, list => if offset < len ∧ list.length < max then none else some list
  | fuel + 1, offset, list =>
    if offset < len ∧ list.length < max then
      let alen := stun_getw buf (offset + STUN_ATTRIBUTE_TYPE_LEN)
      let atype := stun_getw buf offset
      let offset1 := offset + (STUN_ATTRIBUTE_VALUE_POS + stun_align alen)
      if (!stun_optional atype && stun_agent_is_unknown agent atype) = true then
        stun_agent_find_unknowns_loop X agent buf len max fuel offset1 (list ++ [htons X atype])
      else stun_agent_find_unknowns_loop X agent buf len max fuel offset1 list
    else some list

/-- Source `stun_agent_find_unknowns`: the entries written to `list`; the returned
count is the length of that list. -/
def stun_agent_find_unknowns (X : Collab) (agent : StunAgent) (msg : StunMessage) (max : Nat) :
    Option (List Nat) :=
  let len := stun_message_length msg % 65536
  stun_agent_find_unknowns_loop X agent msg.buffer len max len STUN_MESSAGE_ATTRIBUTES_POS []

/-- The `for` loop of `stun_agent_validate` over `agent->sent_ids`: the index at which
it stops, the length of the table when no slot matches. -/
def find_sent_id (method : Nat) (msg_id : List Nat) : List StunAgentSavedIds → Nat → Nat
  | [], idx => idx
  | s :: rest, idx =>
    if s.valid = true ∧ s.method = method ∧ msg_id = s.id then idx
    else find_sent_id method msg_id rest (idx + 1)

/-- The store `agent->sent_ids[idx].valid = FALSE`. -/
def clear_sent_id (slots : List StunAgentSavedIds) (idx : Nat) : List StunAgentSavedIds :=
  match slots.get? idx with
  | some s => slots.set idx { s with valid := false }
  | none => slots

/-- The credential presence policy of `stun_agent_validate`: `true` when the message
is to be rejected as unauthorized. -/
def credential_policy_violated (agent : StunAgent) (msg : StunMessage) : Bool :=
  (usage agent STUN_AGENT_USAGE_SHORT_TERM_CREDENTIALS &&
    (!stun_message_has_attribute msg STUN_ATTRIBUTE_USERNAME ||
     !stun_message_has_attribute msg STUN_ATTRIBUTE_MESSAGE_INTEGRITY)) ||
  (usage agent STUN_AGENT_USAGE_LONG_TERM_CREDENTIALS &&
    decide (stun_message_get_class msg ≠ StunClass.STUN_INDICATION) &&
    (!stun_message_has_attribute msg STUN_ATTRIBUTE_USERNAME ||
     !stun_message_has_attribute msg STUN_ATTRIBUTE_MESSAGE_INTEGRITY ||
     !stun_message_has_attribute msg STUN_ATTRIBUTE_NONCE ||
     !stun_message_has_attribute msg STUN_ATTRIBUTE_REALM)) ||
  (!usage agent STUN_AGENT_USAGE_IGNORE_CREDENTIALS &&
    stun_message_has_attribute msg STUN_ATTRIBUTE_USERNAME &&
    !stun_message_has_attribute msg STUN_ATTRIBUTE_MESSAGE_INTEGRITY)

/-- The FINGERPRINT stage of `stun_agent_validate`: the attribute is found as a 32-bit
value and, after `ntohl`, equals the checksum of the message. -/
def fingerprint_ok (X : Collab) (msg : StunMessage) : Bool :=
  match stun_message_find32 msg STUN_ATTRIBUTE_FINGERPRINT with
  | none => false
  | some fpr =>
    decide (ntohl X fpr = stun_fingerprint X msg.buffer (stun_message_length msg))

/-- Source `stun_agent_validate`, lines 227-229: the matched slot, if any, is marked
empty. -/
def release_slot (agent : StunAgent) (sent_id_idx : Int) : StunAgent :=
  if sent_id_idx ≠ -1 ∧ sent_id_idx < (STUN_AGENT_MAX_SAVED_IDS agent : Nat) then
    { agent with sent_ids := clear_sent_id agent.sent_ids sent_id_idx.toNat }
  else agent

/-- Source `stun_agent_validate`, lines 200-224: integrity verification with the
resolved key. The result is `none` where the digest lookup comes back `NULL` (which the
code dereferences), `some none` where the code returns "unauthorized", else the message
with the key attached when it was checked. -/
def check_integrity (X : Collab) (msg1 : StunMessage) (key : Option (List Nat))
    (key_len : Nat) : Option (Option StunMessage) :=
  match key with
  | none => some (some msg1)
  | some k =>
    if key_len > 0 then
      match stun_message_find msg1 STUN_ATTRIBUTE_MESSAGE_INTEGRITY with
      | none => none
      | some (hash, _) =>
        if stun_sha1 X msg1.buffer (hash + 20) k key_len ≠ rdbs msg1.buffer hash 20 then
          some none
        else some (some { msg1 with key := some k, key_len := key_len })
    else some (some msg1)

/-- Source `stun_agent_validate`, lines 231-238: the unknown-attribute scan that decides
between success and the two unknown-attribute outcomes. -/
def validate_unknowns (X : Collab) (agent1 : StunAgent) (msg2 : StunMessage) :
    Option (StunValidationStatus × StunAgent × StunMessage) :=
  match stun_agent_find_unknowns X agent1 msg2 1 with
  | none => none
  | some unknown =>
    if unknown.length > 0 then
      if stun_message_get_class msg2 = StunClass.STUN_REQUEST then
        some (StunValidationStatus.STUN_VALIDATION_UNKNOWN_REQUEST_ATTRIBUTE, agent1, msg2)
      else some (StunValidationStatus.STUN_VALIDATION_UNKNOWN_ATTRIBUTE, agent1, msg2)
    else some (StunValidationStatus.STUN_VALIDATION_SUCCESS, agent1, msg2)

/-- Source `stun_agent_validate`, lines 200-238: integrity verification, clearing of the
matched slot, unknown-attribute scan. -/
def validate_integrity (X : Collab) (agent : StunAgent) (msg1 : StunMessage)
    (sent_id_idx : Int) (key : Option (List Nat)) (key_len : Nat) :
    Option (StunValidationStatus × StunAgent × StunMessage) :=
  match check_integrity X msg1 key key_len with
  | none => none
  | some none => some (StunValidationStatus.STUN_VALIDATION_UNAUTHORIZED, agent, msg1)
  | some (some msg2) => validate_unknowns X (release_slot agent sent_id_idx) msg2

/-- Source `stun_agent_validate`, lines 188-190: the username pointer (`none` for `NULL`,
else the bytes it points to) and `username_len` handed to the validater. -/
def message_username (msg1 : StunMessage) : Option (List Nat) × Nat :=
  match stun_message_find msg1 STUN_ATTRIBUTE_USERNAME with
  | some (off, l) => (some (rdbs msg1.buffer off l), l)
  | none => (none, 0)

/-- Source `stun_agent_validate`, lines 186-198: key resolution. `key0`, `key_len0` are
the key and length taken from the matched slot (`none` and 0 when no slot was
consulted); the result is `none` where the code returns "unauthorized", else the key
pointer and key length with which the integrity stage is entered. -/
def resolve_key (agent : StunAgent) (msg1 : StunMessage)
    (validater : Option StunMessageIntegrityValidate)
    (key0 : Option (List Nat)) (key_len0 : Nat) : Option (Option (List Nat) × Nat) :=
  if usage agent STUN_AGENT_USAGE_IGNORE_CREDENTIALS = false ∧
      stun_message_has_attribute msg1 STUN_ATTRIBUTE_MESSAGE_INTEGRITY = true then
    match key0 with
    | none =>
      match validater with
      | none => none
      | some v => v agent msg1 (message_username msg1).1 (message_username msg1).2
    | some k => some (some k, key_len0)
  else some (key0, key_len0)

/-- Source `stun_agent_validate`, lines 171-198, then `validate_integrity`: credential
presence policy and key resolution. -/
def validate_credentials (X : Collab) (agent : StunAgent) (msg1 : StunMessage)
    (validater : Option StunMessageIntegrityValidate)
    (sent_id_idx : Int) (key0 : Option (List Nat)) (key_len0 : Nat) :
    Option (StunValidationStatus × StunAgent × StunMessage) :=
  if credential_policy_violated agent msg1 = true then
    some (StunValidationStatus.STUN_VALIDATION_UNAUTHORIZED, agent, msg1)
  else
  match resolve_key agent msg1 validater key0 key_len0 with
  | none => some (StunValidationStatus.STUN_VALIDATION_UNAUTHORIZED, agent, msg1)
  | some (key, key_len) => validate_integrity X agent msg1 sent_id_idx key key_len

/-- Source `stun_agent_validate`, lines 152-169, then `validate_credentials`: a
response or an error is paired with the first valid slot of the same method and
transaction id. -/
def validate_correlation (X : Collab) (agent : StunAgent) (msg1 : StunMessage)
    (validater : Option StunMessageIntegrityValidate) :
    Option (StunValidationStatus × StunAgent × StunMessage) :=
  if stun_message_get_class msg1 = StunClass.STUN_RESPONSE ∨
      stun_message_get_class msg1 = StunClass.STUN_ERROR then
    let sent_id_idx : Nat :=
      find_sent_id (stun_message_get_method msg1) (stun_message_id msg1) agent.sent_ids 0
    let key : Option (List Nat) := (agent.sent_ids.get? sent_id_idx).bind (fun s => s.key)
    let key_len : Nat := ((agent.sent_ids.get? sent_id_idx).map (fun s => s.key_len)).getD 0
    if sent_id_idx = STUN_AGENT_MAX_SAVED_IDS agent then
      some (StunValidationStatus.STUN_VALIDATION_UNMATCHED_RESPONSE, agent, msg1)
    else validate_credentials X agent msg1 validater sent_id_idx key key_len
  else validate_credentials X agent msg1 validater (-1) none 0

/-- Source `stun_agent_validate`, lines 125-150, then `validate_correlation`: cookie
check and FINGERPRINT check of the modern profile. -/
def validate_demux (X : Collab) (agent : StunAgent) (msg1 : StunMessage)
    (validater : Option StunMessageIntegrityValidate) :
    Option (StunValidationStatus × StunAgent × StunMessage) :=
  if agent.compatibility = StunCompatibility.STUN_COMPATIBILITY_3489BIS ∧
      stun_has_cookie msg1 = false then
    some (StunValidationStatus.STUN_VALIDATION_BAD_REQUEST, agent, msg1)
  else if agent.compatibility = StunCompatibility.STUN_COMPATIBILITY_3489BIS ∧
      usage agent STUN_AGENT_USAGE_USE_FINGERPRINT = true ∧ fingerprint_ok X msg1 = false then
    some (StunValidationStatus.STUN_VALIDATION_BAD_REQUEST, agent, msg1)
  else validate_correlation X agent msg1 validater

/-- Source `stun_agent_validate` (lines 110-123, then the stages above). The result is
the returned status, the agent and the message as the call leaves them; `none` where
the C code dereferences the `NULL` result of the digest lookup, or where the
unknown-attribute scan ran out of fuel. -/
def stun_agent_validate (X : Collab) (agent : StunAgent) (msg : StunMessage)
    (buffer : List Nat) (buffer_len : Nat) (validater : Option StunMessageIntegrityValidate) :
    Option (StunValidationStatus × StunAgent × StunMessage) :=
  let len := X.validate_buffer_length buffer buffer_len
  if len = STUN_MESSAGE_BUFFER_INVALID then
    some (StunValidationStatus.STUN_VALIDATION_NOT_STUN, agent, msg)
  else if len = STUN_MESSAGE_BUFFER_INCOMPLETE then
    some (StunValidationStatus.STUN_VALIDATION_INCOMPLETE_STUN, agent, msg)
  else if len ≠ int_of_size buffer_len then
    some (StunValidationStatus.STUN_VALIDATION_NOT_STUN, agent, msg)
  else
    validate_demux X agent
      { buffer := buffer, buffer_len := buffer_len, key := none, key_len := 0 } validater

/-- Source `stun_agent_init_request`; `id` is the transaction id drawn by
`stun_make_transid`. -/
def stun_agent_init_request (agent : StunAgent) (buffer : List Nat) (buffer_len : Nat)
    (m : Nat) (id : List Nat) : Bool × StunMessage :=
  let msg : StunMessage :=
    { buffer := buffer, buffer_len := buffer_len, key := none, key_len := 0 }
  match stun_message_init msg StunClass.STUN_REQUEST m id with
  | (true, m1) =>
    if agent.compatibility = StunCompatibility.STUN_COMPATIBILITY_3489BIS then
      (true, { m1 with buffer := wrbs m1.buffer STUN_MESSAGE_TRANS_ID_POS STUN_MAGIC_COOKIE_BYTES })
    else (true, m1)
  | (false, m1) => (false, m1)

/-- Source `stun_agent_init_indication`; `id` is the transaction id drawn by
`stun_make_transid`. -/
def stun_agent_init_indication (agent : StunAgent) (buffer : List Nat) (buffer_len : Nat)
    (m : Nat) (id : List Nat) : Bool × StunMessage :=
  let msg : StunMessage :=
    { buffer := buffer, buffer_len := buffer_len, key := none, key_len := 0 }
  match stun_message_init msg StunClass.STUN_INDICATION m id with
  | (true, m1) =>
    if agent.compatibility = StunCompatibility.STUN_COMPATIBILITY_3489BIS then
      (true, { m1 with buffer := wrbs m1.buffer STUN_MESSAGE_TRANS_ID_POS STUN_MAGIC_COOKIE_BYTES })
    else (true, m1)
  | (false, m1) => (false, m1)

/-- Source `stun_agent_init_response`; `msg` is the output message as found. -/
def stun_agent_init_response (X : Collab) (agent : StunAgent) (msg : StunMessage)
    (buffer : List Nat) (buffer_len : Nat) (request : StunMessage) : Bool × StunMessage :=
  if stun_message_get_class request ≠ StunClass.STUN_REQUEST then (false, msg)
  else
    let msg1 : StunMessage :=
      { buffer := buffer, buffer_len := buffer_len, key := request.key, key_len := request.key_len }
    let id := stun_message_id request
    match stun_message_init msg1 StunClass.STUN_RESPONSE (stun_message_get_method request) id with
    | (true, m1) =>
      if agent.compatibility = StunCompatibility.STUN_COMPATIBILITY_3489BIS ∧
          usage agent STUN_AGENT_USAGE_ADD_SERVER = true then
        (true, stun_message_append_server X m1)
      else (true, m1)
    | (false, m1) => (false, m1)

/-- Source `stun_agent_init_error`; `msg` is the output message as found. -/
def stun_agent_init_error (X : Collab) (agent : StunAgent) (msg : StunMessage)
    (buffer : List Nat) (buffer_len : Nat) (request : StunMessage) (err : Nat) :
    Bool × StunMessage :=
  if stun_message_get_class request ≠ StunClass.STUN_REQUEST then (false, msg)
  else
    let msg1 : StunMessage :=
      { buffer := buffer, buffer_len := buffer_len, key := request.key, key_len := request.key_len }
    let id := stun_message_id request
    match stun_message_init msg1 StunClass.STUN_ERROR (stun_message_get_method request) id with
    | (true, m1) =>
      let m2 :=
        if agent.compatibility = StunCompatibility.STUN_COMPATIBILITY_3489BIS ∧
            usage agent STUN_AGENT_USAGE_ADD_SERVER = true then
          stun_message_append_server X m1
        else m1
      match stun_message_append_error X m2 err with
      | some m3 => (true, m3)
      | none => (false, m2)
    | (false, m1) => (false, m1)

/-- The `for` loop of `stun_agent_finish_message`: the record is stored in the first
slot that is not valid, if there is one. -/
def save_sent_id (id : List Nat) (method : Nat) (key : Option (List Nat)) (key_len : Nat) :
    List StunAgentSavedIds → List StunAgentSavedIds
  | [] => []
  | s :: rest =>
    if s.valid = false then
      { id := id, method := method, key := key, key_len := key_len, valid := true } :: rest
    else s :: save_sent_id id method key key_len rest

/-- Source `stun_agent_finish_message`, lines 398-401: the key pointer in use, that of
the message when it carries one, else the one passed by the caller. -/
def finish_key (msg : StunMessage) (key : Option (List Nat)) : Option (List Nat) :=
  match msg.key with
  | some k => some k
  | none => key

/-- Source `stun_agent_finish_message`, lines 398-401: the key length in use. -/
def finish_key_len (msg : StunMessage) (key_len : Nat) : Nat :=
  match msg.key with
  | some _ => msg.key_len
  | none => key_len

/-- Source `stun_agent_finish_message`, lines 403-418: with a key in use, the
MESSAGE-INTEGRITY attribute is appended and filled with the keyed hash of the message so
far; `none` where the append fails. -/
def finish_integrity (X : Collab) (msg : StunMessage) (key1 : Option (List Nat))
    (key_len1 : Nat) : Option StunMessage :=
  match key1 with
  | some k =>
    match stun_message_append msg STUN_ATTRIBUTE_MESSAGE_INTEGRITY 20 with
    | none => none
    | some (ptr, m1) =>
      some { m1 with
        buffer := wrbs m1.buffer ptr (stun_sha1 X m1.buffer (stun_message_length m1) k key_len1) }
  | none => some msg

/-- Source `stun_agent_finish_message`, lines 420-434: in the modern profile with the
use-fingerprint flag, the FINGERPRINT attribute is appended and filled with the checksum
of the message so far; `none` where the append fails. -/
def finish_checksum (X : Collab) (agent : StunAgent) (m1 : StunMessage) : Option StunMessage :=
  if agent.compatibility = StunCompatibility.STUN_COMPATIBILITY_3489BIS ∧
      usage agent STUN_AGENT_USAGE_USE_FINGERPRINT = true then
    match stun_message_append m1 STUN_ATTRIBUTE_FINGERPRINT 4 with
    | none => none
    | some (ptr, m2) =>
      some { m2 with
        buffer := wrbs m2.buffer ptr
          (hostBytes32 X (stun_fingerprint X m2.buffer (stun_message_length m2))) }
  else some m1

/-- Source `stun_agent_finish_message`, lines 437-449: a Request is recorded in the first
slot that is not valid. -/
def finish_record (agent : StunAgent) (m2 : StunMessage) (key1 : Option (List Nat))
    (key_len1 : Nat) : StunAgent :=
  if stun_message_get_class m2 = StunClass.STUN_REQUEST then
    { agent with
      sent_ids := save_sent_id (stun_message_id m2) (stun_message_get_method m2) key1 key_len1
        agent.sent_ids }
  else agent

/-- Source `stun_agent_finish_message`: the returned length (0 on failure), the agent
and the message as the call leaves them. -/
def stun_agent_finish_message (X : Collab) (agent : StunAgent) (msg : StunMessage)
    (key : Option (List Nat)) (key_len : Nat) : Nat × StunAgent × StunMessage :=
  let key1 := finish_key msg key
  let key_len1 := finish_key_len msg key_len
  match finish_integrity X msg key1 key_len1 with
  | none => (0, agent, msg)
  | some m1 =>
    match finish_checksum X agent m1 with
    | none => (0, agent, m1)
    | some m2 =>
      let m3 : StunMessage := { m2 with key := key1, key_len := key_len1 }
      (stun_message_length m3, finish_record agent m2 key1 key_len1, m3)

/-- Source `stun_agent_build_unknown_attributes_error`; `msg` is the output message as
found. The result is `none` only when the unknown-attribute scan ran out of fuel. -/
def stun_agent_build_unknown_attributes_error (X : Collab) (agent : StunAgent)
    (msg : StunMessage) (buffer : List Nat) (buffer_len : Nat) (request : StunMessage) :
    Option (Nat × StunAgent × StunMessage) :=
  match stun_agent_find_unknowns X agent request STUN_AGENT_MAX_UNKNOWN_ATTRIBUTES with
  | none => none
  | some ids =>
    match stun_agent_init_error X agent msg buffer buffer_len request
        STUN_ERROR_UNKNOWN_ATTRIBUTE with
    | (false, m1) => some (0, agent, m1)
    | (true, m1) =>
      let ids1 : List Nat :=
        if stun_has_cookie request = false ∧ ids.length % 2 = 1 then ids ++ [ids.getD 0 0]
        else ids
      match stun_message_append_bytes m1 STUN_ATTRIBUTE_UNKNOWN_ATTRIBUTES
          (ids1.flatMap (hostBytes16 X)) (ids1.length * 2) with
      | some m2 => some (stun_agent_finish_message X agent m2 request.key request.key_len)
      | none => some (0, agent, m1)

/-! ## Vocabulary of the statements -/

/-- The message view `stun_agent_validate` sets up once the frame check has passed
(lines 119-123). -/
def viewed (buffer : List Nat) (buffer_len : Nat) : StunMessage :=
  { buffer := buffer, buffer_len := buffer_len, key := none, key_len := 0 }

/-- The frame stage accepts the buffer: the pre-check reports neither "invalid" nor
"incomplete", and the complete length it reports is `buffer_len`. -/
def complete_frame (X : Collab) (buffer : List Nat) (buffer_len : Nat) : Prop :=
  X.validate_buffer_length buffer buffer_len ≠ STUN_MESSAGE_BUFFER_INVALID ∧
  X.validate_buffer_length buffer buffer_len ≠ STUN_MESSAGE_BUFFER_INCOMPLETE ∧
  X.validate_buffer_length buffer buffer_len = int_of_size buffer_len

instance (X : Collab) (buffer : List Nat) (buffer_len : Nat) :
    Decidable (complete_frame X buffer buffer_len) := by
  unfold complete_frame; infer_instance

/-- The message passes the cookie stage of the agent. -/
def cookie_ok (agent : StunAgent) (m : StunMessage) : Prop :=
  ¬ (agent.compatibility = StunCompatibility.STUN_COMPATIBILITY_3489BIS ∧
    stun_has_cookie m = false)

instance (agent : StunAgent) (m : StunMessage) : Decidable (cookie_ok agent m) := by
  unfold cookie_ok; infer_instance

/-- The message passes the checksum (FINGERPRINT) stage of the agent. -/
def checksum_ok (X : Collab) (agent : StunAgent) (m : StunMessage) : Prop :=
  ¬ (agent.compatibility = StunCompatibility.STUN_COMPATIBILITY_3489BIS ∧
    usage agent STUN_AGENT_USAGE_USE_FINGERPRINT = true ∧ fingerprint_ok X m = false)

instance (X : Collab) (agent : StunAgent) (m : StunMessage) :
    Decidable (checksum_ok X agent m) := by
  unfold checksum_ok; infer_instance

/-- The message is of class Response or Error. -/
def is_reply (m : StunMessage) : Prop :=
  stun_message_get_class m = StunClass.STUN_RESPONSE ∨
  stun_message_get_class m = StunClass.STUN_ERROR

instance (m : StunMessage) : Decidable (is_reply m) := by
  unfold is_reply; infer_instance

/-- The slot is occupied and holds the method and the transaction id of the message. -/
def slot_matches (m : StunMessage) (s : StunAgentSavedIds) : Prop :=
  s.valid = true ∧ s.method = stun_message_get_method m ∧ stun_message_id m = s.id

instance (m : StunMessage) (s : StunAgentSavedIds) : Decidable (slot_matches m s) := by
  unfold slot_matches; infer_instance

/-- The index at which the correlation loop of `stun_agent_validate` stops for the message. -/
def matched_index (agent : StunAgent) (m : StunMessage) : Nat :=
  find_sent_id (stun_message_get_method m) (stun_message_id m) agent.sent_ids 0

/-- The message passes the transaction-correlation stage: it is not a reply, or the
loop stopped at a slot. -/
def correlation_ok (agent : StunAgent) (m : StunMessage) : Prop :=
  is_reply m → matched_index agent m ≠ STUN_AGENT_MAX_SAVED_IDS agent

instance (agent : StunAgent) (m : StunMessage) : Decidable (correlation_ok agent m) := by
  unfold correlation_ok; infer_instance

/-- The value of `sent_id_idx` after the correlation stage: the index at which the loop
stopped for a reply, `-1` otherwise. -/
def passed_index (agent : StunAgent) (m : StunMessage) : Int :=
  if is_reply m then (matched_index agent m : Int) else -1

/-- The key pointer the correlation stage leaves in `key`: that of the matched slot for a
reply, `NULL` otherwise. -/
def slot_key (agent : StunAgent) (m : StunMessage) : Option (List Nat) :=
  if is_reply m then (agent.sent_ids.get? (matched_index agent m)).bind (fun s => s.key)
  else none

/-- The key length the correlation stage leaves in `key_len`. -/
def slot_key_len (agent : StunAgent) (m : StunMessage) : Nat :=
  if is_reply m then ((agent.sent_ids.get? (matched_index agent m)).map (fun s => s.key_len)).getD 0
  else 0

/-- A request handed to `stun_agent_finish_message`: the message, the key and the key
length passed by the caller. -/
abbrev FinishCall := StunMessage × Option (List Nat) × Nat

/-- Successive calls of `stun_agent_finish_message` on one agent, with no validation in
between: the agent after the last call and, for every call, the returned length and the
message as the call leaves it. -/
def finish_all (X : Collab) : StunAgent → List FinishCall → StunAgent × List (Nat × StunMessage)
  | agent, [] => (agent, [])
  | agent, r :: rest =>
    ((finish_all X (stun_agent_finish_message X agent r.1 r.2.1 r.2.2).2.1 rest).1,
     ((stun_agent_finish_message X agent r.1 r.2.1 r.2.2).1,
      (stun_agent_finish_message X agent r.1 r.2.1 r.2.2).2.2) ::
      (finish_all X (stun_agent_finish_message X agent r.1 r.2.1 r.2.2).2.1 rest).2)

/-- The record `stun_agent_finish_message` stores for a finished request. -/
def sent_record (r : FinishCall) : StunAgentSavedIds :=
  { id := stun_message_id r.1, method := stun_message_get_method r.1,
    key := finish_key r.1 r.2.1, key_len := finish_key_len r.1 r.2.2, valid := true }

/-- Contract of the keyed hash, from the spec ("everything before the digest value
itself, which allows a following checksum attribute to be ignored"): the digest of the
first `len` bytes reads neither the declared length field nor the last 20 bytes. -/
def keyed_hash_ignores_digest (X : Collab) : Prop :=
  ∀ (b1 b2 : List Nat) (len : Nat) (key : List Nat) (key_len : Nat),
    (∀ i, i + 20 < len → i ≠ 2 → i ≠ 3 → rdb b1 i = rdb b2 i) →
    stun_sha1 X b1 len key key_len = stun_sha1 X b2 len key key_len

/-- Contract of the checksum, from the spec ("the message bytes up to, but excluding,
the checksum"): the checksum of the first `len` bytes does not read the last 4 bytes. -/
def checksum_ignores_value (X : Collab) : Prop :=
  ∀ (b1 b2 : List Nat) (len : Nat),
    (∀ i, i + 4 < len → rdb b1 i = rdb b2 i) →
    stun_fingerprint X b1 len = stun_fingerprint X b2 len

/-- The buffer after `stun_message_append` has appended, at the old end `L` of the
message, an attribute of the given type and (aligned) length, and its value `vs` has been
stored: attribute header at `L`, declared length of the message advanced, value at `L + 4`. -/
def with_attribute (B : List Nat) (L type length : Nat) (vs : List Nat) : List Nat :=
  wrbs (stun_setw (stun_setw (stun_setw B L type) (L + 2) length) 2 (L + 4 + length - 20))
    (L + 4) vs

/-- The two buffers agree on the header outside the declared length: the type field
(class and method) and the transaction id. -/
def same_header (b1 b2 : List Nat) : Prop :=
  ∀ i, i < STUN_MESSAGE_HEADER_LENGTH → i ≠ 2 → i ≠ 3 → rdb b2 i = rdb b1 i

/-! ## A reference host and sample data for concrete runs -/

/-- The attribute walk of a frame pre-check: every attribute fits in the declared length. -/
def frame_walk (buf : List Nat) : Nat → Nat → Nat → Bool
  | 0, _, len => decide (len = 0)
  | fuel + 1, off, len =>
    if len = 0 then true
    else if len < 4 then false
    else
      let alen := stun_align (stun_getw buf (off + 2))
      if len - 4 < alen then false
      else frame_walk buf fuel (off + 4 + alen) (len - 4 - alen)

/-- A little-endian host with a frame pre-check, a toy keyed hash and a toy checksum;
the toy hash and checksum read the type field, the length and the key only. -/
def refCollab : Collab where
  bigEndian := false
  validate_buffer_length := fun buf n =>
    if n < 1 then 0
    else if rdb buf 0 / 64 ≠ 0 then -1
    else if n < 4 then 0
    else
      let mlen := stun_getw buf 2 + 20
      if mlen % 4 ≠ 0 then -1
      else if n < mlen then 0
      else if frame_walk buf mlen 20 (mlen - 20) then (mlen : Int) else -1
  sha1 := fun buf len key key_len =>
    if len < 44 then List.replicate 20 0
    else List.replicate 20 ((rdb buf 0 + rdb buf 1 + len + key_len + rdb key 0) % 256)
  fingerprint := fun buf len => if len < 28 then 0 else rdb buf 0 * 256 + rdb buf 1 + len
  strerror := fun _ => []
  server := []

/-- An empty slot. -/
def emptySlot : StunAgentSavedIds :=
  { id := [], method := 0, key := none, key_len := 0, valid := false }

/-- A freshly initialised agent with `n` slots. -/
def freshAgent (n : Nat) (known_attributes : List Nat) (compatibility : StunCompatibility)
    (usage_flags : Nat) : StunAgent :=
  stun_agent_init
    { known_attributes := [], compatibility := StunCompatibility.STUN_COMPATIBILITY_RFC3489,
      usage_flags := 0, sent_ids := List.replicate n emptySlot }
    known_attributes compatibility usage_flags

/-- A 16-byte transaction id without the magic cookie. -/
def sampleId : List Nat := [1, 2, 3, 4, 5, 6, 7, 8, 9, 10, 11, 12, 13, 14, 15, 16]

/-- A Response (method 1, transaction id `sampleId`) with a USERNAME attribute
"user" and nothing else. -/
def responseWithUsername : List Nat :=
  [1, 1, 0, 8] ++ sampleId ++ [0, 6, 0, 4, 117, 115, 101, 114]

/-- A Request (method 1, transaction id `sampleId`) with a USERNAME attribute
"user" and nothing else. -/
def requestWithUsername : List Nat :=
  [0, 1, 0, 8] ++ sampleId ++ [0, 6, 0, 4, 117, 115, 101, 114]

/-- A key of three bytes. -/
def sampleKey : List Nat := [115, 101, 99]

/-- A fresh legacy agent with 200 slots that knows USERNAME and MESSAGE-INTEGRITY. -/
def legacyAgent (usage_flags : Nat) : StunAgent :=
  freshAgent 200 [6, 8, 0] StunCompatibility.STUN_COMPATIBILITY_RFC3489 usage_flags

/-- A Request of method 1 built by `stun_agent_init_request` in a 64-byte buffer. -/
def builtRequest (agent : StunAgent) : StunMessage :=
  (stun_agent_init_request agent (List.replicate 64 0) 64 1 sampleId).2

/-- The built Request finished on a legacy agent with `sampleKey` and a key length. -/
def finishedRequest (usage_flags key_len : Nat) : Nat × StunAgent × StunMessage :=
  stun_agent_finish_message refCollab (legacyAgent usage_flags)
    (builtRequest (legacyAgent usage_flags)) (some sampleKey) key_len

/-- The built Request finished on a given agent with `sampleKey` and a key length. -/
def finishedBy (agent : StunAgent) (key_len : Nat) : Nat × StunAgent × StunMessage :=
  stun_agent_finish_message refCollab agent (builtRequest agent) (some sampleKey) key_len

/-- A validater that always returns `sampleKey` with length 3. -/
def sampleValidater : StunMessageIntegrityValidate :=
  fun _ _ _ _ => some (some sampleKey, 3)

/-- A fresh modern agent with 200 slots that requires the FINGERPRINT and knows USERNAME
and MESSAGE-INTEGRITY. -/
def modernAgent : StunAgent :=
  freshAgent 200 [6, 8, 0] StunCompatibility.STUN_COMPATIBILITY_3489BIS
    STUN_AGENT_USAGE_USE_FINGERPRINT

/-- A fresh legacy agent with 200 slots and default flags that knows USERNAME only. -/
def unawareAgent : StunAgent :=
  freshAgent 200 [6, 0] StunCompatibility.STUN_COMPATIBILITY_RFC3489 0

/-- A fresh modern agent that requires the FINGERPRINT, with a cache of two slots (the
capacity STUN_AGENT_MAX_SAVED_IDS is the length of `sent_ids`). -/
def smallModernAgent : StunAgent :=
  freshAgent 2 [6, 8, 0] StunCompatibility.STUN_COMPATIBILITY_3489BIS
    STUN_AGENT_USAGE_USE_FINGERPRINT

/-- A 16-byte transaction id that ends with the number `i`. -/
def numberedId (i : Nat) : List Nat := List.replicate 14 0 ++ [i / 256 % 256, i % 256]

/-- Request number `i`: built by `stun_agent_init_request` (method 1) in a 64-byte buffer
and handed to the finisher with `sampleKey`. -/
def numberedCall (agent : StunAgent) (i : Nat) : FinishCall :=
  ((stun_agent_init_request agent (List.replicate 64 0) 64 1 (numberedId i)).2,
    some sampleKey, 3)

/-- The first `n` numbered requests. -/
def numberedCalls (agent : StunAgent) (n : Nat) : List FinishCall :=
  (List.range n).map (numberedCall agent)

/-- A Response of method 1 without attributes that carries the magic cookie and the
transaction id of request number `i`. -/
def bareResponse (i : Nat) : List Nat :=
  [1, 1, 0, 0] ++ STUN_MAGIC_COOKIE_BYTES ++ List.replicate 10 0 ++ [i / 256 % 256, i % 256]

/-- A fresh legacy agent with default flags and a cache of two slots. -/
def smallLegacyAgent : StunAgent :=
  freshAgent 2 [6, 8, 0] StunCompatibility.STUN_COMPATIBILITY_RFC3489 0

/-- A Response of method 1 without attributes that carries the transaction id
`numberedId i`. -/
def plainResponse (i : Nat) : List Nat := [1, 1, 0, 0] ++ numberedId i

/-- A Request (method 1) without the magic cookie that carries one attribute, of the
mandatory-class type 0x0030, which `legacyAgent` does not know. -/
def unknownRequest : StunMessage :=
  viewed ([0, 1, 0, 8] ++ sampleId ++ [0, 0x30, 0, 4, 1, 2, 3, 4]) 28

/-- The same Request with the magic cookie at the head of its transaction id. -/
def unknownCookieRequest : StunMessage :=
  viewed ([0, 1, 0, 8] ++ STUN_MAGIC_COOKIE_BYTES ++ [5, 6, 7, 8, 9, 10, 11, 12, 13, 14, 15, 16]
    ++ [0, 0x30, 0, 4, 1, 2, 3, 4]) 28

/-- The unknown-attributes error a legacy agent builds, in a 64-byte buffer, for a request. -/
def builtError (request : StunMessage) : Option (Nat × StunAgent × StunMessage) :=
  stun_agent_build_unknown_attributes_error refCollab (legacyAgent 0) (viewed [] 0)
    (List.replicate 64 0) 64 request

/-- A Request (method 1) whose only attribute is a MESSAGE-INTEGRITY with an all-zero
digest. -/
def zeroDigestRequest : List Nat :=
  [0, 1, 0, 24] ++ sampleId ++ [0, 8, 0, 20] ++ List.replicate 20 0

/-- A validater that returns `sampleKey` with a key length of 0. -/
def emptyKeyValidater : StunMessageIntegrityValidate :=
  fun _ _ _ _ => some (some sampleKey, 0)

/-- A Request (method 1) whose only attribute is a MESSAGE-INTEGRITY that holds the toy
digest of `refCollab` for `sampleKey` with key length 3. -/
def signedRequest : List Nat :=
  [0, 1, 0, 24] ++ sampleId ++ [0, 8, 0, 20] ++ List.replicate 20 163

/-- A legacy agent after it has finished, without a key, the built Request (method 1,
transaction id `sampleId`): slot 0 of its cache is occupied. -/
def waitingAgent : StunAgent :=
  (stun_agent_finish_message refCollab (legacyAgent 0) (builtRequest (legacyAgent 0)) none 0).2.1

/-- A Response (method 1, transaction id `sampleId`) that carries one attribute, of the
mandatory-class type 0x0030, which `legacyAgent` does not know. -/
def unknownResponse : List Nat :=
  [1, 1, 0, 8] ++ sampleId ++ [0, 0x30, 0, 4, 1, 2, 3, 4]

/-- The finished buffer with the class bits of the type field changed to Response. -/
def responseCopy (usage_flags key_len : Nat) : List Nat :=
  wrb (finishedRequest usage_flags key_len).2.2.buffer 0 1

/-! ## Vocabulary for the attribute scan and the default validater -/

/-- Following the spec: the type codes of the attributes between `offset` and the
declared message length `length`, in message order; an attribute is a 4-byte header
followed by its value, padded to 4 bytes. -/
def attribute_types_loop (buf : List Nat) (length : Nat) : Nat → Nat → List Nat
  | 0, _ => []
  | fuel + 1, offset =>
    if offset < length then
      stun_getw buf offset ::
        attribute_types_loop buf length fuel
          (offset + (4 + stun_align (stun_getw buf (offset + 2))))
    else []

/-- Following the spec: the type codes of the attributes of the message, walking from
the first attribute offset to the declared message length. -/
def message_attribute_types (msg : StunMessage) : List Nat :=
  attribute_types_loop msg.buffer (stun_message_length msg) (stun_message_length msg)
    STUN_MESSAGE_ATTRIBUTES_POS

/-- Following the spec: the type code occurs in `known_attributes` before its 0
terminator. -/
def known_attribute (agent : StunAgent) (type : Nat) : Bool :=
  (agent.known_attributes.takeWhile (fun k => k % 65536 != 0)).any (fun k => k % 65536 == type)

/-- Following the spec: the type codes, in message order, of the attributes of the
message that are not optional-class and do not occur in `known_attributes`. -/
def unknown_mandatory_attributes (agent : StunAgent) (msg : StunMessage) : List Nat :=
  (message_attribute_types msg).filter (fun t => !stun_optional t && !known_attribute agent t)

/-- Following the spec: the entries of the credential list before the terminating entry,
the one with a null username. -/
def credential_entries (val : List stun_validater_data) : List stun_validater_data :=
  val.takeWhile (fun v => v.username.isSome)

/-- Following the spec: the entry matches the supplied username "by length-OR-content",
its `username_len` is the supplied one or its first `username_len` bytes are the
supplied bytes. -/
def username_matches (username : Option (List Nat)) (username_len : Nat)
    (v : stun_validater_data) : Bool :=
  decide (username_len = v.username_len) ||
    decide (rdbs (username.getD []) 0 username_len = rdbs (v.username.getD []) 0 username_len)

/-! ## More sample data -/

/-- A Request of method 1, transaction id `sampleId`, without attributes. -/
def bareRequest : List Nat := [0, 1, 0, 0] ++ sampleId

/-- The first 24 bytes of a Request of 65536 bytes (declared length 65516) whose only
attribute has the mandatory-class type 0x0030, which `legacyAgent` does not know, and a
value of 65512 bytes; the bytes of the value read as 0. -/
def oversizeRequest : List Nat := [0, 1, 0xFF, 0xEC] ++ sampleId ++ [0, 0x30, 0xFF, 0xE8]

/-- A legacy agent with default flags and two slots after it has finished the built
Request with `sampleKey` and key length 3: slot 0 holds the transaction id `sampleId`,
method 1 and the key. -/
def keyedAgent : StunAgent := (finishedBy smallLegacyAgent 3).2.1

/-- A Response of method 1 with the transaction id `sampleId` and no attribute. -/
def unsignedResponse : List Nat := [1, 1, 0, 0] ++ sampleId

/-- A credential list of two entries and its terminator. -/
def sampleCredentials : List stun_validater_data :=
  [ { username := some [97, 108, 105, 99, 101], username_len := 5,
      password := some [112, 49], password_len := 2 },
    { username := some [98, 111, 98], username_len := 3,
      password := some [112, 50], password_len := 2 },
    { username := none, username_len := 0, password := none, password_len := 0 } ]

/-- The built Request of a legacy agent with the key `sampleKey`, key length 3, already
attached to the message. -/
def keyedRequest : StunMessage :=
  { builtRequest smallLegacyAgent with key := some sampleKey, key_len := 3 }

/-- The built Request of a legacy agent seen through a buffer length of 20: there is no
room for a further attribute. -/
def fullRequest : StunMessage :=
  { builtRequest smallLegacyAgent with buffer_len := 20 }

/-- The reference host with a toy keyed hash that reads the length and the key only, not
the type field of the message. -/
def blindCollab : Collab :=
  { refCollab with
    sha1 := fun _ len key key_len => List.replicate 20 ((len + key_len + rdb key 0) % 256) }

/-- The built Request finished under `blindCollab` on a legacy agent of two slots, with
`sampleKey` and key length 3. -/
def blindFinished : Nat × StunAgent × StunMessage :=
  stun_agent_finish_message blindCollab smallLegacyAgent (builtRequest smallLegacyAgent)
    (some sampleKey) 3

/-- The buffer of `blindFinished` with the class bits of the type field changed to
Response. -/
def blindCopy : List Nat := wrb blindFinished.2.2.buffer 0 1

/-- The buffer of the built Request finished under `refCollab` with `sampleKey` and key
length 3 on a legacy agent of two slots, with the class bits of the type field changed to
Response. -/
def keyedCopy : List Nat := wrb (finishedBy smallLegacyAgent 3).2.2.buffer 0 1

/-! ## Memory lemmas -/

theorem rdb_lt (buf : List Nat) (i : Nat) : rdb buf i < 256 := by
  unfold rdb; omega

theorem rdb_wrb (buf : List Nat) (i v j : Nat) :
    rdb (wrb buf i v) j = if j = i then v % 256 else rdb buf j := by
  unfold rdb wrb
  simp only [List.getD_eq_getElem?_getD]
  by_cases h : j = i
  · subst h
    simp only [if_true]
    rw [List.getElem?_set_self]
    · simp
    · simp; omega
  · simp only [if_neg h]
    rw [List.getElem?_set_ne (Ne.symm h)]
    by_cases hj : j < buf.length
    · rw [List.getElem?_append_left hj]
    · rw [List.getElem?_append_right (by omega)]
      have : buf[j]? = none := by simp; omega
      rw [this]
      by_cases hj2 : j - buf.length < i + 1 - buf.length
      · simp [List.getElem?_replicate, hj2]
      · simp [List.getElem?_replicate, hj2]

theorem rdb_wrbs (vs : List Nat) (buf : List Nat) (off j : Nat) :
    rdb (wrbs buf off vs) j =
      if off ≤ j ∧ j < off + vs.length then vs.getD (j - off) 0 % 256 else rdb buf j := by
  induction vs generalizing buf off with
  | nil =>
    simp only [wrbs, List.length_nil, Nat.add_zero]
    rw [if_neg (by omega)]
  | cons v vs ih =>
    simp only [wrbs, ih, rdb_wrb, List.length_cons]
    by_cases h1 : off + 1 ≤ j ∧ j < off + 1 + vs.length
    · rw [if_pos h1, if_pos (by omega)]
      have : j - off = (j - (off + 1)) + 1 := by omega
      rw [this, List.getD_cons_succ]
    · rw [if_neg h1]
      by_cases h2 : j = off
      · subst h2; simp
      · rw [if_neg h2, if_neg (by omega)]

set_option maxRecDepth 100000

/-! ## The stages of `stun_agent_validate` -/

theorem validate_of_complete_frame (X : Collab) (agent : StunAgent) (msg : StunMessage)
    (buffer : List Nat) (buffer_len : Nat) (validater : Option StunMessageIntegrityValidate)
    (hframe : complete_frame X buffer buffer_len) :
    stun_agent_validate X agent msg buffer buffer_len validater =
      validate_demux X agent (viewed buffer buffer_len) validater := by
  obtain ⟨h1, h2, h3⟩ := hframe
  simp only [stun_agent_validate, viewed]
  rw [if_neg h1, if_neg h2, if_neg (not_not.mpr h3)]

theorem validate_of_not_complete_frame (X : Collab) (agent : StunAgent) (msg : StunMessage)
    (buffer : List Nat) (buffer_len : Nat) (validater : Option StunMessageIntegrityValidate)
    (hframe : ¬ complete_frame X buffer buffer_len) :
    stun_agent_validate X agent msg buffer buffer_len validater =
        some (StunValidationStatus.STUN_VALIDATION_NOT_STUN, agent, msg) ∨
      stun_agent_validate X agent msg buffer buffer_len validater =
        some (StunValidationStatus.STUN_VALIDATION_INCOMPLETE_STUN, agent, msg) := by
  simp only [stun_agent_validate]
  by_cases h1 : X.validate_buffer_length buffer buffer_len = STUN_MESSAGE_BUFFER_INVALID
  · left; rw [if_pos h1]
  · by_cases h2 : X.validate_buffer_length buffer buffer_len = STUN_MESSAGE_BUFFER_INCOMPLETE
    · right; rw [if_neg h1, if_pos h2]
    · by_cases h3 : X.validate_buffer_length buffer buffer_len = int_of_size buffer_len
      · exact absurd ⟨h1, h2, h3⟩ hframe
      · left; rw [if_neg h1, if_neg h2, if_pos h3]

theorem validate_demux_of_ok (X : Collab) (agent : StunAgent) (m : StunMessage)
    (validater : Option StunMessageIntegrityValidate)
    (hcookie : cookie_ok agent m) (hsum : checksum_ok X agent m) :
    validate_demux X agent m validater = validate_correlation X agent m validater := by
  unfold validate_demux
  rw [if_neg hcookie, if_neg hsum]

theorem validate_correlation_of_not_reply (X : Collab) (agent : StunAgent) (m : StunMessage)
    (validater : Option StunMessageIntegrityValidate) (h : ¬ is_reply m) :
    validate_correlation X agent m validater =
      validate_credentials X agent m validater (-1) none 0 := by
  unfold validate_correlation
  unfold is_reply at h
  rw [if_neg h]

theorem validate_correlation_of_reply (X : Collab) (agent : StunAgent) (m : StunMessage)
    (validater : Option StunMessageIntegrityValidate) (h : is_reply m) :
    validate_correlation X agent m validater =
      if matched_index agent m = STUN_AGENT_MAX_SAVED_IDS agent then
        some (StunValidationStatus.STUN_VALIDATION_UNMATCHED_RESPONSE, agent, m)
      else validate_credentials X agent m validater (matched_index agent m)
        (slot_key agent m) (slot_key_len agent m) := by
  unfold validate_correlation
  simp only [slot_key, slot_key_len, if_pos h, matched_index]
  unfold is_reply at h
  rw [if_pos h]

/-- The index handed to the later stages: the matched index for a reply, `-1` otherwise. -/
theorem validate_correlation_of_ok (X : Collab) (agent : StunAgent) (m : StunMessage)
    (validater : Option StunMessageIntegrityValidate) (h : correlation_ok agent m) :
    validate_correlation X agent m validater =
      validate_credentials X agent m validater (passed_index agent m)
        (slot_key agent m) (slot_key_len agent m) := by
  unfold passed_index
  by_cases hr : is_reply m
  · rw [validate_correlation_of_reply X agent m validater hr, if_neg (h hr), if_pos hr]
  · rw [validate_correlation_of_not_reply X agent m validater hr, if_neg hr]
    simp only [slot_key, slot_key_len, if_neg hr]

/-- Claim C1, as amended: for an agent whose usage flags do not include
ignore-credentials, a complete-frame message of any class that passes the cookie, checksum
and transaction-correlation stages and has a USERNAME attribute but no MESSAGE-INTEGRITY
attribute is answered with STUN_VALIDATION_UNAUTHORIZED, the agent being left as it was. -/
theorem C1_username_without_integrity_is_unauthorized
    (X : Collab) (agent : StunAgent) (msg : StunMessage)
    (buffer : List Nat) (buffer_len : Nat) (validater : Option StunMessageIntegrityValidate)
    (hign : usage agent STUN_AGENT_USAGE_IGNORE_CREDENTIALS = false)
    (hframe : complete_frame X buffer buffer_len)
    (hcookie : cookie_ok agent (viewed buffer buffer_len))
    (hsum : checksum_ok X agent (viewed buffer buffer_len))
    (hcorr : correlation_ok agent (viewed buffer buffer_len))
    (huser : stun_message_has_attribute (viewed buffer buffer_len) STUN_ATTRIBUTE_USERNAME = true)
    (hmi : stun_message_has_attribute (viewed buffer buffer_len)
      STUN_ATTRIBUTE_MESSAGE_INTEGRITY = false) :
    stun_agent_validate X agent msg buffer buffer_len validater =
      some (StunValidationStatus.STUN_VALIDATION_UNAUTHORIZED, agent, viewed buffer buffer_len) := by
  have hpol : credential_policy_violated agent (viewed buffer buffer_len) = true := by
    simp [credential_policy_violated, hign, huser, hmi]
  rw [validate_of_complete_frame X agent msg buffer buffer_len validater hframe,
    validate_demux_of_ok X agent _ validater hcookie hsum,
    validate_correlation_of_ok X agent _ validater hcorr]
  unfold validate_credentials
  rw [if_pos hpol]

/-- Claim C1, witness: a Request with USERNAME and without MESSAGE-INTEGRITY on a fresh
legacy agent with default flags. -/
theorem C1_username_without_integrity_is_unauthorized_witness :
    stun_agent_validate refCollab
        (freshAgent 200 [6, 8, 0] StunCompatibility.STUN_COMPATIBILITY_RFC3489 0)
        (viewed [] 0) requestWithUsername 28 none =
      some (StunValidationStatus.STUN_VALIDATION_UNAUTHORIZED,
        freshAgent 200 [6, 8, 0] StunCompatibility.STUN_COMPATIBILITY_RFC3489 0,
        viewed requestWithUsername 28) :=
  C1_username_without_integrity_is_unauthorized refCollab
    (freshAgent 200 [6, 8, 0] StunCompatibility.STUN_COMPATIBILITY_RFC3489 0)
    (viewed [] 0) requestWithUsername 28 none
    (by decide) (by decide) (by decide) (by decide) (by decide) (by decide) (by decide)

/-- Claim C1, counterexample: on a fresh legacy agent with default flags (credentials
not ignored), a complete-frame Response that has USERNAME and no MESSAGE-INTEGRITY is
answered with STUN_VALIDATION_UNMATCHED_RESPONSE, not with STUN_VALIDATION_UNAUTHORIZED. -/
theorem C1_counterexample :
    usage (freshAgent 200 [6, 8, 0] StunCompatibility.STUN_COMPATIBILITY_RFC3489 0)
        STUN_AGENT_USAGE_IGNORE_CREDENTIALS = false ∧
    complete_frame refCollab responseWithUsername 28 ∧
    stun_message_has_attribute (viewed responseWithUsername 28) STUN_ATTRIBUTE_USERNAME = true ∧
    stun_message_has_attribute (viewed responseWithUsername 28)
      STUN_ATTRIBUTE_MESSAGE_INTEGRITY = false ∧
    stun_agent_validate refCollab
        (freshAgent 200 [6, 8, 0] StunCompatibility.STUN_COMPATIBILITY_RFC3489 0)
        (viewed [] 0) responseWithUsername 28 none =
      some (StunValidationStatus.STUN_VALIDATION_UNMATCHED_RESPONSE,
        freshAgent 200 [6, 8, 0] StunCompatibility.STUN_COMPATIBILITY_RFC3489 0,
        viewed responseWithUsername 28) := by
  refine ⟨by decide, by decide, by decide, by decide, by decide⟩

/-! ## The transaction cache -/

theorem find_sent_id_add (method : Nat) (id : List Nat) (L : List StunAgentSavedIds) (k : Nat) :
    find_sent_id method id L k = k + find_sent_id method id L 0 := by
  induction L generalizing k with
  | nil => simp [find_sent_id]
  | cons s rest ih =>
    simp only [find_sent_id]
    by_cases h : s.valid = true ∧ s.method = method ∧ id = s.id
    · rw [if_pos h, if_pos h]; rfl
    · rw [if_neg h, if_neg h, ih (k + 1), ih (0 + 1)]; omega

theorem find_sent_id_cons (method : Nat) (id : List Nat) (s : StunAgentSavedIds)
    (rest : List StunAgentSavedIds) :
    find_sent_id method id (s :: rest) 0 =
      if s.valid = true ∧ s.method = method ∧ id = s.id then 0
      else find_sent_id method id rest 0 + 1 := by
  simp only [find_sent_id]
  by_cases h : s.valid = true ∧ s.method = method ∧ id = s.id
  · rw [if_pos h, if_pos h]
  · rw [if_neg h, if_neg h, find_sent_id_add]; omega

theorem find_sent_id_le (method : Nat) (id : List Nat) (L : List StunAgentSavedIds) :
    find_sent_id method id L 0 ≤ L.length := by
  induction L with
  | nil => simp [find_sent_id]
  | cons s rest ih =>
    rw [find_sent_id_cons]
    split
    · omega
    · simp only [List.length_cons]; omega

theorem find_sent_id_eq_length_iff (method : Nat) (id : List Nat) (L : List StunAgentSavedIds) :
    find_sent_id method id L 0 = L.length ↔
      ∀ s ∈ L, ¬ (s.valid = true ∧ s.method = method ∧ id = s.id) := by
  induction L with
  | nil => simp [find_sent_id]
  | cons s rest ih =>
    rw [find_sent_id_cons]
    by_cases h : s.valid = true ∧ s.method = method ∧ id = s.id
    · rw [if_pos h]
      constructor
      · intro h0; simp at h0
      · intro hall; exact absurd h (hall s (List.mem_cons_self _ _))
    · rw [if_neg h]
      simp only [List.length_cons, Nat.add_right_cancel_iff, List.mem_cons, forall_eq_or_imp]
      rw [ih]
      constructor
      · intro hall; exact ⟨h, hall⟩
      · intro hall; exact hall.2

theorem find_sent_id_spec (method : Nat) (id : List Nat) (L : List StunAgentSavedIds)
    (hlt : find_sent_id method id L 0 < L.length) :
    (∃ s, L.get? (find_sent_id method id L 0) = some s ∧
      (s.valid = true ∧ s.method = method ∧ id = s.id)) ∧
    ∀ j, j < find_sent_id method id L 0 → ∀ t, L.get? j = some t →
      ¬ (t.valid = true ∧ t.method = method ∧ id = t.id) := by
  induction L with
  | nil => simp at hlt
  | cons s rest ih =>
    rw [find_sent_id_cons] at hlt ⊢
    by_cases h : s.valid = true ∧ s.method = method ∧ id = s.id
    · rw [if_pos h]
      refine ⟨⟨s, by simp, h⟩, ?_⟩
      intro j hj; omega
    · rw [if_neg h] at hlt ⊢
      have hlt2 : find_sent_id method id rest 0 < rest.length := by
        simp only [List.length_cons] at hlt; omega
      obtain ⟨⟨t, ht, hhit⟩, hbelow⟩ := ih hlt2
      refine ⟨⟨t, by simpa using ht, hhit⟩, ?_⟩
      intro j hj u hu
      cases j with
      | zero => simp at hu; subst hu; exact h
      | succ j => exact hbelow j (by omega) u (by simpa using hu)

theorem find_sent_id_eq_of_first (method : Nat) (id : List Nat) (L : List StunAgentSavedIds)
    (i : Nat) (s : StunAgentSavedIds) (hs : L.get? i = some s)
    (hhit : s.valid = true ∧ s.method = method ∧ id = s.id)
    (hbelow : ∀ j, j < i → ∀ t, L.get? j = some t →
      ¬ (t.valid = true ∧ t.method = method ∧ id = t.id)) :
    find_sent_id method id L 0 = i := by
  induction L generalizing i with
  | nil => simp at hs
  | cons u rest ih =>
    rw [find_sent_id_cons]
    cases i with
    | zero =>
      simp at hs; subst hs
      rw [if_pos hhit]
    | succ i =>
      have hu : ¬ (u.valid = true ∧ u.method = method ∧ id = u.id) :=
        hbelow 0 (by omega) u (by simp)
      rw [if_neg hu]
      have := ih i (by simpa using hs) (fun j hj t ht => hbelow (j + 1) (by omega) t (by simpa using ht))
      omega

theorem save_sent_id_eq_set (id : List Nat) (method : Nat) (key : Option (List Nat))
    (key_len : Nat) (L : List StunAgentSavedIds) (i : Nat) (s : StunAgentSavedIds)
    (hs : L.get? i = some s) (hfree : s.valid = false)
    (hbelow : ∀ j, j < i → ∀ t, L.get? j = some t → t.valid = true) :
    save_sent_id id method key key_len L =
      L.set i { id := id, method := method, key := key, key_len := key_len, valid := true } := by
  induction L generalizing i with
  | nil => simp at hs
  | cons u rest ih =>
    cases i with
    | zero =>
      simp at hs; subst hs
      simp [save_sent_id, hfree]
    | succ i =>
      have hu : u.valid = true := hbelow 0 (by omega) u (by simp)
      simp only [save_sent_id, hu, List.set_cons_succ]
      rw [if_neg (by simp)]
      rw [ih i (by simpa using hs) (fun j hj t ht => hbelow (j + 1) (by omega) t (by simpa using ht))]

theorem save_sent_id_full (id : List Nat) (method : Nat) (key : Option (List Nat))
    (key_len : Nat) (L : List StunAgentSavedIds) (hfull : ∀ s ∈ L, s.valid = true) :
    save_sent_id id method key key_len L = L := by
  induction L with
  | nil => rfl
  | cons u rest ih =>
    have hu : u.valid = true := hfull u (List.mem_cons_self _ _)
    simp only [save_sent_id, hu]
    rw [if_neg (by simp), ih (fun s hs => hfull s (List.mem_cons_of_mem _ hs))]

theorem save_sent_id_length (id : List Nat) (method : Nat) (key : Option (List Nat))
    (key_len : Nat) (L : List StunAgentSavedIds) :
    (save_sent_id id method key key_len L).length = L.length := by
  induction L with
  | nil => rfl
  | cons u rest ih =>
    simp only [save_sent_id]
    split
    · simp
    · simp [ih]

theorem clear_sent_id_length (L : List StunAgentSavedIds) (i : Nat) :
    (clear_sent_id L i).length = L.length := by
  unfold clear_sent_id
  split <;> simp

/-! ## Outcomes of the later stages -/

theorem validate_unknowns_cases (X : Collab) (agent1 : StunAgent) (msg2 : StunMessage)
    (st : StunValidationStatus) (a : StunAgent) (m : StunMessage)
    (h : validate_unknowns X agent1 msg2 = some (st, a, m)) :
    a = agent1 ∧ m = msg2 ∧
    ∃ unknown, stun_agent_find_unknowns X agent1 msg2 1 = some unknown ∧
      ((unknown.length = 0 ∧ st = StunValidationStatus.STUN_VALIDATION_SUCCESS) ∨
       (0 < unknown.length ∧ stun_message_get_class msg2 = StunClass.STUN_REQUEST ∧
          st = StunValidationStatus.STUN_VALIDATION_UNKNOWN_REQUEST_ATTRIBUTE) ∨
       (0 < unknown.length ∧ stun_message_get_class msg2 ≠ StunClass.STUN_REQUEST ∧
          st = StunValidationStatus.STUN_VALIDATION_UNKNOWN_ATTRIBUTE)) := by
  unfold validate_unknowns at h
  cases hu : stun_agent_find_unknowns X agent1 msg2 1 with
  | none => rw [hu] at h; simp at h
  | some unknown =>
    rw [hu] at h
    simp only at h
    by_cases hpos : unknown.length > 0
    · rw [if_pos hpos] at h
      by_cases hc : stun_message_get_class msg2 = StunClass.STUN_REQUEST
      · rw [if_pos hc] at h
        simp only [Option.some.injEq, Prod.mk.injEq] at h
        obtain ⟨h1, h2, h3⟩ := h
        exact ⟨h2.symm, h3.symm, unknown, rfl, Or.inr (Or.inl ⟨hpos, hc, h1.symm⟩)⟩
      · rw [if_neg hc] at h
        simp only [Option.some.injEq, Prod.mk.injEq] at h
        obtain ⟨h1, h2, h3⟩ := h
        exact ⟨h2.symm, h3.symm, unknown, rfl, Or.inr (Or.inr ⟨hpos, hc, h1.symm⟩)⟩
    · rw [if_neg hpos] at h
      simp only [Option.some.injEq, Prod.mk.injEq] at h
      obtain ⟨h1, h2, h3⟩ := h
      exact ⟨h2.symm, h3.symm, unknown, rfl, Or.inl ⟨by omega, h1.symm⟩⟩

theorem check_integrity_cases (X : Collab) (msg1 : StunMessage) (key : Option (List Nat))
    (key_len : Nat) (r : Option StunMessage) (h : check_integrity X msg1 key key_len = some r) :
    (r = some msg1 ∧ (key = none ∨ key_len = 0)) ∨
    ∃ k hash hlen, key = some k ∧ 0 < key_len ∧
      stun_message_find msg1 STUN_ATTRIBUTE_MESSAGE_INTEGRITY = some (hash, hlen) ∧
      ((r = none ∧ stun_sha1 X msg1.buffer (hash + 20) k key_len ≠ rdbs msg1.buffer hash 20) ∨
       (r = some { msg1 with key := some k, key_len := key_len } ∧
        stun_sha1 X msg1.buffer (hash + 20) k key_len = rdbs msg1.buffer hash 20)) := by
  unfold check_integrity at h
  cases key with
  | none =>
    simp only [Option.some.injEq] at h
    exact Or.inl ⟨h.symm, Or.inl rfl⟩
  | some k =>
    simp only at h
    by_cases hk : key_len > 0
    · rw [if_pos hk] at h
      cases hf : stun_message_find msg1 STUN_ATTRIBUTE_MESSAGE_INTEGRITY with
      | none => rw [hf] at h; simp at h
      | some p =>
        obtain ⟨hash, hlen⟩ := p
        rw [hf] at h
        simp only at h
        right
        refine ⟨k, hash, hlen, rfl, hk, rfl, ?_⟩
        by_cases hd : stun_sha1 X msg1.buffer (hash + 20) k key_len = rdbs msg1.buffer hash 20
        · rw [if_neg (not_not.mpr hd)] at h
          simp only [Option.some.injEq] at h
          exact Or.inr ⟨h.symm, hd⟩
        · rw [if_pos hd] at h
          simp only [Option.some.injEq] at h
          exact Or.inl ⟨h.symm, hd⟩
    · rw [if_neg hk] at h
      simp only [Option.some.injEq] at h
      exact Or.inl ⟨h.symm, Or.inr (by omega)⟩

theorem check_integrity_class (X : Collab) (msg1 msg2 : StunMessage) (key : Option (List Nat))
    (key_len : Nat) (h : check_integrity X msg1 key key_len = some (some msg2)) :
    msg2.buffer = msg1.buffer ∧ msg2.buffer_len = msg1.buffer_len := by
  rcases check_integrity_cases X msg1 key key_len _ h with ⟨h1, _⟩ | ⟨k, hash, hlen, _, _, _, h2⟩
  · simp only [Option.some.injEq] at h1; subst h1; exact ⟨rfl, rfl⟩
  · rcases h2 with ⟨h3, _⟩ | ⟨h3, _⟩
    · simp at h3
    · simp only [Option.some.injEq] at h3; subst h3; exact ⟨rfl, rfl⟩

theorem validate_integrity_cases (X : Collab) (agent : StunAgent) (msg1 : StunMessage)
    (idx : Int) (key : Option (List Nat)) (key_len : Nat)
    (st : StunValidationStatus) (a : StunAgent) (m : StunMessage)
    (h : validate_integrity X agent msg1 idx key key_len = some (st, a, m)) :
    (check_integrity X msg1 key key_len = some none ∧
      st = StunValidationStatus.STUN_VALIDATION_UNAUTHORIZED ∧ a = agent ∧ m = msg1) ∨
    ∃ msg2, check_integrity X msg1 key key_len = some (some msg2) ∧
      validate_unknowns X (release_slot agent idx) msg2 = some (st, a, m) := by
  unfold validate_integrity at h
  cases hc : check_integrity X msg1 key key_len with
  | none => rw [hc] at h; simp at h
  | some r =>
    cases r with
    | none =>
      rw [hc] at h
      simp only [Option.some.injEq, Prod.mk.injEq] at h
      exact Or.inl ⟨rfl, h.1.symm, h.2.1.symm, h.2.2.symm⟩
    | some msg2 =>
      rw [hc] at h
      exact Or.inr ⟨msg2, rfl, h⟩

theorem validate_credentials_cases (X : Collab) (agent : StunAgent) (msg1 : StunMessage)
    (validater : Option StunMessageIntegrityValidate) (idx : Int)
    (key0 : Option (List Nat)) (key_len0 : Nat)
    (st : StunValidationStatus) (a : StunAgent) (m : StunMessage)
    (h : validate_credentials X agent msg1 validater idx key0 key_len0 = some (st, a, m)) :
    (st = StunValidationStatus.STUN_VALIDATION_UNAUTHORIZED ∧ a = agent ∧ m = msg1) ∨
    (credential_policy_violated agent msg1 = false ∧
      ∃ key key_len msg2, resolve_key agent msg1 validater key0 key_len0 = some (key, key_len) ∧
        check_integrity X msg1 key key_len = some (some msg2) ∧
        validate_unknowns X (release_slot agent idx) msg2 = some (st, a, m)) := by
  unfold validate_credentials at h
  by_cases hp : credential_policy_violated agent msg1 = true
  · rw [if_pos hp] at h
    simp only [Option.some.injEq, Prod.mk.injEq] at h
    exact Or.inl ⟨h.1.symm, h.2.1.symm, h.2.2.symm⟩
  · rw [if_neg hp] at h
    cases hr : resolve_key agent msg1 validater key0 key_len0 with
    | none =>
      rw [hr] at h
      simp only [Option.some.injEq, Prod.mk.injEq] at h
      exact Or.inl ⟨h.1.symm, h.2.1.symm, h.2.2.symm⟩
    | some p =>
      obtain ⟨key, key_len⟩ := p
      rw [hr] at h
      simp only at h
      rcases validate_integrity_cases X agent msg1 idx key key_len st a m h with h1 | ⟨msg2, h2, h3⟩
      · exact Or.inl h1.2
      · exact Or.inr ⟨by simpa using hp, key, key_len, msg2, rfl, h2, h3⟩

/-- Every run of `stun_agent_validate` that returns either rejects the message before
the slot is released, leaving the agent as it was, or passes every stage up to the
unknown-attribute scan. -/
theorem validate_cases (X : Collab) (agent : StunAgent) (msg : StunMessage)
    (buffer : List Nat) (buffer_len : Nat) (validater : Option StunMessageIntegrityValidate)
    (st : StunValidationStatus) (a : StunAgent) (m : StunMessage)
    (h : stun_agent_validate X agent msg buffer buffer_len validater = some (st, a, m)) :
    (a = agent ∧
      (st = StunValidationStatus.STUN_VALIDATION_NOT_STUN ∨
       st = StunValidationStatus.STUN_VALIDATION_INCOMPLETE_STUN ∨
       st = StunValidationStatus.STUN_VALIDATION_BAD_REQUEST ∨
       st = StunValidationStatus.STUN_VALIDATION_UNMATCHED_RESPONSE ∨
       st = StunValidationStatus.STUN_VALIDATION_UNAUTHORIZED)) ∨
    (complete_frame X buffer buffer_len ∧
      cookie_ok agent (viewed buffer buffer_len) ∧
      checksum_ok X agent (viewed buffer buffer_len) ∧
      correlation_ok agent (viewed buffer buffer_len) ∧
      credential_policy_violated agent (viewed buffer buffer_len) = false ∧
      ∃ key key_len msg2,
        resolve_key agent (viewed buffer buffer_len) validater
          (slot_key agent (viewed buffer buffer_len))
          (slot_key_len agent (viewed buffer buffer_len)) = some (key, key_len) ∧
        check_integrity X (viewed buffer buffer_len) key key_len = some (some msg2) ∧
        validate_unknowns X
          (release_slot agent (passed_index agent (viewed buffer buffer_len))) msg2 =
            some (st, a, m)) := by
  by_cases hframe : complete_frame X buffer buffer_len
  · rw [validate_of_complete_frame X agent msg buffer buffer_len validater hframe] at h
    by_cases hcookie : cookie_ok agent (viewed buffer buffer_len)
    · by_cases hsum : checksum_ok X agent (viewed buffer buffer_len)
      · rw [validate_demux_of_ok X agent _ validater hcookie hsum] at h
        by_cases hcorr : correlation_ok agent (viewed buffer buffer_len)
        · rw [validate_correlation_of_ok X agent _ validater hcorr] at h
          rcases validate_credentials_cases X agent _ validater _ _ _ st a m h with h1 | h2
          · exact Or.inl ⟨h1.2.1, by simp [h1.1]⟩
          · exact Or.inr ⟨hframe, hcookie, hsum, hcorr, h2⟩
        · have hr : is_reply (viewed buffer buffer_len) := by
            by_contra hn; exact hcorr (fun hr => absurd hr hn)
          have hidx : matched_index agent (viewed buffer buffer_len) =
              STUN_AGENT_MAX_SAVED_IDS agent := by
            by_contra hn; exact hcorr (fun _ => hn)
          rw [validate_correlation_of_reply X agent _ validater hr, if_pos hidx] at h
          simp only [Option.some.injEq, Prod.mk.injEq] at h
          exact Or.inl ⟨h.2.1.symm, by simp [← h.1]⟩
      · unfold validate_demux at h
        rw [if_neg hcookie] at h
        unfold checksum_ok at hsum
        rw [if_pos (not_not.mp hsum)] at h
        simp only [Option.some.injEq, Prod.mk.injEq] at h
        exact Or.inl ⟨h.2.1.symm, by simp [← h.1]⟩
    · unfold validate_demux at h
      unfold cookie_ok at hcookie
      rw [if_pos (not_not.mp hcookie)] at h
      simp only [Option.some.injEq, Prod.mk.injEq] at h
      exact Or.inl ⟨h.2.1.symm, by simp [← h.1]⟩
  · rcases validate_of_not_complete_frame X agent msg buffer buffer_len validater hframe with h1 | h1
    · rw [h1] at h
      simp only [Option.some.injEq, Prod.mk.injEq] at h
      exact Or.inl ⟨h.2.1.symm, by simp [← h.1]⟩
    · rw [h1] at h
      simp only [Option.some.injEq, Prod.mk.injEq] at h
      exact Or.inl ⟨h.2.1.symm, by simp [← h.1]⟩

/-! ## Header fields and appended attributes -/

theorem rdb_stun_setw (buf : List Nat) (off v j : Nat) :
    rdb (stun_setw buf off v) j =
      if j = off + 1 then v % 256 else if j = off then v / 256 % 256 else rdb buf j := by
  unfold stun_setw
  rw [rdb_wrb, rdb_wrb]

theorem rdbs_congr (b1 b2 : List Nat) (off n : Nat)
    (h : ∀ i, off ≤ i → i < off + n → rdb b2 i = rdb b1 i) : rdbs b2 off n = rdbs b1 off n := by
  unfold rdbs
  apply List.map_congr_left
  intro i hi
  rw [List.mem_range] at hi
  exact h (off + i) (by omega) (by omega)

theorem same_header_refl (b : List Nat) : same_header b b := fun _ _ _ _ => rfl

theorem same_header_trans (b1 b2 b3 : List Nat) (h12 : same_header b1 b2)
    (h23 : same_header b2 b3) : same_header b1 b3 :=
  fun i h1 h2 h3 => (h23 i h1 h2 h3).trans (h12 i h1 h2 h3)

theorem stun_getw_zero_of_same_header (b1 b2 : List Nat) (h : same_header b1 b2) :
    stun_getw b2 0 = stun_getw b1 0 := by
  unfold stun_getw
  rw [h 0 (by decide) (by decide) (by decide), h 1 (by decide) (by decide) (by decide)]

theorem get_class_of_same_header (m1 m2 : StunMessage) (h : same_header m1.buffer m2.buffer) :
    stun_message_get_class m2 = stun_message_get_class m1 := by
  unfold stun_message_get_class
  rw [stun_getw_zero_of_same_header _ _ h]

theorem get_method_of_same_header (m1 m2 : StunMessage) (h : same_header m1.buffer m2.buffer) :
    stun_message_get_method m2 = stun_message_get_method m1 := by
  unfold stun_message_get_method
  rw [stun_getw_zero_of_same_header _ _ h]

theorem message_id_of_same_header (m1 m2 : StunMessage) (h : same_header m1.buffer m2.buffer) :
    stun_message_id m2 = stun_message_id m1 := by
  unfold stun_message_id
  apply rdbs_congr
  intro i h1 h2
  exact h i (by simp only [STUN_MESSAGE_TRANS_ID_POS, STUN_MESSAGE_TRANS_ID_LEN] at h2;
                simp only [STUN_MESSAGE_HEADER_LENGTH]; omega)
    (by simp only [STUN_MESSAGE_TRANS_ID_POS] at h1; omega)
    (by simp only [STUN_MESSAGE_TRANS_ID_POS] at h1; omega)

theorem has_cookie_of_same_header (m1 m2 : StunMessage) (h : same_header m1.buffer m2.buffer) :
    stun_has_cookie m2 = stun_has_cookie m1 := by
  unfold stun_has_cookie
  have : rdbs m2.buffer STUN_MESSAGE_TRANS_ID_POS 4 = rdbs m1.buffer STUN_MESSAGE_TRANS_ID_POS 4 := by
    apply rdbs_congr
    intro i h1 h2
    exact h i (by simp only [STUN_MESSAGE_TRANS_ID_POS] at h2;
                  simp only [STUN_MESSAGE_HEADER_LENGTH]; omega)
      (by simp only [STUN_MESSAGE_TRANS_ID_POS] at h1; omega)
      (by simp only [STUN_MESSAGE_TRANS_ID_POS] at h1; omega)
  rw [this]

theorem stun_message_length_ge (m : StunMessage) : 20 ≤ stun_message_length m := by
  unfold stun_message_length STUN_MESSAGE_HEADER_LENGTH; omega

/-- An append leaves every byte below the old end of the message, the declared length
apart, as it was, and the reserved value starts 4 bytes after the old end. -/
theorem stun_message_append_spec (msg : StunMessage) (type length ptr : Nat) (m1 : StunMessage)
    (h : stun_message_append msg type length = some (ptr, m1)) :
    ptr = stun_message_length msg + 4 ∧
    stun_message_length msg + 4 + length ≤ msg.buffer_len ∧
    m1.buffer_len = msg.buffer_len ∧ m1.key = msg.key ∧ m1.key_len = msg.key_len ∧
    (∀ i, i < stun_message_length msg → i ≠ 2 → i ≠ 3 → rdb m1.buffer i = rdb msg.buffer i) := by
  unfold stun_message_append at h
  simp only [STUN_ATTRIBUTE_VALUE_POS] at h
  by_cases hfit : stun_message_length msg + 4 + length > msg.buffer_len
  · rw [if_pos hfit] at h; simp at h
  · rw [if_neg hfit] at h
    simp only [Option.some.injEq, Prod.mk.injEq] at h
    obtain ⟨hp, hm⟩ := h
    subst hm
    refine ⟨hp.symm, by omega, rfl, rfl, rfl, ?_⟩
    intro i hi h2 h3
    simp only [rdb_stun_setw, rdb_wrbs, STUN_MESSAGE_LENGTH_POS, STUN_ATTRIBUTE_TYPE_LEN]
    rw [if_neg (by omega), if_neg (by omega), if_neg (by omega), if_neg (by omega),
      if_neg (by omega), if_neg (by omega), if_neg (by omega)]

theorem stun_message_append_same_header (msg : StunMessage) (type length ptr : Nat)
    (m1 : StunMessage) (h : stun_message_append msg type length = some (ptr, m1)) :
    same_header msg.buffer m1.buffer := by
  intro i h1 h2 h3
  have := stun_message_length_ge msg
  exact (stun_message_append_spec msg type length ptr m1 h).2.2.2.2.2 i
    (by simp only [STUN_MESSAGE_HEADER_LENGTH] at h1; omega) h2 h3

theorem same_header_wrbs (b : List Nat) (off : Nat) (vs : List Nat) (hoff : 20 ≤ off) :
    same_header b (wrbs b off vs) := by
  intro i h1 _ _
  rw [rdb_wrbs, if_neg (by simp only [STUN_MESSAGE_HEADER_LENGTH] at h1; omega)]

theorem finish_integrity_same_header (X : Collab) (msg : StunMessage)
    (key1 : Option (List Nat)) (key_len1 : Nat) (m1 : StunMessage)
    (h : finish_integrity X msg key1 key_len1 = some m1) :
    same_header msg.buffer m1.buffer ∧ m1.buffer_len = msg.buffer_len := by
  unfold finish_integrity at h
  cases key1 with
  | none =>
    simp only [Option.some.injEq] at h
    subst h; exact ⟨same_header_refl _, rfl⟩
  | some k =>
    simp only at h
    cases ha : stun_message_append msg STUN_ATTRIBUTE_MESSAGE_INTEGRITY 20 with
    | none => rw [ha] at h; simp at h
    | some p =>
      obtain ⟨ptr, m0⟩ := p
      rw [ha] at h
      simp only [Option.some.injEq] at h
      subst h
      have hs := stun_message_append_spec msg _ _ ptr m0 ha
      have hl := stun_message_length_ge msg
      have hp : 20 ≤ ptr := by omega
      have h1 : same_header msg.buffer m0.buffer :=
        stun_message_append_same_header msg _ _ ptr m0 ha
      have h2 : same_header m0.buffer
          (wrbs m0.buffer ptr (stun_sha1 X m0.buffer (stun_message_length m0) k key_len1)) :=
        same_header_wrbs m0.buffer ptr _ hp
      dsimp only
      exact ⟨same_header_trans msg.buffer m0.buffer _ h1 h2, hs.2.2.1⟩

theorem finish_checksum_same_header (X : Collab) (agent : StunAgent) (m1 m2 : StunMessage)
    (h : finish_checksum X agent m1 = some m2) :
    same_header m1.buffer m2.buffer ∧ m2.buffer_len = m1.buffer_len := by
  unfold finish_checksum at h
  split at h
  · cases ha : stun_message_append m1 STUN_ATTRIBUTE_FINGERPRINT 4 with
    | none => rw [ha] at h; simp at h
    | some p =>
      obtain ⟨ptr, m0⟩ := p
      rw [ha] at h
      simp only [Option.some.injEq] at h
      subst h
      have hs := stun_message_append_spec m1 _ _ ptr m0 ha
      have hl := stun_message_length_ge m1
      have hp : 20 ≤ ptr := by omega
      have h1 : same_header m1.buffer m0.buffer :=
        stun_message_append_same_header m1 _ _ ptr m0 ha
      have h2 : same_header m0.buffer
          (wrbs m0.buffer ptr
            (hostBytes32 X (stun_fingerprint X m0.buffer (stun_message_length m0)))) :=
        same_header_wrbs m0.buffer ptr _ hp
      dsimp only
      exact ⟨same_header_trans m1.buffer m0.buffer _ h1 h2, hs.2.2.1⟩
  · simp only [Option.some.injEq] at h
    subst h; exact ⟨same_header_refl _, rfl⟩

/-- A call of `stun_agent_finish_message` that returns non-zero went through both
appends; the message keeps its class, method and transaction id. -/
theorem finish_message_cases (X : Collab) (agent : StunAgent) (msg : StunMessage)
    (key : Option (List Nat)) (key_len : Nat) :
    ((stun_agent_finish_message X agent msg key key_len).1 = 0 ∧
      (stun_agent_finish_message X agent msg key key_len).2.1 = agent ∧
      (finish_integrity X msg (finish_key msg key) (finish_key_len msg key_len) = none ∨
       ∃ m1, finish_integrity X msg (finish_key msg key) (finish_key_len msg key_len) = some m1 ∧
         finish_checksum X agent m1 = none)) ∨
    ∃ m1 m2, finish_integrity X msg (finish_key msg key) (finish_key_len msg key_len) = some m1 ∧
      finish_checksum X agent m1 = some m2 ∧
      same_header msg.buffer m2.buffer ∧
      stun_agent_finish_message X agent msg key key_len =
        (stun_message_length m2,
         finish_record agent m2 (finish_key msg key) (finish_key_len msg key_len),
         { m2 with key := finish_key msg key, key_len := finish_key_len msg key_len }) := by
  cases h1 : finish_integrity X msg (finish_key msg key) (finish_key_len msg key_len) with
  | none =>
    left
    simp only [stun_agent_finish_message, h1]
    simp
  | some m1 =>
    cases h2 : finish_checksum X agent m1 with
    | none =>
      left
      simp only [stun_agent_finish_message, h1, h2]
      simp [h2]
    | some m2 =>
      right
      refine ⟨m1, m2, rfl, h2, ?_, ?_⟩
      · exact same_header_trans msg.buffer m1.buffer m2.buffer
          (finish_integrity_same_header X msg _ _ m1 h1).1
          (finish_checksum_same_header X agent m1 m2 h2).1
      · simp only [stun_agent_finish_message, h1, h2]
        rfl

theorem finish_message_of_ne_zero (X : Collab) (agent : StunAgent) (msg : StunMessage)
    (key : Option (List Nat)) (key_len : Nat)
    (h : (stun_agent_finish_message X agent msg key key_len).1 ≠ 0) :
    ∃ m2, same_header msg.buffer m2.buffer ∧
      stun_agent_finish_message X agent msg key key_len =
        (stun_message_length m2,
         finish_record agent m2 (finish_key msg key) (finish_key_len msg key_len),
         { m2 with key := finish_key msg key, key_len := finish_key_len msg key_len }) := by
  rcases finish_message_cases X agent msg key key_len with h0 | ⟨m1, m2, _, _, h3, h4⟩
  · exact absurd h0.1 h
  · exact ⟨m2, h3, h4⟩

/-! ## Configuration is never changed by validation -/

theorem release_slot_config (agent : StunAgent) (idx : Int) :
    (release_slot agent idx).known_attributes = agent.known_attributes ∧
    (release_slot agent idx).compatibility = agent.compatibility ∧
    (release_slot agent idx).usage_flags = agent.usage_flags := by
  unfold release_slot
  split <;> exact ⟨rfl, rfl, rfl⟩

theorem cookie_ok_congr (a b : StunAgent) (m : StunMessage)
    (h : a.compatibility = b.compatibility) : cookie_ok a m ↔ cookie_ok b m := by
  unfold cookie_ok; rw [h]

theorem checksum_ok_congr (X : Collab) (a b : StunAgent) (m : StunMessage)
    (h1 : a.compatibility = b.compatibility) (h2 : a.usage_flags = b.usage_flags) :
    checksum_ok X a m ↔ checksum_ok X b m := by
  unfold checksum_ok usage; rw [h1, h2]

theorem release_slot_of_index (agent : StunAgent) (i : Nat) (s : StunAgentSavedIds)
    (hs : agent.sent_ids.get? i = some s) :
    release_slot agent (i : Int) =
      { agent with sent_ids := agent.sent_ids.set i { s with valid := false } } := by
  have hi : i < agent.sent_ids.length := by
    rw [List.get?_eq_some] at hs
    exact hs.1
  unfold release_slot STUN_AGENT_MAX_SAVED_IDS
  rw [if_pos ⟨by omega, by exact_mod_cast hi⟩]
  simp only [Int.toNat_ofNat, clear_sent_id, hs]

theorem release_slot_neg_one (agent : StunAgent) : release_slot agent (-1) = agent := by
  unfold release_slot
  rw [if_neg (by simp)]

/-- A Request finished with a non-null key (non-zero result) is recorded in the first
empty slot of the agent; provided no occupied slot already holds its transaction id and
method, a Response-class copy of the finished buffer that the agent answers with
"success" or "unknown attribute" has been paired with that slot and leaves it empty, and
a second validation of the same buffer is answered "unmatched response". -/
theorem accepted_copy_pairs_once
    (X : Collab) (agent : StunAgent) (req : StunMessage) (key : List Nat) (key_len : Nat)
    (i : Nat) (s : StunAgentSavedIds) (copy : List Nat) (n : Nat) (out out2 : StunMessage)
    (validater validater2 : Option StunMessageIntegrityValidate)
    (st : StunValidationStatus) (a1 : StunAgent) (m1 : StunMessage)
    (hreq : stun_message_get_class req = StunClass.STUN_REQUEST)
    (hfin : (stun_agent_finish_message X agent req (some key) key_len).1 ≠ 0)
    (hslot : agent.sent_ids.get? i = some s) (hfree : s.valid = false)
    (hbelow : ∀ j, j < i → ∀ t, agent.sent_ids.get? j = some t → t.valid = true)
    (huniq : ∀ t ∈ agent.sent_ids, ¬ slot_matches req t)
    (hclass : stun_message_get_class (viewed copy n) = StunClass.STUN_RESPONSE)
    (hmethod : stun_message_get_method (viewed copy n) = stun_message_get_method req)
    (hbytes : ∀ j, 2 ≤ j →
      rdb copy j = rdb (stun_agent_finish_message X agent req (some key) key_len).2.2.buffer j)
    (hval : stun_agent_validate X (stun_agent_finish_message X agent req (some key) key_len).2.1
      out copy n validater = some (st, a1, m1))
    (hst : st = StunValidationStatus.STUN_VALIDATION_SUCCESS ∨
      st = StunValidationStatus.STUN_VALIDATION_UNKNOWN_ATTRIBUTE) :
    matched_index (stun_agent_finish_message X agent req (some key) key_len).2.1
      (viewed copy n) = i ∧
    (stun_agent_finish_message X agent req (some key) key_len).2.1.sent_ids.get? i =
      some { id := stun_message_id req, method := stun_message_get_method req,
             key := finish_key req (some key), key_len := finish_key_len req key_len,
             valid := true } ∧
    a1.sent_ids =
      (stun_agent_finish_message X agent req (some key) key_len).2.1.sent_ids.set i
        { id := stun_message_id req, method := stun_message_get_method req,
          key := finish_key req (some key), key_len := finish_key_len req key_len,
          valid := false } ∧
    stun_agent_validate X a1 out2 copy n validater2 =
      some (StunValidationStatus.STUN_VALIDATION_UNMATCHED_RESPONSE, a1, viewed copy n) := by
  obtain ⟨m2, hhdr, hfinEq⟩ := finish_message_of_ne_zero X agent req (some key) key_len hfin
  rw [hfinEq] at hval hbytes ⊢
  simp only at hval hbytes ⊢
  have hi : i < agent.sent_ids.length := by
    rw [List.get?_eq_some] at hslot; exact hslot.1
  have hc2 : stun_message_get_class m2 = StunClass.STUN_REQUEST := by
    rw [get_class_of_same_header req m2 hhdr, hreq]
  have hm2 : stun_message_get_method m2 = stun_message_get_method req :=
    get_method_of_same_header req m2 hhdr
  have hid2 : stun_message_id m2 = stun_message_id req := message_id_of_same_header req m2 hhdr
  have hidc : stun_message_id (viewed copy n) = stun_message_id req := by
    rw [← hid2]
    unfold stun_message_id
    apply rdbs_congr
    intro j hj _
    exact hbytes j (by simp only [STUN_MESSAGE_TRANS_ID_POS] at hj; omega)
  -- the cache after the finish call
  have hrec : (finish_record agent m2 (finish_key req (some key))
      (finish_key_len req key_len)).sent_ids =
      agent.sent_ids.set i
        { id := stun_message_id req, method := stun_message_get_method req,
          key := finish_key req (some key), key_len := finish_key_len req key_len,
          valid := true } := by
    unfold finish_record
    rw [if_pos hc2, hm2, hid2]
    exact save_sent_id_eq_set _ _ _ _ _ i s hslot hfree hbelow
  have hcfg : (finish_record agent m2 (finish_key req (some key))
      (finish_key_len req key_len)).compatibility = agent.compatibility ∧
      (finish_record agent m2 (finish_key req (some key))
      (finish_key_len req key_len)).usage_flags = agent.usage_flags := by
    unfold finish_record; split <;> exact ⟨rfl, rfl⟩
  generalize hA : finish_record agent m2 (finish_key req (some key))
      (finish_key_len req key_len) = agent1 at hval hrec hcfg ⊢
  have hget : agent1.sent_ids.get? i =
      some { id := stun_message_id req, method := stun_message_get_method req,
             key := finish_key req (some key), key_len := finish_key_len req key_len,
             valid := true } := by
    rw [hrec]; simp [hi]
  have hmatch : matched_index agent1 (viewed copy n) = i := by
    unfold matched_index
    rw [hmethod, hidc]
    apply find_sent_id_eq_of_first _ _ _ i _ hget ⟨rfl, rfl, rfl⟩
    intro j hj t ht
    rw [hrec] at ht
    have ht2 : agent.sent_ids.get? j = some t := by
      simpa [List.getElem?_set_ne (show i ≠ j by omega)] using ht
    have hmem : t ∈ agent.sent_ids := List.get?_mem ht2
    exact huniq t hmem
  have hreply : is_reply (viewed copy n) := Or.inl hclass
  refine ⟨hmatch, hget, ?_⟩
  rcases validate_cases X agent1 out copy n validater st a1 m1 hval with
    ⟨_, hrej⟩ | ⟨hframe, hcookie, hsum, _, _, k, kl, msg2, _, _, hscan⟩
  · rcases hst with h | h <;> rw [h] at hrej <;> simp at hrej
  · have ha1 : a1 = release_slot agent1 (passed_index agent1 (viewed copy n)) :=
      (validate_unknowns_cases X _ msg2 st a1 m1 hscan).1
    have hpi : passed_index agent1 (viewed copy n) = (i : Int) := by
      unfold passed_index; rw [if_pos hreply, hmatch]
    rw [hpi, release_slot_of_index agent1 i _ hget] at ha1
    have hids : a1.sent_ids = agent1.sent_ids.set i
        { id := stun_message_id req, method := stun_message_get_method req,
          key := finish_key req (some key), key_len := finish_key_len req key_len,
          valid := false } := by
      rw [ha1]
    refine ⟨hids, ?_⟩
    have hcomp : a1.compatibility = agent1.compatibility := by rw [ha1]
    have hflags : a1.usage_flags = agent1.usage_flags := by rw [ha1]
    have hcookie1 : cookie_ok a1 (viewed copy n) :=
      (cookie_ok_congr a1 agent1 _ hcomp).mpr hcookie
    have hsum1 : checksum_ok X a1 (viewed copy n) :=
      (checksum_ok_congr X a1 agent1 _ hcomp hflags).mpr hsum
    rw [validate_of_complete_frame X a1 out2 copy n validater2 hframe,
      validate_demux_of_ok X a1 _ validater2 hcookie1 hsum1,
      validate_correlation_of_reply X a1 _ validater2 hreply]
    have hnone : matched_index a1 (viewed copy n) = STUN_AGENT_MAX_SAVED_IDS a1 := by
      unfold matched_index STUN_AGENT_MAX_SAVED_IDS
      rw [find_sent_id_eq_length_iff, hmethod, hidc]
      intro t ht
      rw [hids, hrec, List.set_set] at ht
      rcases List.mem_or_eq_of_mem_set ht with h | h
      · exact huniq t h
      · rw [h]; simp
    rw [if_pos hnone]

/-- Claim C2, counterexample: on a fresh legacy agent that requires short-term
credentials, a Request without USERNAME is finished with a non-null key (result 44) and
recorded in slot 0; its Response-class copy (same transaction id and method, all other
bytes identical) is answered with STUN_VALIDATION_UNAUTHORIZED and the agent is returned
unchanged, so slot 0 stays occupied and a second validation of the same buffer on the
returned agent is the same call, answered STUN_VALIDATION_UNAUTHORIZED again, not
STUN_VALIDATION_UNMATCHED_RESPONSE. -/
theorem C2_counterexample :
    stun_message_get_class (builtRequest (legacyAgent 1)) = StunClass.STUN_REQUEST ∧
    (finishedRequest 1 3).1 = 44 ∧
    (finishedRequest 1 3).2.1.sent_ids.get? 0 =
      some { id := sampleId, method := 1, key := some sampleKey, key_len := 3, valid := true } ∧
    stun_message_get_class (viewed (responseCopy 1 3) 44) = StunClass.STUN_RESPONSE ∧
    stun_message_get_method (viewed (responseCopy 1 3) 44) =
      stun_message_get_method (finishedRequest 1 3).2.2 ∧
    stun_message_id (viewed (responseCopy 1 3) 44) = stun_message_id (finishedRequest 1 3).2.2 ∧
    (responseCopy 1 3).drop 2 = (finishedRequest 1 3).2.2.buffer.drop 2 ∧
    stun_agent_validate refCollab (finishedRequest 1 3).2.1 (viewed [] 0) (responseCopy 1 3) 44
        (some (fun _ _ _ _ => some (some sampleKey, 3))) =
      some (StunValidationStatus.STUN_VALIDATION_UNAUTHORIZED, (finishedRequest 1 3).2.1,
        viewed (responseCopy 1 3) 44) := by
  refine ⟨by decide, by decide, by decide, by decide, by decide, by decide, by decide, by decide⟩

/-! ## Stepping through the attribute walks -/

theorem stun_message_find_loop_stop (buf : List Nat) (type length fuel offset : Nat)
    (h : ¬ offset < length) : stun_message_find_loop buf type length fuel offset = none := by
  cases fuel with
  | zero => rfl
  | succ fuel => simp only [stun_message_find_loop]; rw [if_neg h]

theorem stun_message_find_loop_hit (buf : List Nat) (type length fuel offset : Nat)
    (h : offset < length) (ht : stun_getw buf offset = type) :
    stun_message_find_loop buf type length (fuel + 1) offset =
      some (offset + 4, stun_getw buf (offset + 2)) := by
  simp only [stun_message_find_loop]
  rw [if_pos h, if_pos ht]; rfl

theorem stun_message_find_loop_skip (buf : List Nat) (type length fuel offset : Nat)
    (h : offset < length) (ht : stun_getw buf offset ≠ type) :
    stun_message_find_loop buf type length (fuel + 1) offset =
      stun_message_find_loop buf type length fuel
        (offset + 4 + stun_align (stun_getw buf (offset + 2))) := by
  simp only [stun_message_find_loop]
  rw [if_pos h, if_neg ht]; rfl

theorem find_unknowns_loop_stop (X : Collab) (agent : StunAgent) (buf : List Nat)
    (len max fuel offset : Nat) (list : List Nat) (h : ¬ (offset < len ∧ list.length < max)) :
    stun_agent_find_unknowns_loop X agent buf len max fuel offset list = some list := by
  cases fuel with
  | zero => simp only [stun_agent_find_unknowns_loop]; rw [if_neg h]
  | succ fuel => simp only [stun_agent_find_unknowns_loop]; rw [if_neg h]

theorem find_unknowns_loop_skip (X : Collab) (agent : StunAgent) (buf : List Nat)
    (len max fuel offset : Nat) (list : List Nat) (h : offset < len ∧ list.length < max)
    (hk : (!stun_optional (stun_getw buf offset) &&
      stun_agent_is_unknown agent (stun_getw buf offset)) = false) :
    stun_agent_find_unknowns_loop X agent buf len max (fuel + 1) offset list =
      stun_agent_find_unknowns_loop X agent buf len max fuel
        (offset + (4 + stun_align (stun_getw buf (offset + 2)))) list := by
  simp only [stun_agent_find_unknowns_loop]
  rw [if_pos h, if_neg (by rw [hk]; simp)]; rfl

theorem find_unknowns_loop_take (X : Collab) (agent : StunAgent) (buf : List Nat)
    (len max fuel offset : Nat) (list : List Nat) (h : offset < len ∧ list.length < max)
    (hk : (!stun_optional (stun_getw buf offset) &&
      stun_agent_is_unknown agent (stun_getw buf offset)) = true) :
    stun_agent_find_unknowns_loop X agent buf len max (fuel + 1) offset list =
      stun_agent_find_unknowns_loop X agent buf len max fuel
        (offset + (4 + stun_align (stun_getw buf (offset + 2))))
        (list ++ [htons X (stun_getw buf offset)]) := by
  simp only [stun_agent_find_unknowns_loop]
  rw [if_pos h, if_pos hk]; rfl

theorem rdbs_length (buf : List Nat) (off n : Nat) : (rdbs buf off n).length = n := by
  simp [rdbs]

theorem rdbs_getD (buf : List Nat) (off n i : Nat) (h : i < n) :
    (rdbs buf off n).getD i 0 = rdb buf (off + i) := by
  simp [rdbs, List.getD_eq_getElem?_getD, List.getElem?_map, List.getElem?_range, h]

theorem rdbs_wrbs_self (buf : List Nat) (off n : Nat) (vs : List Nat) (hn : vs.length = n)
    (hv : ∀ i, i < n → vs.getD i 0 < 256) : rdbs (wrbs buf off vs) off n = vs := by
  apply List.ext_getElem
  · rw [rdbs_length, hn]
  · intro i h1 h2
    rw [rdbs_length] at h1
    have e1 : (rdbs (wrbs buf off vs) off n)[i] = (rdbs (wrbs buf off vs) off n).getD i 0 := by
      rw [List.getD_eq_getElem?_getD, List.getElem?_eq_getElem (by rw [rdbs_length]; exact h1)]
      rfl
    have e2 : vs[i] = vs.getD i 0 := by
      rw [List.getD_eq_getElem?_getD, List.getElem?_eq_getElem h2]; rfl
    rw [e1, e2, rdbs_getD _ _ _ _ h1, rdb_wrbs, if_pos ⟨by omega, by omega⟩]
    have : off + i - off = i := by omega
    rw [this]
    exact Nat.mod_eq_of_lt (hv i h1)

theorem stun_sha1_length (X : Collab) (buf : List Nat) (len : Nat) (key : List Nat)
    (key_len : Nat) : (stun_sha1 X buf len key key_len).length = 20 := by
  unfold stun_sha1; exact rdbs_length _ _ _

theorem stun_sha1_getD_lt (X : Collab) (buf : List Nat) (len : Nat) (key : List Nat)
    (key_len : Nat) (i : Nat) (h : i < 20) :
    (stun_sha1 X buf len key key_len).getD i 0 < 256 := by
  unfold stun_sha1
  rw [rdbs_getD _ _ _ _ h]
  exact rdb_lt _ _

theorem bswap32_bytes (a b c d : Nat) (ha : a < 256) (hb : b < 256) (hc : c < 256)
    (hd : d < 256) :
    bswap32 (a * 16777216 + b * 65536 + c * 256 + d) = d * 16777216 + c * 65536 + b * 256 + a := by
  unfold bswap32
  generalize hy : a * 16777216 + b * 65536 + c * 256 + d = y
  have h1 : y / 65536 = y / 256 / 256 := by rw [Nat.div_div_eq_div_mul]
  have h2 : y / 16777216 = y / 256 / 256 / 256 := by
    rw [Nat.div_div_eq_div_mul, Nat.div_div_eq_div_mul]
  rw [h1, h2]
  omega

theorem word32_bytes (v : Nat) (hv : v < 4294967296) :
    v / 16777216 % 256 * 16777216 + v / 65536 % 256 * 65536 + v / 256 % 256 * 256 + v % 256 = v := by
  have h1 : v / 65536 = v / 256 / 256 := by rw [Nat.div_div_eq_div_mul]
  have h2 : v / 16777216 = v / 256 / 256 / 256 := by
    rw [Nat.div_div_eq_div_mul, Nat.div_div_eq_div_mul]
  rw [h1, h2]
  omega

theorem ntohl_read_hostBytes32 (X : Collab) (v : Nat) (hv : v < 4294967296) :
    ntohl X ((hostBytes32 X v).getD 0 0 % 256 * 16777216 + (hostBytes32 X v).getD 1 0 % 256 * 65536
      + (hostBytes32 X v).getD 2 0 % 256 * 256 + (hostBytes32 X v).getD 3 0 % 256) = v := by
  unfold ntohl hostBytes32
  cases X.bigEndian
  · simp only [Bool.false_eq_true, if_false, List.getD_cons_zero, List.getD_cons_succ,
      Nat.mod_mod]
    rw [bswap32_bytes _ _ _ _ (Nat.mod_lt _ (by decide)) (Nat.mod_lt _ (by decide))
      (Nat.mod_lt _ (by decide)) (Nat.mod_lt _ (by decide))]
    exact word32_bytes v hv
  · simp only [if_true, List.getD_cons_zero, List.getD_cons_succ, Nat.mod_mod]
    rw [word32_bytes v hv]
    exact Nat.mod_eq_of_lt hv

/-! ## Messages built by `stun_agent_init_request` -/

theorem get_class_request_of_bytes (m : StunMessage) (h0 : rdb m.buffer 0 % 2 = 0)
    (h1 : rdb m.buffer 1 / 16 % 2 = 0) :
    stun_message_get_class m = StunClass.STUN_REQUEST := by
  unfold stun_message_get_class stun_getw
  have hb := rdb_lt m.buffer (0 + 1)
  have e1 : (rdb m.buffer 0 * 256 + rdb m.buffer (0 + 1)) / 256 % 2 = 0 := by
    simp only [Nat.zero_add] at hb ⊢; omega
  have e2 : (rdb m.buffer 0 * 256 + rdb m.buffer (0 + 1)) / 16 % 2 = 0 := by
    simp only [Nat.zero_add] at hb ⊢; omega
  simp only [e1, e2]

theorem stun_message_init_spec (msg : StunMessage) (c : StunClass) (m : Nat) (id : List Nat)
    (h : (stun_message_init msg c m id).1 = true) :
    20 ≤ msg.buffer_len ∧
    (stun_message_init msg c m id).2.buffer_len = msg.buffer_len ∧
    (stun_message_init msg c m id).2.key = msg.key ∧
    (stun_message_init msg c m id).2.key_len = msg.key_len ∧
    rdb (stun_message_init msg c m id).2.buffer 2 = 0 ∧
    rdb (stun_message_init msg c m id).2.buffer 3 = 0 ∧
    (c = StunClass.STUN_REQUEST →
      rdb (stun_message_init msg c m id).2.buffer 0 % 2 = 0 ∧
      rdb (stun_message_init msg c m id).2.buffer 1 / 16 % 2 = 0) := by
  unfold stun_message_init at h ⊢
  simp only [STUN_MESSAGE_HEADER_LENGTH, STUN_MESSAGE_TRANS_ID_POS, STUN_MESSAGE_TRANS_ID_LEN] at h ⊢
  by_cases hlen : msg.buffer_len < 20
  · rw [if_pos hlen] at h; simp at h
  · rw [if_neg hlen]
    refine ⟨by omega, rfl, rfl, rfl, ?_, ?_, ?_⟩
    · simp [rdb_wrbs, rdbs_length, stun_set_type, rdb_wrb]
    · simp [rdb_wrbs, rdbs_length, stun_set_type, rdb_wrb]
    · intro hc
      subst hc
      simp only [rdb_wrbs, rdbs_length, stun_set_type, rdb_wrb]
      constructor
      · simp; omega
      · simp; omega

theorem init_request_spec (agent : StunAgent) (buffer : List Nat) (buffer_len m : Nat)
    (id : List Nat) (h : (stun_agent_init_request agent buffer buffer_len m id).1 = true) :
    20 ≤ buffer_len ∧
    (stun_agent_init_request agent buffer buffer_len m id).2.buffer_len = buffer_len ∧
    (stun_agent_init_request agent buffer buffer_len m id).2.key = none ∧
    (stun_agent_init_request agent buffer buffer_len m id).2.key_len = 0 ∧
    stun_message_length (stun_agent_init_request agent buffer buffer_len m id).2 = 20 ∧
    stun_message_get_class (stun_agent_init_request agent buffer buffer_len m id).2 =
      StunClass.STUN_REQUEST ∧
    (agent.compatibility = StunCompatibility.STUN_COMPATIBILITY_3489BIS →
      stun_has_cookie (stun_agent_init_request agent buffer buffer_len m id).2 = true) := by
  unfold stun_agent_init_request at h ⊢
  simp only at h ⊢
  generalize hr : stun_message_init
    { buffer := buffer, buffer_len := buffer_len, key := none, key_len := 0 }
    StunClass.STUN_REQUEST m id = r at h ⊢
  obtain ⟨ok, m1⟩ := r
  cases ok with
  | false => simp at h
  | true =>
    have hs := stun_message_init_spec
      { buffer := buffer, buffer_len := buffer_len, key := none, key_len := 0 }
      StunClass.STUN_REQUEST m id (by rw [hr])
    rw [hr] at hs
    simp only at hs
    obtain ⟨h20, hbl, hk, hkl, h2, h3, hcls⟩ := hs
    obtain ⟨hc0, hc1⟩ := hcls trivial
    simp only
    by_cases hbis : agent.compatibility = StunCompatibility.STUN_COMPATIBILITY_3489BIS
    · rw [if_pos hbis]
      simp only
      refine ⟨h20, hbl, hk, hkl, ?_, ?_, ?_⟩
      · simp [stun_message_length, stun_getw, rdb_wrbs, STUN_MESSAGE_TRANS_ID_POS,
          STUN_MAGIC_COOKIE_BYTES, STUN_MESSAGE_LENGTH_POS, STUN_MESSAGE_HEADER_LENGTH, h2, h3]
      · apply get_class_request_of_bytes
        · simpa [rdb_wrbs, STUN_MESSAGE_TRANS_ID_POS, STUN_MAGIC_COOKIE_BYTES] using hc0
        · simpa [rdb_wrbs, STUN_MESSAGE_TRANS_ID_POS, STUN_MAGIC_COOKIE_BYTES] using hc1
      · intro _
        have hr4 : List.range 4 = [0, 1, 2, 3] := by decide
        simp [stun_has_cookie, rdbs, rdb_wrbs, STUN_MESSAGE_TRANS_ID_POS,
          STUN_MAGIC_COOKIE_BYTES, hr4]
    · rw [if_neg hbis]
      simp only
      refine ⟨h20, hbl, hk, hkl, ?_, ?_, ?_⟩
      · simp [stun_message_length, stun_getw, STUN_MESSAGE_LENGTH_POS,
          STUN_MESSAGE_HEADER_LENGTH, h2, h3]
      · exact get_class_request_of_bytes _ hc0 hc1
      · intro hb; exact absurd hb hbis

/-! ## Layout of an appended attribute -/

theorem stun_align_of_aligned (l : Nat) (h : l % 4 = 0) : stun_align l = l := by
  unfold stun_align stun_padding; omega

theorem stun_message_append_aligned (msg : StunMessage) (type length : Nat)
    (hpad : length % 4 = 0)
    (hfit : stun_message_length msg + 4 + length ≤ msg.buffer_len) :
    stun_message_append msg type length =
      some (stun_message_length msg + 4,
        { msg with
          buffer := with_attribute msg.buffer (stun_message_length msg) type length [] }) := by
  unfold with_attribute
  unfold stun_message_append
  simp only [STUN_ATTRIBUTE_VALUE_POS, STUN_ATTRIBUTE_TYPE_LEN, STUN_MESSAGE_LENGTH_POS,
    STUN_MESSAGE_HEADER_LENGTH]
  rw [if_neg (by omega)]
  have hp : stun_padding length = 0 := by unfold stun_padding; omega
  rw [stun_align_of_aligned length hpad, hp]
  simp only [ite_self, List.replicate_zero, wrbs]

theorem stun_message_append_none (msg : StunMessage) (type length : Nat)
    (h : stun_message_append msg type length = none) :
    msg.buffer_len < stun_message_length msg + 4 + length := by
  unfold stun_message_append at h
  simp only [STUN_ATTRIBUTE_VALUE_POS] at h
  by_cases hfit : stun_message_length msg + 4 + length > msg.buffer_len
  · omega
  · rw [if_neg hfit] at h; simp at h

theorem stun_getw_setw_same (B : List Nat) (off v : Nat) (hv : v < 65536) :
    stun_getw (stun_setw B off v) off = v := by
  unfold stun_getw
  rw [rdb_stun_setw, rdb_stun_setw, if_neg (by omega), if_pos rfl, if_pos rfl]
  omega

theorem stun_getw_setw_other (B : List Nat) (off v j : Nat) (h : j + 1 < off ∨ off + 1 < j) :
    stun_getw (stun_setw B off v) j = stun_getw B j := by
  unfold stun_getw
  rw [rdb_stun_setw, rdb_stun_setw, if_neg (by omega), if_neg (by omega), if_neg (by omega),
    if_neg (by omega)]

theorem stun_getw_wrbs_other (B : List Nat) (off : Nat) (vs : List Nat) (j : Nat)
    (h : j + 1 < off ∨ off + vs.length ≤ j) :
    stun_getw (wrbs B off vs) j = stun_getw B j := by
  unfold stun_getw
  rw [rdb_wrbs, rdb_wrbs, if_neg (by omega), if_neg (by omega)]

theorem rdb_setw_other (B : List Nat) (off v j : Nat) (h : j < off ∨ off + 1 < j) :
    rdb (stun_setw B off v) j = rdb B j := by
  rw [rdb_stun_setw, if_neg (by omega), if_neg (by omega)]

/-- Bytes of a buffer after an aligned attribute with value `vs` has been appended at the
old end `L` of the message. -/
theorem appended_layout (B : List Nat) (L type length : Nat) (vs : List Nat)
    (hL : 20 ≤ L) (ht : type < 65536) (hl : length < 65536)
    (hsum : L + 4 + length - 20 < 65536) :
    stun_getw (with_attribute B L type length vs) 2 = L + 4 + length - 20 ∧
    stun_getw (with_attribute B L type length vs) L = type ∧
    stun_getw (with_attribute B L type length vs) (L + 2) = length ∧
    (∀ j, j ≠ 2 → j ≠ 3 → j < L → rdb (with_attribute B L type length vs) j = rdb B j) ∧
    (∀ j, L + 4 ≤ j → j < L + 4 + vs.length →
      rdb (with_attribute B L type length vs) j = vs.getD (j - (L + 4)) 0 % 256) := by
  unfold with_attribute
  refine ⟨?_, ?_, ?_, ?_, ?_⟩
  · rw [stun_getw_wrbs_other _ _ _ _ (Or.inl (by omega)), stun_getw_setw_same _ _ _ hsum]
  · rw [stun_getw_wrbs_other _ _ _ _ (Or.inl (by omega)),
      stun_getw_setw_other _ _ _ _ (Or.inr (by omega)),
      stun_getw_setw_other _ _ _ _ (Or.inl (by omega)), stun_getw_setw_same _ _ _ ht]
  · rw [stun_getw_wrbs_other _ _ _ _ (Or.inl (by omega)),
      stun_getw_setw_other _ _ _ _ (Or.inr (by omega)), stun_getw_setw_same _ _ _ hl]
  · intro j h2 h3 hj
    rw [rdb_wrbs, if_neg (by omega), rdb_setw_other _ _ _ _ (by omega),
      rdb_setw_other _ _ _ _ (by omega), rdb_setw_other _ _ _ _ (by omega)]
  · intro j h1 h2
    rw [rdb_wrbs, if_pos ⟨h1, by omega⟩]

theorem with_attribute_value (B : List Nat) (L type length : Nat) (vs : List Nat) :
    with_attribute B L type length vs =
      wrbs (with_attribute B L type length []) (L + 4) vs := rfl

theorem stun_getw_of_rdb_eq (b1 b2 : List Nat) (j : Nat) (h0 : rdb b1 j = rdb b2 j)
    (h1 : rdb b1 (j + 1) = rdb b2 (j + 1)) : stun_getw b1 j = stun_getw b2 j := by
  unfold stun_getw; rw [h0, h1]

/-! ## Lookups in messages of at most two aligned attributes -/

theorem find_no_attribute (M : StunMessage) (t : Nat) (hlen : stun_message_length M = 20) :
    stun_message_find M t = none := by
  unfold stun_message_find
  rw [hlen]
  exact stun_message_find_loop_stop _ _ _ _ _ (by simp [STUN_MESSAGE_ATTRIBUTES_POS])

theorem find_one_attribute (M : StunMessage) (t a l : Nat) (hl4 : l % 4 = 0)
    (hlen : stun_message_length M = 24 + l)
    (h20 : stun_getw M.buffer 20 = a) (h22 : stun_getw M.buffer 22 = l) :
    stun_message_find M t = if a = t then some (24, l) else none := by
  unfold stun_message_find
  rw [hlen]
  simp only [STUN_MESSAGE_ATTRIBUTES_POS]
  have hf : 24 + l = (23 + l) + 1 := by omega
  rw [hf]
  by_cases hat : a = t
  · rw [if_pos hat, stun_message_find_loop_hit _ _ _ _ _ (by omega) (by rw [h20]; exact hat), h22]
  · rw [if_neg hat, stun_message_find_loop_skip _ _ _ _ _ (by omega) (by rw [h20]; exact hat),
      h22, stun_align_of_aligned l hl4]
    exact stun_message_find_loop_stop _ _ _ _ _ (by omega)

theorem find_two_attributes (M : StunMessage) (t a1 l1 a2 l2 : Nat) (hl1 : l1 % 4 = 0)
    (hl2 : l2 % 4 = 0) (hlen : stun_message_length M = 28 + l1 + l2)
    (h20 : stun_getw M.buffer 20 = a1) (h22 : stun_getw M.buffer 22 = l1)
    (h2a : stun_getw M.buffer (24 + l1) = a2) (h2l : stun_getw M.buffer (24 + l1 + 2) = l2) :
    stun_message_find M t =
      if a1 = t then some (24, l1) else if a2 = t then some (28 + l1, l2) else none := by
  unfold stun_message_find
  rw [hlen]
  simp only [STUN_MESSAGE_ATTRIBUTES_POS]
  have hf : 28 + l1 + l2 = (26 + l1 + l2 + 1) + 1 := by omega
  rw [hf]
  by_cases hat : a1 = t
  · rw [if_pos hat, stun_message_find_loop_hit _ _ _ _ _ (by omega) (by rw [h20]; exact hat), h22]
  · rw [if_neg hat, stun_message_find_loop_skip _ _ _ _ _ (by omega) (by rw [h20]; exact hat),
      h22, stun_align_of_aligned l1 hl1]
    have ho : 20 + 4 + l1 = 24 + l1 := by omega
    rw [ho]
    by_cases hat2 : a2 = t
    · rw [if_pos hat2,
        stun_message_find_loop_hit _ _ _ _ _ (by omega) (by rw [h2a]; exact hat2), h2l]
      have : 24 + l1 + 4 = 28 + l1 := by omega
      rw [this]
    · rw [if_neg hat2,
        stun_message_find_loop_skip _ _ _ _ _ (by omega) (by rw [h2a]; exact hat2), h2l,
        stun_align_of_aligned l2 hl2]
      exact stun_message_find_loop_stop _ _ _ _ _ (by omega)

theorem find_unknowns_no_attribute (X : Collab) (A : StunAgent) (M : StunMessage) (max : Nat)
    (hlen : stun_message_length M = 20) :
    stun_agent_find_unknowns X A M max = some [] := by
  unfold stun_agent_find_unknowns
  rw [hlen]
  exact find_unknowns_loop_stop _ _ _ _ _ _ _ _ (by simp [STUN_MESSAGE_ATTRIBUTES_POS])

theorem find_unknowns_one_skipped (X : Collab) (A : StunAgent) (M : StunMessage) (max l : Nat)
    (hl4 : l % 4 = 0) (hlen : stun_message_length M = 24 + l) (hsmall : 24 + l < 65536)
    (h22 : stun_getw M.buffer 22 = l)
    (hk : (!stun_optional (stun_getw M.buffer 20) &&
      stun_agent_is_unknown A (stun_getw M.buffer 20)) = false) :
    stun_agent_find_unknowns X A M max = some [] := by
  unfold stun_agent_find_unknowns
  rw [hlen]
  simp only [STUN_MESSAGE_ATTRIBUTES_POS, Nat.mod_eq_of_lt hsmall]
  by_cases hmax : 0 < max
  · have hf : 24 + l = (23 + l) + 1 := by omega
    rw [hf, find_unknowns_loop_skip X A _ _ _ _ _ _ ⟨by omega, by simpa using hmax⟩ hk, h22,
      stun_align_of_aligned l hl4]
    exact find_unknowns_loop_stop _ _ _ _ _ _ _ _ (by omega)
  · exact find_unknowns_loop_stop _ _ _ _ _ _ _ _ (by simp; omega)

theorem find_unknowns_two_skipped (X : Collab) (A : StunAgent) (M : StunMessage)
    (max l1 l2 : Nat) (hl1 : l1 % 4 = 0) (hl2 : l2 % 4 = 0)
    (hlen : stun_message_length M = 28 + l1 + l2) (hsmall : 28 + l1 + l2 < 65536)
    (h22 : stun_getw M.buffer 22 = l1) (h2l : stun_getw M.buffer (24 + l1 + 2) = l2)
    (hk1 : (!stun_optional (stun_getw M.buffer 20) &&
      stun_agent_is_unknown A (stun_getw M.buffer 20)) = false)
    (hk2 : (!stun_optional (stun_getw M.buffer (24 + l1)) &&
      stun_agent_is_unknown A (stun_getw M.buffer (24 + l1))) = false) :
    stun_agent_find_unknowns X A M max = some [] := by
  unfold stun_agent_find_unknowns
  rw [hlen]
  simp only [STUN_MESSAGE_ATTRIBUTES_POS, Nat.mod_eq_of_lt hsmall]
  by_cases hmax : 0 < max
  · have hf : 28 + l1 + l2 = (26 + l1 + l2 + 1) + 1 := by omega
    rw [hf, find_unknowns_loop_skip X A _ _ _ _ _ _ ⟨by omega, by simpa using hmax⟩ hk1, h22,
      stun_align_of_aligned l1 hl1]
    have ho : 20 + (4 + l1) = 24 + l1 := by omega
    rw [ho, find_unknowns_loop_skip X A _ _ _ _ _ _ ⟨by omega, by simpa using hmax⟩ hk2, h2l,
      stun_align_of_aligned l2 hl2]
    exact find_unknowns_loop_stop _ _ _ _ _ _ _ _ (by omega)
  · exact find_unknowns_loop_stop _ _ _ _ _ _ _ _ (by simp; omega)

/-- A complete-frame Request that passes every stage is answered with success and leaves
the agent as it was. -/
theorem validate_request_success (X : Collab) (A : StunAgent) (out : StunMessage)
    (F : List Nat) (n : Nat) (v : Option StunMessageIntegrityValidate)
    (key1 : Option (List Nat)) (key_len1 : Nat) (m2 : StunMessage)
    (hframe : complete_frame X F n) (hcookie : cookie_ok A (viewed F n))
    (hsum : checksum_ok X A (viewed F n))
    (hclass : stun_message_get_class (viewed F n) = StunClass.STUN_REQUEST)
    (hpol : credential_policy_violated A (viewed F n) = false)
    (hres : resolve_key A (viewed F n) v none 0 = some (key1, key_len1))
    (hint : check_integrity X (viewed F n) key1 key_len1 = some (some m2))
    (hscan : stun_agent_find_unknowns X A m2 1 = some []) :
    stun_agent_validate X A out F n v =
      some (StunValidationStatus.STUN_VALIDATION_SUCCESS, A, m2) := by
  have hnr : ¬ is_reply (viewed F n) := by
    unfold is_reply; rw [hclass]; simp
  rw [validate_of_complete_frame X A out F n v hframe,
    validate_demux_of_ok X A _ v hcookie hsum,
    validate_correlation_of_not_reply X A _ v hnr]
  unfold validate_credentials
  rw [if_neg (by rw [hpol]; simp), hres]
  simp only
  unfold validate_integrity
  rw [hint]
  simp only
  rw [release_slot_neg_one]
  unfold validate_unknowns
  rw [hscan]
  simp

/-! ## What `stun_agent_finish_message` appends -/

theorem finish_integrity_some (X : Collab) (msg : StunMessage) (k : List Nat) (kl L : Nat)
    (m1 : StunMessage) (hL : stun_message_length msg = L) (h20 : 20 ≤ L)
    (hsmall : L + 4 < 65536)
    (h : finish_integrity X msg (some k) kl = some m1) :
    L + 24 ≤ msg.buffer_len ∧
    m1 = { msg with
      buffer := with_attribute msg.buffer L STUN_ATTRIBUTE_MESSAGE_INTEGRITY 20
        (stun_sha1 X (with_attribute msg.buffer L STUN_ATTRIBUTE_MESSAGE_INTEGRITY 20 [])
          (L + 24) k kl) } := by
  unfold finish_integrity at h
  simp only at h
  by_cases hfit : stun_message_length msg + 4 + 20 ≤ msg.buffer_len
  · rw [stun_message_append_aligned msg _ 20 (by decide) hfit] at h
    simp only [Option.some.injEq] at h
    rw [hL] at h hfit
    have hlen : stun_message_length
        { msg with buffer := with_attribute msg.buffer L STUN_ATTRIBUTE_MESSAGE_INTEGRITY 20 [] }
        = L + 24 := by
      unfold stun_message_length
      simp only [STUN_MESSAGE_LENGTH_POS, STUN_MESSAGE_HEADER_LENGTH]
      rw [(appended_layout msg.buffer L STUN_ATTRIBUTE_MESSAGE_INTEGRITY 20 [] h20
        (by decide) (by decide) (by omega)).1]
      omega
    rw [hlen] at h
    exact ⟨by omega, h.symm⟩
  · cases ha : stun_message_append msg STUN_ATTRIBUTE_MESSAGE_INTEGRITY 20 with
    | none => rw [ha] at h; simp at h
    | some p =>
      have := (stun_message_append_spec msg _ _ p.1 p.2 ha).2.1
      omega

theorem finish_checksum_some (X : Collab) (A : StunAgent) (m1 m2 : StunMessage) (L : Nat)
    (hfp : A.compatibility = StunCompatibility.STUN_COMPATIBILITY_3489BIS ∧
      usage A STUN_AGENT_USAGE_USE_FINGERPRINT = true)
    (hL : stun_message_length m1 = L) (h20 : 20 ≤ L) (hsmall : L + 8 - 20 < 65536)
    (h : finish_checksum X A m1 = some m2) :
    L + 8 ≤ m1.buffer_len ∧
    m2 = { m1 with
      buffer := with_attribute m1.buffer L STUN_ATTRIBUTE_FINGERPRINT 4
        (hostBytes32 X (stun_fingerprint X
          (with_attribute m1.buffer L STUN_ATTRIBUTE_FINGERPRINT 4 []) (L + 8))) } := by
  unfold finish_checksum at h
  rw [if_pos hfp] at h
  by_cases hfit : stun_message_length m1 + 4 + 4 ≤ m1.buffer_len
  · rw [stun_message_append_aligned m1 _ 4 (by decide) hfit] at h
    simp only [Option.some.injEq] at h
    rw [hL] at h hfit
    have hlen : stun_message_length
        { m1 with buffer := with_attribute m1.buffer L STUN_ATTRIBUTE_FINGERPRINT 4 [] }
        = L + 8 := by
      unfold stun_message_length
      simp only [STUN_MESSAGE_LENGTH_POS, STUN_MESSAGE_HEADER_LENGTH]
      rw [(appended_layout m1.buffer L STUN_ATTRIBUTE_FINGERPRINT 4 [] h20
        (by decide) (by decide) (by omega)).1]
      omega
    rw [hlen] at h
    exact ⟨by omega, h.symm⟩
  · cases ha : stun_message_append m1 STUN_ATTRIBUTE_FINGERPRINT 4 with
    | none => rw [ha] at h; simp at h
    | some p =>
      have := (stun_message_append_spec m1 _ _ p.1 p.2 ha).2.1
      omega

theorem finish_checksum_off (X : Collab) (A : StunAgent) (m1 : StunMessage)
    (hfp : ¬ (A.compatibility = StunCompatibility.STUN_COMPATIBILITY_3489BIS ∧
      usage A STUN_AGENT_USAGE_USE_FINGERPRINT = true)) :
    finish_checksum X A m1 = some m1 := by
  unfold finish_checksum
  rw [if_neg hfp]

theorem hostBytes32_length (X : Collab) (v : Nat) : (hostBytes32 X v).length = 4 := by
  unfold hostBytes32; split <;> rfl

theorem stun_fingerprint_lt (X : Collab) (b : List Nat) (len : Nat) :
    stun_fingerprint X b len < 4294967296 := by
  unfold stun_fingerprint; omega

/-- A message that ends with the FINGERPRINT attribute written by the finisher passes the
FINGERPRINT stage, when the checksum does not read its own value. -/
theorem fingerprint_ok_of_appended (X : Collab) (hcs : checksum_ignores_value X)
    (B : List Nat) (L n : Nat) (hL : 20 ≤ L) (hsmall : L + 8 - 20 < 65536)
    (hfind : stun_message_find
      (viewed (with_attribute B L STUN_ATTRIBUTE_FINGERPRINT 4
        (hostBytes32 X (stun_fingerprint X
          (with_attribute B L STUN_ATTRIBUTE_FINGERPRINT 4 []) (L + 8)))) n)
      STUN_ATTRIBUTE_FINGERPRINT = some (L + 4, 4)) :
    fingerprint_ok X
      (viewed (with_attribute B L STUN_ATTRIBUTE_FINGERPRINT 4
        (hostBytes32 X (stun_fingerprint X
          (with_attribute B L STUN_ATTRIBUTE_FINGERPRINT 4 []) (L + 8)))) n) = true := by
  generalize hc : stun_fingerprint X
    (with_attribute B L STUN_ATTRIBUTE_FINGERPRINT 4 []) (L + 8) = c at hfind ⊢
  have hlay := appended_layout B L STUN_ATTRIBUTE_FINGERPRINT 4 (hostBytes32 X c) hL
    (by decide) (by decide) (by omega)
  obtain ⟨f2, _, _, _, fval⟩ := hlay
  rw [hostBytes32_length] at fval
  unfold fingerprint_ok stun_message_find32
  rw [hfind]
  simp only [if_true, viewed, decide_eq_true_eq]
  rw [fval (L + 4) (by omega) (by omega), fval (L + 4 + 1) (by omega) (by omega),
    fval (L + 4 + 2) (by omega) (by omega), fval (L + 4 + 3) (by omega) (by omega)]
  have e0 : L + 4 - (L + 4) = 0 := by omega
  have e1 : L + 4 + 1 - (L + 4) = 1 := by omega
  have e2 : L + 4 + 2 - (L + 4) = 2 := by omega
  have e3 : L + 4 + 3 - (L + 4) = 3 := by omega
  rw [e0, e1, e2, e3]
  have hc32 : c < 4294967296 := by rw [← hc]; exact stun_fingerprint_lt _ _ _
  rw [ntohl_read_hostBytes32 X c hc32]
  have hlen : stun_message_length
      { buffer := with_attribute B L STUN_ATTRIBUTE_FINGERPRINT 4 (hostBytes32 X c),
        buffer_len := n, key := none, key_len := 0 } = L + 8 := by
    unfold stun_message_length
    simp only [STUN_MESSAGE_LENGTH_POS, STUN_MESSAGE_HEADER_LENGTH]
    rw [f2]; omega
  rw [hlen, ← hc]
  apply hcs
  intro i hi
  rw [with_attribute_value B L _ 4 (hostBytes32 X _), rdb_wrbs, if_neg (by omega)]

/-- A message carrying, as its first attribute, the MESSAGE-INTEGRITY attribute written
by the finisher passes the integrity stage with the finisher's key, when the keyed hash
reads neither the declared length nor the digest. -/
theorem check_integrity_of_appended (X : Collab) (hkh : keyed_hash_ignores_digest X)
    (H F : List Nat) (n : Nat) (k : List Nat) (kl : Nat)
    (hfind : stun_message_find (viewed F n) STUN_ATTRIBUTE_MESSAGE_INTEGRITY = some (24, 20))
    (hagree : ∀ i, i < 24 → i ≠ 2 → i ≠ 3 →
      rdb F i = rdb (with_attribute H 20 STUN_ATTRIBUTE_MESSAGE_INTEGRITY 20 []) i)
    (hdig : rdbs F 24 20 =
      stun_sha1 X (with_attribute H 20 STUN_ATTRIBUTE_MESSAGE_INTEGRITY 20 []) 44 k kl) :
    ∃ m2, check_integrity X (viewed F n) (some k) kl = some (some m2) ∧
      m2.buffer = F ∧ m2.buffer_len = n := by
  unfold check_integrity
  simp only
  by_cases hk : kl > 0
  · rw [if_pos hk, hfind]
    simp only [viewed]
    have hsame : stun_sha1 X F (24 + 20) k kl =
        stun_sha1 X (with_attribute H 20 STUN_ATTRIBUTE_MESSAGE_INTEGRITY 20 []) 44 k kl := by
      apply hkh
      intro i hi h2 h3
      exact hagree i (by omega) h2 h3
    rw [hsame, ← hdig, if_neg (by simp)]
    exact ⟨_, rfl, rfl, rfl⟩
  · rw [if_neg hk]
    exact ⟨_, rfl, rfl, rfl⟩

/-! ## Round trip of a built and finished request -/

theorem policy_ok_of_no_username (A : StunAgent) (M : StunMessage)
    (hshort : usage A STUN_AGENT_USAGE_SHORT_TERM_CREDENTIALS = false)
    (hlong : usage A STUN_AGENT_USAGE_LONG_TERM_CREDENTIALS = false)
    (huser : stun_message_has_attribute M STUN_ATTRIBUTE_USERNAME = false) :
    credential_policy_violated A M = false := by
  simp [credential_policy_violated, hshort, hlong, huser]

theorem resolve_key_request (A : StunAgent) (M : StunMessage)
    (v : StunMessageIntegrityValidate) (key : Option (List Nat)) (key_len : Nat)
    (hv : ∀ a msg u ul, v a msg u ul = some (key, key_len)) :
    resolve_key A M (some v) none 0 = some (key, key_len) ∨
    resolve_key A M (some v) none 0 = some (none, 0) := by
  unfold resolve_key
  split
  · left; simp only [hv]
  · right; rfl

theorem resolve_key_no_integrity (A : StunAgent) (M : StunMessage)
    (v : Option StunMessageIntegrityValidate)
    (hmi : stun_message_has_attribute M STUN_ATTRIBUTE_MESSAGE_INTEGRITY = false) :
    resolve_key A M v none 0 = some (none, 0) := by
  unfold resolve_key
  rw [if_neg (by rw [hmi]; simp)]

theorem check_integrity_none (X : Collab) (M : StunMessage) (kl : Nat) :
    check_integrity X M none kl = some (some M) := rfl

/-- Validation of a finished request that carries no attribute at all. -/
theorem validate_bare_request (X : Collab) (A : StunAgent) (out : StunMessage) (F : List Nat)
    (n : Nat) (v : Option StunMessageIntegrityValidate)
    (hshort : usage A STUN_AGENT_USAGE_SHORT_TERM_CREDENTIALS = false)
    (hlong : usage A STUN_AGENT_USAGE_LONG_TERM_CREDENTIALS = false)
    (hframe : complete_frame X F n) (hcookie : cookie_ok A (viewed F n))
    (hsum : checksum_ok X A (viewed F n))
    (hclass : stun_message_get_class (viewed F n) = StunClass.STUN_REQUEST)
    (hlen : stun_message_length (viewed F n) = 20) :
    stun_agent_validate X A out F n v =
      some (StunValidationStatus.STUN_VALIDATION_SUCCESS, A, viewed F n) := by
  have huser : stun_message_has_attribute (viewed F n) STUN_ATTRIBUTE_USERNAME = false := by
    unfold stun_message_has_attribute; rw [find_no_attribute _ _ hlen]; rfl
  have hmi : stun_message_has_attribute (viewed F n) STUN_ATTRIBUTE_MESSAGE_INTEGRITY = false := by
    unfold stun_message_has_attribute; rw [find_no_attribute _ _ hlen]; rfl
  exact validate_request_success X A out F n v none 0 (viewed F n) hframe hcookie hsum hclass
    (policy_ok_of_no_username A _ hshort hlong huser)
    (resolve_key_no_integrity A _ v hmi) (check_integrity_none X _ 0)
    (find_unknowns_no_attribute X A _ 1 hlen)

/-- Validation of a finished request whose only attribute is the FINGERPRINT written by
the finisher. -/
theorem validate_fingerprint_only (X : Collab) (hcs : checksum_ignores_value X)
    (A : StunAgent) (out : StunMessage) (H : List Nat) (n : Nat)
    (v : Option StunMessageIntegrityValidate)
    (hshort : usage A STUN_AGENT_USAGE_SHORT_TERM_CREDENTIALS = false)
    (hlong : usage A STUN_AGENT_USAGE_LONG_TERM_CREDENTIALS = false)
    (hframe : complete_frame X (with_attribute H 20 STUN_ATTRIBUTE_FINGERPRINT 4
      (hostBytes32 X (stun_fingerprint X
        (with_attribute H 20 STUN_ATTRIBUTE_FINGERPRINT 4 []) (20 + 8)))) n)
    (hcookie : cookie_ok A (viewed H n))
    (hclass : stun_message_get_class (viewed H n) = StunClass.STUN_REQUEST) :
    stun_agent_validate X A out (with_attribute H 20 STUN_ATTRIBUTE_FINGERPRINT 4
      (hostBytes32 X (stun_fingerprint X
        (with_attribute H 20 STUN_ATTRIBUTE_FINGERPRINT 4 []) (20 + 8)))) n v =
      some (StunValidationStatus.STUN_VALIDATION_SUCCESS, A,
        viewed (with_attribute H 20 STUN_ATTRIBUTE_FINGERPRINT 4
          (hostBytes32 X (stun_fingerprint X
            (with_attribute H 20 STUN_ATTRIBUTE_FINGERPRINT 4 []) (20 + 8)))) n) := by
  generalize hF : with_attribute H 20 STUN_ATTRIBUTE_FINGERPRINT 4
      (hostBytes32 X (stun_fingerprint X
        (with_attribute H 20 STUN_ATTRIBUTE_FINGERPRINT 4 []) (20 + 8))) = F at hframe ⊢
  obtain ⟨f2, f20, f22, fhdr, _⟩ := appended_layout H 20 STUN_ATTRIBUTE_FINGERPRINT 4
      (hostBytes32 X (stun_fingerprint X
        (with_attribute H 20 STUN_ATTRIBUTE_FINGERPRINT 4 []) (20 + 8)))
      (by decide) (by decide) (by decide) (by decide)
  rw [hF] at f2 f20 f22 fhdr
  have hsame : same_header H F := fun i h1 h2 h3 => fhdr i h2 h3 h1
  have hlen : stun_message_length (viewed F n) = 24 + 4 := by
    unfold stun_message_length viewed
    simp only [STUN_MESSAGE_LENGTH_POS, STUN_MESSAGE_HEADER_LENGTH]
    rw [f2]
  have hfindall : ∀ t, stun_message_find (viewed F n) t =
      if STUN_ATTRIBUTE_FINGERPRINT = t then some (24, 4) else none :=
    fun t => find_one_attribute (viewed F n) t _ 4 (by decide) hlen f20 f22
  have huser : stun_message_has_attribute (viewed F n) STUN_ATTRIBUTE_USERNAME = false := by
    unfold stun_message_has_attribute; rw [hfindall, if_neg (by decide)]; rfl
  have hmi : stun_message_has_attribute (viewed F n) STUN_ATTRIBUTE_MESSAGE_INTEGRITY = false := by
    unfold stun_message_has_attribute; rw [hfindall, if_neg (by decide)]; rfl
  have hcookie2 : cookie_ok A (viewed F n) := by
    unfold cookie_ok at hcookie ⊢
    rw [has_cookie_of_same_header (viewed H n) (viewed F n) hsame]
    exact hcookie
  have hclass2 : stun_message_get_class (viewed F n) = StunClass.STUN_REQUEST := by
    rw [get_class_of_same_header (viewed H n) (viewed F n) hsame]
    exact hclass
  have hfp : fingerprint_ok X (viewed F n) = true := by
    rw [← hF]
    apply fingerprint_ok_of_appended X hcs H 20 n (by decide) (by decide)
    rw [hF, hfindall, if_pos rfl]
  have hsum : checksum_ok X A (viewed F n) := by
    unfold checksum_ok; rw [hfp]; simp
  refine validate_request_success X A out F n v none 0 (viewed F n) hframe hcookie2 hsum hclass2
    (policy_ok_of_no_username A _ hshort hlong huser)
    (resolve_key_no_integrity A _ v hmi) (check_integrity_none X _ 0) ?_
  apply find_unknowns_one_skipped X A (viewed F n) 1 4 (by decide) hlen (by decide) f22
  show (!stun_optional (stun_getw F 20) && stun_agent_is_unknown A (stun_getw F 20)) = false
  rw [f20]
  simp [stun_optional, STUN_ATTRIBUTE_FINGERPRINT]

theorem resolve_and_check_appended (X : Collab) (hkh : keyed_hash_ignores_digest X)
    (A : StunAgent) (H F : List Nat) (n : Nat) (k : List Nat) (kl : Nat)
    (v : StunMessageIntegrityValidate)
    (hv : ∀ a msg u ul, v a msg u ul = some (some k, kl))
    (hfind : stun_message_find (viewed F n) STUN_ATTRIBUTE_MESSAGE_INTEGRITY = some (24, 20))
    (hagree : ∀ i, i < 24 → i ≠ 2 → i ≠ 3 →
      rdb F i = rdb (with_attribute H 20 STUN_ATTRIBUTE_MESSAGE_INTEGRITY 20 []) i)
    (hdig : rdbs F 24 20 =
      stun_sha1 X (with_attribute H 20 STUN_ATTRIBUTE_MESSAGE_INTEGRITY 20 []) 44 k kl) :
    ∃ key1 kl1 m2, resolve_key A (viewed F n) (some v) none 0 = some (key1, kl1) ∧
      check_integrity X (viewed F n) key1 kl1 = some (some m2) ∧
      m2.buffer = F ∧ m2.buffer_len = n := by
  rcases resolve_key_request A (viewed F n) v (some k) kl hv with h | h
  · obtain ⟨m2, hm2, hb, hn⟩ := check_integrity_of_appended X hkh H F n k kl hfind hagree hdig
    exact ⟨some k, kl, m2, h, hm2, hb, hn⟩
  · exact ⟨none, 0, viewed F n, h, rfl, rfl, rfl⟩

/-- Validation of a finished request whose only attribute is the MESSAGE-INTEGRITY written
by the finisher. -/
theorem validate_integrity_only (X : Collab) (hkh : keyed_hash_ignores_digest X)
    (A : StunAgent) (out : StunMessage) (H : List Nat) (n : Nat) (k : List Nat) (kl : Nat)
    (v : StunMessageIntegrityValidate)
    (hv : ∀ a msg u ul, v a msg u ul = some (some k, kl))
    (hshort : usage A STUN_AGENT_USAGE_SHORT_TERM_CREDENTIALS = false)
    (hlong : usage A STUN_AGENT_USAGE_LONG_TERM_CREDENTIALS = false)
    (hknown : stun_agent_is_unknown A STUN_ATTRIBUTE_MESSAGE_INTEGRITY = false)
    (hnofp : ¬ (A.compatibility = StunCompatibility.STUN_COMPATIBILITY_3489BIS ∧
      usage A STUN_AGENT_USAGE_USE_FINGERPRINT = true))
    (hframe : complete_frame X (with_attribute H 20 STUN_ATTRIBUTE_MESSAGE_INTEGRITY 20
      (stun_sha1 X (with_attribute H 20 STUN_ATTRIBUTE_MESSAGE_INTEGRITY 20 []) (20 + 24) k kl)) n)
    (hcookie : cookie_ok A (viewed H n))
    (hclass : stun_message_get_class (viewed H n) = StunClass.STUN_REQUEST) :
    ∃ m2, stun_agent_validate X A out (with_attribute H 20 STUN_ATTRIBUTE_MESSAGE_INTEGRITY 20
      (stun_sha1 X (with_attribute H 20 STUN_ATTRIBUTE_MESSAGE_INTEGRITY 20 []) (20 + 24) k kl))
      n (some v) = some (StunValidationStatus.STUN_VALIDATION_SUCCESS, A, m2) := by
  obtain ⟨f2, f20, f22, fhdr, fval⟩ := appended_layout H 20 STUN_ATTRIBUTE_MESSAGE_INTEGRITY 20
      (stun_sha1 X (with_attribute H 20 STUN_ATTRIBUTE_MESSAGE_INTEGRITY 20 []) (20 + 24) k kl)
      (by decide) (by decide) (by decide) (by decide)
  have hdig : rdbs (with_attribute H 20 STUN_ATTRIBUTE_MESSAGE_INTEGRITY 20
      (stun_sha1 X (with_attribute H 20 STUN_ATTRIBUTE_MESSAGE_INTEGRITY 20 []) (20 + 24) k kl))
      24 20 =
      stun_sha1 X (with_attribute H 20 STUN_ATTRIBUTE_MESSAGE_INTEGRITY 20 []) 44 k kl := by
    rw [with_attribute_value]
    exact rdbs_wrbs_self _ _ _ _ (stun_sha1_length _ _ _ _ _)
      (fun i hi => stun_sha1_getD_lt _ _ _ _ _ i hi)
  have hagree : ∀ i, i < 24 → i ≠ 2 → i ≠ 3 →
      rdb (with_attribute H 20 STUN_ATTRIBUTE_MESSAGE_INTEGRITY 20
        (stun_sha1 X (with_attribute H 20 STUN_ATTRIBUTE_MESSAGE_INTEGRITY 20 []) (20 + 24) k kl)) i
      = rdb (with_attribute H 20 STUN_ATTRIBUTE_MESSAGE_INTEGRITY 20 []) i := by
    intro i hi _ _
    rw [with_attribute_value, rdb_wrbs, if_neg (by omega)]
  generalize hF : with_attribute H 20 STUN_ATTRIBUTE_MESSAGE_INTEGRITY 20
      (stun_sha1 X (with_attribute H 20 STUN_ATTRIBUTE_MESSAGE_INTEGRITY 20 []) (20 + 24) k kl)
      = F at hframe f2 f20 f22 fhdr fval hdig hagree ⊢
  have hsame : same_header H F := fun i h1 h2 h3 => fhdr i h2 h3 h1
  have hlen : stun_message_length (viewed F n) = 24 + 20 := by
    unfold stun_message_length viewed
    simp only [STUN_MESSAGE_LENGTH_POS, STUN_MESSAGE_HEADER_LENGTH]
    rw [f2]
  have hfindall : ∀ t, stun_message_find (viewed F n) t =
      if STUN_ATTRIBUTE_MESSAGE_INTEGRITY = t then some (24, 20) else none :=
    fun t => find_one_attribute (viewed F n) t _ 20 (by decide) hlen f20 f22
  have huser : stun_message_has_attribute (viewed F n) STUN_ATTRIBUTE_USERNAME = false := by
    unfold stun_message_has_attribute; rw [hfindall, if_neg (by decide)]; rfl
  have hcookie2 : cookie_ok A (viewed F n) := by
    unfold cookie_ok at hcookie ⊢
    rw [has_cookie_of_same_header (viewed H n) (viewed F n) hsame]
    exact hcookie
  have hclass2 : stun_message_get_class (viewed F n) = StunClass.STUN_REQUEST := by
    rw [get_class_of_same_header (viewed H n) (viewed F n) hsame]
    exact hclass
  have hsum : checksum_ok X A (viewed F n) := by
    unfold checksum_ok
    exact fun h => hnofp ⟨h.1, h.2.1⟩
  obtain ⟨key1, kl1, m2, hres, hint, hb, hn⟩ :=
    resolve_and_check_appended X hkh A H F n k kl v hv (by rw [hfindall, if_pos rfl]) hagree hdig
  refine ⟨m2, validate_request_success X A out F n (some v) key1 kl1 m2 hframe hcookie2 hsum
    hclass2 (policy_ok_of_no_username A _ hshort hlong huser) hres hint ?_⟩
  have hlen2 : stun_message_length m2 = 24 + 20 := by
    unfold stun_message_length at hlen ⊢
    rw [hb]; exact hlen
  apply find_unknowns_one_skipped X A m2 1 20 (by decide) hlen2 (by decide) (by rw [hb]; exact f22)
  rw [hb, f20, hknown]
  simp

/-- Validation of a finished request that carries the MESSAGE-INTEGRITY and then the
FINGERPRINT written by the finisher. -/
theorem validate_integrity_and_fingerprint (X : Collab) (hkh : keyed_hash_ignores_digest X)
    (hcs : checksum_ignores_value X)
    (A : StunAgent) (out : StunMessage) (H : List Nat) (n : Nat) (k : List Nat) (kl : Nat)
    (v : StunMessageIntegrityValidate)
    (hv : ∀ a msg u ul, v a msg u ul = some (some k, kl))
    (hshort : usage A STUN_AGENT_USAGE_SHORT_TERM_CREDENTIALS = false)
    (hlong : usage A STUN_AGENT_USAGE_LONG_TERM_CREDENTIALS = false)
    (hknown : stun_agent_is_unknown A STUN_ATTRIBUTE_MESSAGE_INTEGRITY = false)
    (W : List Nat)
    (hW : W = with_attribute H 20 STUN_ATTRIBUTE_MESSAGE_INTEGRITY 20
      (stun_sha1 X (with_attribute H 20 STUN_ATTRIBUTE_MESSAGE_INTEGRITY 20 []) (20 + 24) k kl))
    (hframe : complete_frame X (with_attribute W 44 STUN_ATTRIBUTE_FINGERPRINT 4
      (hostBytes32 X (stun_fingerprint X
        (with_attribute W 44 STUN_ATTRIBUTE_FINGERPRINT 4 []) (44 + 8)))) n)
    (hcookie : cookie_ok A (viewed H n))
    (hclass : stun_message_get_class (viewed H n) = StunClass.STUN_REQUEST) :
    ∃ m2, stun_agent_validate X A out (with_attribute W 44 STUN_ATTRIBUTE_FINGERPRINT 4
      (hostBytes32 X (stun_fingerprint X
        (with_attribute W 44 STUN_ATTRIBUTE_FINGERPRINT 4 []) (44 + 8))))
      n (some v) = some (StunValidationStatus.STUN_VALIDATION_SUCCESS, A, m2) := by
  obtain ⟨_, w20, w22, whdr, wval⟩ := appended_layout H 20 STUN_ATTRIBUTE_MESSAGE_INTEGRITY 20
      (stun_sha1 X (with_attribute H 20 STUN_ATTRIBUTE_MESSAGE_INTEGRITY 20 []) (20 + 24) k kl)
      (by decide) (by decide) (by decide) (by decide)
  have wdig : rdbs W 24 20 =
      stun_sha1 X (with_attribute H 20 STUN_ATTRIBUTE_MESSAGE_INTEGRITY 20 []) 44 k kl := by
    rw [hW, with_attribute_value]
    exact rdbs_wrbs_self _ _ _ _ (stun_sha1_length _ _ _ _ _)
      (fun i hi => stun_sha1_getD_lt _ _ _ _ _ i hi)
  have wagree : ∀ i, i < 24 → i ≠ 2 → i ≠ 3 →
      rdb W i = rdb (with_attribute H 20 STUN_ATTRIBUTE_MESSAGE_INTEGRITY 20 []) i := by
    intro i hi _ _
    rw [hW, with_attribute_value, rdb_wrbs, if_neg (by omega)]
  rw [← hW] at w20 w22 whdr wval
  obtain ⟨f2, f44, f46, fhdr, _⟩ := appended_layout W 44 STUN_ATTRIBUTE_FINGERPRINT 4
      (hostBytes32 X (stun_fingerprint X
        (with_attribute W 44 STUN_ATTRIBUTE_FINGERPRINT 4 []) (44 + 8)))
      (by decide) (by decide) (by decide) (by decide)
  have hfpok : ∀ (hfind : stun_message_find
      (viewed (with_attribute W 44 STUN_ATTRIBUTE_FINGERPRINT 4
        (hostBytes32 X (stun_fingerprint X
          (with_attribute W 44 STUN_ATTRIBUTE_FINGERPRINT 4 []) (44 + 8)))) n)
      STUN_ATTRIBUTE_FINGERPRINT = some (44 + 4, 4)),
      fingerprint_ok X
        (viewed (with_attribute W 44 STUN_ATTRIBUTE_FINGERPRINT 4
          (hostBytes32 X (stun_fingerprint X
            (with_attribute W 44 STUN_ATTRIBUTE_FINGERPRINT 4 []) (44 + 8)))) n) = true :=
    fingerprint_ok_of_appended X hcs W 44 n (by decide) (by decide)
  generalize hF : with_attribute W 44 STUN_ATTRIBUTE_FINGERPRINT 4
      (hostBytes32 X (stun_fingerprint X
        (with_attribute W 44 STUN_ATTRIBUTE_FINGERPRINT 4 []) (44 + 8))) = F
      at hframe f2 f44 f46 fhdr hfpok ⊢
  have f20 : stun_getw F 20 = STUN_ATTRIBUTE_MESSAGE_INTEGRITY := by
    rw [stun_getw_of_rdb_eq F W 20 (fhdr 20 (by decide) (by decide) (by decide))
      (fhdr 21 (by decide) (by decide) (by decide))]
    exact w20
  have f22 : stun_getw F 22 = 20 := by
    rw [stun_getw_of_rdb_eq F W 22 (fhdr 22 (by decide) (by decide) (by decide))
      (fhdr 23 (by decide) (by decide) (by decide))]
    exact w22
  have hsame : same_header H F := fun i h1 h2 h3 => by
    simp only [STUN_MESSAGE_HEADER_LENGTH] at h1
    rw [fhdr i h2 h3 (by omega)]
    exact whdr i h2 h3 h1
  have hdig : rdbs F 24 20 =
      stun_sha1 X (with_attribute H 20 STUN_ATTRIBUTE_MESSAGE_INTEGRITY 20 []) 44 k kl := by
    rw [← wdig]
    apply rdbs_congr
    intro i h1 h2
    exact (fhdr i (by omega) (by omega) (by omega))
  have hagree : ∀ i, i < 24 → i ≠ 2 → i ≠ 3 →
      rdb F i = rdb (with_attribute H 20 STUN_ATTRIBUTE_MESSAGE_INTEGRITY 20 []) i := by
    intro i hi h2 h3
    rw [fhdr i h2 h3 (by omega)]
    exact wagree i hi h2 h3
  have hlen : stun_message_length (viewed F n) = 28 + 20 + 4 := by
    unfold stun_message_length viewed
    simp only [STUN_MESSAGE_LENGTH_POS, STUN_MESSAGE_HEADER_LENGTH]
    rw [f2]
  have hfindall : ∀ t, stun_message_find (viewed F n) t =
      if STUN_ATTRIBUTE_MESSAGE_INTEGRITY = t then some (24, 20)
      else if STUN_ATTRIBUTE_FINGERPRINT = t then some (28 + 20, 4) else none :=
    fun t => find_two_attributes (viewed F n) t _ 20 _ 4 (by decide) (by decide) hlen f20 f22
      f44 f46
  have huser : stun_message_has_attribute (viewed F n) STUN_ATTRIBUTE_USERNAME = false := by
    unfold stun_message_has_attribute
    rw [hfindall, if_neg (by decide), if_neg (by decide)]; rfl
  have hcookie2 : cookie_ok A (viewed F n) := by
    unfold cookie_ok at hcookie ⊢
    rw [has_cookie_of_same_header (viewed H n) (viewed F n) hsame]
    exact hcookie
  have hclass2 : stun_message_get_class (viewed F n) = StunClass.STUN_REQUEST := by
    rw [get_class_of_same_header (viewed H n) (viewed F n) hsame]
    exact hclass
  have hfp : fingerprint_ok X (viewed F n) = true := by
    apply hfpok
    rw [hfindall, if_neg (by decide), if_pos rfl]
  have hsum : checksum_ok X A (viewed F n) := by
    unfold checksum_ok; rw [hfp]; simp
  obtain ⟨key1, kl1, m2, hres, hint, hb, hn⟩ :=
    resolve_and_check_appended X hkh A H F n k kl v hv (by rw [hfindall, if_pos rfl]) hagree hdig
  refine ⟨m2, validate_request_success X A out F n (some v) key1 kl1 m2 hframe hcookie2 hsum
    hclass2 (policy_ok_of_no_username A _ hshort hlong huser) hres hint ?_⟩
  have hlen2 : stun_message_length m2 = 28 + 20 + 4 := by
    unfold stun_message_length at hlen ⊢
    rw [hb]; exact hlen
  apply find_unknowns_two_skipped X A m2 1 20 4 (by decide) (by decide) hlen2 (by decide)
    (by rw [hb]; exact f22) (by rw [hb]; exact f46)
  · rw [hb, f20, hknown]
    simp
  · rw [hb]
    show (!stun_optional (stun_getw F 44) && stun_agent_is_unknown A (stun_getw F 44)) = false
    rw [f44]
    simp [stun_optional, STUN_ATTRIBUTE_FINGERPRINT]

/-- Claim C3, as amended: for every profile, method and key, every usage flags that
require neither short-term nor long-term credentials and every known-attribute list that
contains MESSAGE-INTEGRITY when the key is non-null, a request built by
`stun_agent_init_request` and finished by `stun_agent_finish_message` with that key
(non-zero result), whose finished buffer passes the frame pre-check, is answered with
STUN_VALIDATION_SUCCESS by a freshly initialised agent of the same known attributes,
profile and usage flags whose validater returns the same key; the keyed hash and the
checksum are taken to honour their contracts (they read neither the declared length
field nor the value they produce). -/
theorem C3_built_request_round_trip
    (X : Collab) (prior prior2 : StunAgent) (known : List Nat) (compat : StunCompatibility)
    (flags : Nat) (buffer : List Nat) (buffer_len m : Nat) (id : List Nat)
    (key : Option (List Nat)) (key_len : Nat) (out : StunMessage)
    (v : StunMessageIntegrityValidate)
    (hkh : keyed_hash_ignores_digest X) (hcs : checksum_ignores_value X)
    (hshort : usage (stun_agent_init prior known compat flags)
      STUN_AGENT_USAGE_SHORT_TERM_CREDENTIALS = false)
    (hlong : usage (stun_agent_init prior known compat flags)
      STUN_AGENT_USAGE_LONG_TERM_CREDENTIALS = false)
    (hknown : key ≠ none → stun_agent_is_unknown (stun_agent_init prior known compat flags)
      STUN_ATTRIBUTE_MESSAGE_INTEGRITY = false)
    (hbuilt : (stun_agent_init_request (stun_agent_init prior known compat flags)
      buffer buffer_len m id).1 = true)
    (hfin : (stun_agent_finish_message X (stun_agent_init prior known compat flags)
      (stun_agent_init_request (stun_agent_init prior known compat flags)
        buffer buffer_len m id).2 key key_len).1 ≠ 0)
    (hv : ∀ a msg u ul, v a msg u ul = some (key, key_len))
    (hframe : complete_frame X
      (stun_agent_finish_message X (stun_agent_init prior known compat flags)
        (stun_agent_init_request (stun_agent_init prior known compat flags)
          buffer buffer_len m id).2 key key_len).2.2.buffer
      (stun_agent_finish_message X (stun_agent_init prior known compat flags)
        (stun_agent_init_request (stun_agent_init prior known compat flags)
          buffer buffer_len m id).2 key key_len).1) :
    ∃ m2, stun_agent_validate X (stun_agent_init prior2 known compat flags) out
      (stun_agent_finish_message X (stun_agent_init prior known compat flags)
        (stun_agent_init_request (stun_agent_init prior known compat flags)
          buffer buffer_len m id).2 key key_len).2.2.buffer
      (stun_agent_finish_message X (stun_agent_init prior known compat flags)
        (stun_agent_init_request (stun_agent_init prior known compat flags)
          buffer buffer_len m id).2 key key_len).1 (some v) =
      some (StunValidationStatus.STUN_VALIDATION_SUCCESS,
        stun_agent_init prior2 known compat flags, m2) := by
  obtain ⟨_, _, hk, _, hlen, hcls, hck⟩ :=
    init_request_spec (stun_agent_init prior known compat flags) buffer buffer_len m id hbuilt
  generalize (stun_agent_init_request (stun_agent_init prior known compat flags)
    buffer buffer_len m id).2 = R at hfin hframe hk hlen hcls hck ⊢
  have hshortA : usage (stun_agent_init prior2 known compat flags)
      STUN_AGENT_USAGE_SHORT_TERM_CREDENTIALS = false := hshort
  have hlongA : usage (stun_agent_init prior2 known compat flags)
      STUN_AGENT_USAGE_LONG_TERM_CREDENTIALS = false := hlong
  have hcookie : ∀ n, cookie_ok (stun_agent_init prior2 known compat flags)
      (viewed R.buffer n) := by
    intro n hc
    have h1 : stun_has_cookie R = true := hck hc.1
    have h2 : stun_has_cookie R = false := hc.2
    rw [h1] at h2; exact absurd h2 (by decide)
  have hclass : ∀ n, stun_message_get_class (viewed R.buffer n) = StunClass.STUN_REQUEST :=
    fun _ => hcls
  rcases finish_message_cases X (stun_agent_init prior known compat flags) R key key_len with
    h0 | ⟨m1, m2, h1, h2, _, hEq⟩
  · exact absurd h0.1 hfin
  · rw [hEq] at hframe ⊢
    simp only at hframe ⊢
    have hfk : finish_key R key = key := by unfold finish_key; rw [hk]
    have hfkl : finish_key_len R key_len = key_len := by unfold finish_key_len; rw [hk]
    rw [hfk, hfkl] at h1
    cases key with
    | none =>
      have hm1 : m1 = R := by
        simp only [finish_integrity, Option.some.injEq] at h1; exact h1.symm
      subst hm1
      by_cases hfp : (stun_agent_init prior known compat flags).compatibility =
          StunCompatibility.STUN_COMPATIBILITY_3489BIS ∧
          usage (stun_agent_init prior known compat flags) STUN_AGENT_USAGE_USE_FINGERPRINT = true
      · obtain ⟨_, hm2⟩ := finish_checksum_some X _ m1 m2 20 hfp hlen (by decide) (by decide) h2
        subst hm2
        simp only at hframe ⊢
        exact ⟨_, validate_fingerprint_only X hcs _ out m1.buffer _ (some v) hshortA hlongA
          hframe (hcookie _) (hclass _)⟩
      · rw [finish_checksum_off X _ m1 hfp] at h2
        simp only [Option.some.injEq] at h2
        subst h2
        refine ⟨_, validate_bare_request X _ out m1.buffer _ (some v) hshortA hlongA hframe
          (hcookie _) ?_ (hclass _) hlen⟩
        unfold checksum_ok
        exact fun h => hfp ⟨h.1, h.2.1⟩
    | some k =>
      obtain ⟨_, hm1⟩ := finish_integrity_some X R k key_len 20 m1 hlen (by decide) (by decide) h1
      have hknownA : stun_agent_is_unknown (stun_agent_init prior2 known compat flags)
          STUN_ATTRIBUTE_MESSAGE_INTEGRITY = false := hknown (by simp)
      by_cases hfp : (stun_agent_init prior known compat flags).compatibility =
          StunCompatibility.STUN_COMPATIBILITY_3489BIS ∧
          usage (stun_agent_init prior known compat flags) STUN_AGENT_USAGE_USE_FINGERPRINT = true
      · have hlen1 : stun_message_length m1 = 44 := by
          rw [hm1]
          unfold stun_message_length
          simp only [STUN_MESSAGE_LENGTH_POS, STUN_MESSAGE_HEADER_LENGTH]
          rw [(appended_layout R.buffer 20 STUN_ATTRIBUTE_MESSAGE_INTEGRITY 20 _
            (by decide) (by decide) (by decide) (by decide)).1]
        obtain ⟨_, hm2⟩ := finish_checksum_some X _ m1 m2 44 hfp hlen1 (by decide) (by decide) h2
        subst hm2
        simp only at hframe ⊢
        have hW : m1.buffer = with_attribute R.buffer 20 STUN_ATTRIBUTE_MESSAGE_INTEGRITY 20
            (stun_sha1 X (with_attribute R.buffer 20 STUN_ATTRIBUTE_MESSAGE_INTEGRITY 20 [])
              (20 + 24) k key_len) := by rw [hm1]
        exact validate_integrity_and_fingerprint X hkh hcs _ out R.buffer _ k key_len v hv
          hshortA hlongA hknownA m1.buffer hW hframe (hcookie _) (hclass _)
      · rw [finish_checksum_off X _ m1 hfp] at h2
        simp only [Option.some.injEq] at h2
        subst h2
        subst hm1
        simp only at hframe ⊢
        exact validate_integrity_only X hkh _ out R.buffer _ k key_len v hv hshortA hlongA
          hknownA hfp hframe (hcookie _) (hclass _)

theorem refCollab_keyed_hash_ignores_digest : keyed_hash_ignores_digest refCollab := by
  intro b1 b2 len key key_len h
  unfold stun_sha1 refCollab
  simp only
  by_cases hl : len < 44
  · rw [if_pos hl, if_pos hl]
  · rw [if_neg hl, if_neg hl, h 0 (by omega) (by decide) (by decide),
      h 1 (by omega) (by decide) (by decide)]

theorem refCollab_checksum_ignores_value : checksum_ignores_value refCollab := by
  intro b1 b2 len h
  unfold stun_fingerprint refCollab
  simp only
  by_cases hl : len < 28
  · rw [if_pos hl, if_pos hl]
  · rw [if_neg hl, if_neg hl, h 0 (by omega), h 1 (by omega)]

/-- Claim C3, witness: a request built and finished with `sampleKey` on a fresh modern
agent that requires the FINGERPRINT is accepted by another such agent. -/
theorem C3_built_request_round_trip_witness :
    ∃ m2, stun_agent_validate refCollab modernAgent (viewed [] 0)
      (finishedBy modernAgent 3).2.2.buffer (finishedBy modernAgent 3).1 (some sampleValidater) =
      some (StunValidationStatus.STUN_VALIDATION_SUCCESS, modernAgent, m2) :=
  C3_built_request_round_trip refCollab
    { known_attributes := [], compatibility := StunCompatibility.STUN_COMPATIBILITY_RFC3489,
      usage_flags := 0, sent_ids := List.replicate 200 emptySlot }
    { known_attributes := [], compatibility := StunCompatibility.STUN_COMPATIBILITY_RFC3489,
      usage_flags := 0, sent_ids := List.replicate 200 emptySlot }
    [6, 8, 0] StunCompatibility.STUN_COMPATIBILITY_3489BIS STUN_AGENT_USAGE_USE_FINGERPRINT
    (List.replicate 64 0) 64 1 sampleId (some sampleKey) 3 (viewed [] 0) sampleValidater
    refCollab_keyed_hash_ignores_digest refCollab_checksum_ignores_value
    (by decide) (by decide) (fun _ => by decide) (by decide) (by decide)
    (fun _ _ _ _ => rfl) (by decide)

/-- Claim C3, counterexample: (1) with the short-term-credentials flag, a request built
and finished with `sampleKey` (result 44, a complete frame) is answered by a fresh agent
of the same configuration, whose validater returns the same key, with
STUN_VALIDATION_UNAUTHORIZED; (2) with default flags and a known-attribute list that
lacks MESSAGE-INTEGRITY, it is answered with STUN_VALIDATION_UNKNOWN_REQUEST_ATTRIBUTE. -/
theorem C3_counterexample :
    ((stun_agent_init_request (legacyAgent 1) (List.replicate 64 0) 64 1 sampleId).1 = true ∧
      (finishedBy (legacyAgent 1) 3).1 = 44 ∧
      complete_frame refCollab (finishedBy (legacyAgent 1) 3).2.2.buffer 44 ∧
      stun_agent_validate refCollab (legacyAgent 1) (viewed [] 0)
        (finishedBy (legacyAgent 1) 3).2.2.buffer 44 (some sampleValidater) =
        some (StunValidationStatus.STUN_VALIDATION_UNAUTHORIZED, legacyAgent 1,
          viewed (finishedBy (legacyAgent 1) 3).2.2.buffer 44)) ∧
    ((stun_agent_init_request unawareAgent (List.replicate 64 0) 64 1 sampleId).1 = true ∧
      (finishedBy unawareAgent 3).1 = 44 ∧
      complete_frame refCollab (finishedBy unawareAgent 3).2.2.buffer 44 ∧
      stun_agent_validate refCollab unawareAgent (viewed [] 0)
        (finishedBy unawareAgent 3).2.2.buffer 44 (some sampleValidater) =
        some (StunValidationStatus.STUN_VALIDATION_UNKNOWN_REQUEST_ATTRIBUTE, unawareAgent,
          { buffer := (finishedBy unawareAgent 3).2.2.buffer, buffer_len := 44,
            key := some sampleKey, key_len := 3 })) := by
  refine ⟨⟨by decide, by decide, by decide, by decide⟩,
    ⟨by decide, by decide, by decide, by decide⟩⟩

/-! ## Filling the transaction cache -/

theorem save_sent_id_append (id : List Nat) (method : Nat) (key : Option (List Nat))
    (key_len : Nat) (P : List StunAgentSavedIds) (q : StunAgentSavedIds)
    (Q : List StunAgentSavedIds) (hP : ∀ s ∈ P, s.valid = true) (hq : q.valid = false) :
    save_sent_id id method key key_len (P ++ q :: Q) =
      P ++ { id := id, method := method, key := key, key_len := key_len, valid := true } :: Q := by
  induction P with
  | nil => simp [save_sent_id, hq]
  | cons p P ih =>
    have hp : p.valid = true := hP p (List.mem_cons_self _ _)
    have ih2 := ih (fun s hs => hP s (List.mem_cons_of_mem _ hs))
    simp only [List.cons_append, save_sent_id, hp]
    rw [if_neg (by simp)]
    exact congrArg (List.cons p) ih2

theorem finish_checksum_congr (X : Collab) (a b : StunAgent) (m1 : StunMessage)
    (hc : a.compatibility = b.compatibility) (hf : a.usage_flags = b.usage_flags) :
    finish_checksum X a m1 = finish_checksum X b m1 := by
  unfold finish_checksum usage
  rw [hc, hf]

/-- The returned length and the finished message do not depend on the transaction cache. -/
theorem finish_message_congr (X : Collab) (a b : StunAgent) (msg : StunMessage)
    (key : Option (List Nat)) (key_len : Nat)
    (hc : a.compatibility = b.compatibility) (hf : a.usage_flags = b.usage_flags) :
    (stun_agent_finish_message X a msg key key_len).1 =
      (stun_agent_finish_message X b msg key key_len).1 ∧
    (stun_agent_finish_message X a msg key key_len).2.2 =
      (stun_agent_finish_message X b msg key key_len).2.2 := by
  unfold stun_agent_finish_message
  simp only
  cases finish_integrity X msg (finish_key msg key) (finish_key_len msg key_len) with
  | none => exact ⟨rfl, rfl⟩
  | some m1 =>
    simp only
    rw [finish_checksum_congr X a b m1 hc hf]
    cases finish_checksum X b m1 with
    | none => exact ⟨rfl, rfl⟩
    | some m2 => exact ⟨rfl, rfl⟩

theorem finish_record_config (agent : StunAgent) (m2 : StunMessage) (key1 : Option (List Nat))
    (key_len1 : Nat) :
    (finish_record agent m2 key1 key_len1).known_attributes = agent.known_attributes ∧
    (finish_record agent m2 key1 key_len1).compatibility = agent.compatibility ∧
    (finish_record agent m2 key1 key_len1).usage_flags = agent.usage_flags := by
  unfold finish_record
  split <;> exact ⟨rfl, rfl, rfl⟩

theorem finish_message_config (X : Collab) (agent : StunAgent) (msg : StunMessage)
    (key : Option (List Nat)) (key_len : Nat) :
    (stun_agent_finish_message X agent msg key key_len).2.1.known_attributes =
      agent.known_attributes ∧
    (stun_agent_finish_message X agent msg key key_len).2.1.compatibility =
      agent.compatibility ∧
    (stun_agent_finish_message X agent msg key key_len).2.1.usage_flags = agent.usage_flags := by
  rcases finish_message_cases X agent msg key key_len with h0 | ⟨m1, m2, _, _, _, hEq⟩
  · rw [h0.2.1]; exact ⟨rfl, rfl, rfl⟩
  · rw [hEq]; exact finish_record_config agent m2 _ _

/-- The cache after a request has been finished with a non-zero result. -/
theorem finish_message_records (X : Collab) (agent : StunAgent) (r : FinishCall)
    (hreq : stun_message_get_class r.1 = StunClass.STUN_REQUEST)
    (hfin : (stun_agent_finish_message X agent r.1 r.2.1 r.2.2).1 ≠ 0) :
    (stun_agent_finish_message X agent r.1 r.2.1 r.2.2).2.1.sent_ids =
      save_sent_id (sent_record r).id (sent_record r).method (sent_record r).key
        (sent_record r).key_len agent.sent_ids := by
  obtain ⟨m2, hhdr, hEq⟩ := finish_message_of_ne_zero X agent r.1 r.2.1 r.2.2 hfin
  rw [hEq]
  simp only [finish_record, sent_record]
  rw [if_pos (by rw [get_class_of_same_header r.1 m2 hhdr]; exact hreq),
    get_method_of_same_header r.1 m2 hhdr, message_id_of_same_header r.1 m2 hhdr]

theorem finish_all_config (X : Collab) (reqs : List FinishCall) (agent : StunAgent) :
    (finish_all X agent reqs).1.known_attributes = agent.known_attributes ∧
    (finish_all X agent reqs).1.compatibility = agent.compatibility ∧
    (finish_all X agent reqs).1.usage_flags = agent.usage_flags := by
  induction reqs generalizing agent with
  | nil => exact ⟨rfl, rfl, rfl⟩
  | cons r rest ih =>
    simp only [finish_all]
    obtain ⟨h1, h2, h3⟩ := ih (stun_agent_finish_message X agent r.1 r.2.1 r.2.2).2.1
    obtain ⟨g1, g2, g3⟩ := finish_message_config X agent r.1 r.2.1 r.2.2
    exact ⟨h1.trans g1, h2.trans g2, h3.trans g3⟩

/-- Results of successive finish calls: each is what the same call returns on any agent of
the same profile and usage flags, whatever its cache holds. -/
theorem finish_all_results (X : Collab) (reqs : List FinishCall) (agent base : StunAgent)
    (hc : agent.compatibility = base.compatibility) (hf : agent.usage_flags = base.usage_flags) :
    (finish_all X agent reqs).2 =
      reqs.map (fun r => ((stun_agent_finish_message X base r.1 r.2.1 r.2.2).1,
        (stun_agent_finish_message X base r.1 r.2.1 r.2.2).2.2)) := by
  induction reqs generalizing agent with
  | nil => rfl
  | cons r rest ih =>
    simp only [finish_all, List.map_cons]
    obtain ⟨_, g2, g3⟩ := finish_message_config X agent r.1 r.2.1 r.2.2
    rw [ih _ (g2.trans hc) (g3.trans hf), (finish_message_congr X agent base r.1 r.2.1 r.2.2 hc hf).1,
      (finish_message_congr X agent base r.1 r.2.1 r.2.2 hc hf).2]

/-- The cache after successive finish calls on an agent whose occupied slots `P` precede
its empty slots `Q`: the empty slots are filled in order, as far as they go. -/
theorem finish_all_fills (X : Collab) (reqs : List FinishCall) (agent base : StunAgent)
    (P Q : List StunAgentSavedIds)
    (hc : agent.compatibility = base.compatibility) (hf : agent.usage_flags = base.usage_flags)
    (hids : agent.sent_ids = P ++ Q) (hP : ∀ s ∈ P, s.valid = true)
    (hQ : ∀ s ∈ Q, s.valid = false)
    (hreq : ∀ r ∈ reqs, stun_message_get_class r.1 = StunClass.STUN_REQUEST)
    (hfin : ∀ r ∈ reqs, (stun_agent_finish_message X base r.1 r.2.1 r.2.2).1 ≠ 0) :
    (finish_all X agent reqs).1.sent_ids =
      P ++ (reqs.take Q.length).map sent_record ++ Q.drop reqs.length := by
  induction reqs generalizing agent P Q with
  | nil => simp [finish_all, hids]
  | cons r rest ih =>
    simp only [finish_all]
    have hr := hreq r (List.mem_cons_self _ _)
    have hne : (stun_agent_finish_message X agent r.1 r.2.1 r.2.2).1 ≠ 0 := by
      rw [(finish_message_congr X agent base r.1 r.2.1 r.2.2 hc hf).1]
      exact hfin r (List.mem_cons_self _ _)
    have hrec := finish_message_records X agent r hr hne
    obtain ⟨_, g2, g3⟩ := finish_message_config X agent r.1 r.2.1 r.2.2
    cases Q with
    | nil =>
      rw [hids, List.append_nil, save_sent_id_full _ _ _ _ P hP] at hrec
      have := ih (stun_agent_finish_message X agent r.1 r.2.1 r.2.2).2.1 P [] (g2.trans hc)
        (g3.trans hf) (by rw [hrec, List.append_nil]) hP (by simp)
        (fun x hx => hreq x (List.mem_cons_of_mem _ hx))
        (fun x hx => hfin x (List.mem_cons_of_mem _ hx))
      rw [this]; simp
    | cons q Q =>
      have hq : q.valid = false := hQ q (List.mem_cons_self _ _)
      rw [hids, save_sent_id_append _ _ _ _ P q Q hP hq] at hrec
      have := ih (stun_agent_finish_message X agent r.1 r.2.1 r.2.2).2.1 (P ++ [sent_record r]) Q
        (g2.trans hc) (g3.trans hf) (by rw [hrec]; simp [sent_record])
        (by
          intro s hs
          rcases List.mem_append.mp hs with h | h
          · exact hP s h
          · simp only [List.mem_singleton] at h; rw [h]; rfl)
        (fun s hs => hQ s (List.mem_cons_of_mem _ hs))
        (fun x hx => hreq x (List.mem_cons_of_mem _ hx))
        (fun x hx => hfin x (List.mem_cons_of_mem _ hx))
      rw [this]; simp

theorem init_slots_invalid (prior : StunAgent) (known : List Nat) (compat : StunCompatibility)
    (flags : Nat) : ∀ s ∈ (stun_agent_init prior known compat flags).sent_ids, s.valid = false := by
  intro s hs
  simp only [stun_agent_init, List.mem_map] at hs
  obtain ⟨t, _, ht⟩ := hs
  rw [← ht]

theorem ids_differ_of_nodup (reqs : List FinishCall)
    (hdistinct : (reqs.map (fun r => stun_message_id r.1)).Nodup) (i j : Nat) (a b : FinishCall)
    (hij : i < j) (ha : reqs.get? i = some a) (hb : reqs.get? j = some b) :
    stun_message_id a.1 ≠ stun_message_id b.1 := by
  intro heq
  have hj : j < reqs.length := by
    rw [List.get?_eq_some] at hb; exact hb.1
  have := (List.nodup_iff_get?_ne_get?.mp hdistinct) i j hij (by simpa using hj)
  apply this
  simp only [List.get?_eq_getElem?, List.getElem?_map] at ha hb ⊢
  rw [ha, hb]
  simp [heq]

/-- Claim C4, as amended: starting from a freshly initialised agent, when more than
STUN_AGENT_MAX_SAVED_IDS requests with pairwise distinct transaction ids, each with room
for what the finisher appends, are finished with no validation in between, every call of
`stun_agent_finish_message` still returns the final message length (non-zero), only the
first STUN_AGENT_MAX_SAVED_IDS requests are recorded in the cache, and a response or error
that carries the id and method of one of the excess requests and passes the frame, cookie
and checksum stages is answered with STUN_VALIDATION_UNMATCHED_RESPONSE. -/
theorem C4_cache_exhaustion
    (X : Collab) (prior : StunAgent) (known : List Nat) (compat : StunCompatibility)
    (flags : Nat) (reqs : List FinishCall)
    (hreq : ∀ r ∈ reqs, stun_message_get_class r.1 = StunClass.STUN_REQUEST)
    (hmore : STUN_AGENT_MAX_SAVED_IDS (stun_agent_init prior known compat flags) < reqs.length)
    (hdistinct : (reqs.map (fun r => stun_message_id r.1)).Nodup)
    (hroom : ∀ r ∈ reqs, (stun_agent_finish_message X
      (stun_agent_init prior known compat flags) r.1 r.2.1 r.2.2).1 ≠ 0) :
    (finish_all X (stun_agent_init prior known compat flags) reqs).2.length = reqs.length ∧
    (∀ x ∈ (finish_all X (stun_agent_init prior known compat flags) reqs).2,
      x.1 = stun_message_length x.2 ∧ x.1 ≠ 0) ∧
    (finish_all X (stun_agent_init prior known compat flags) reqs).1.sent_ids =
      (reqs.take (STUN_AGENT_MAX_SAVED_IDS (stun_agent_init prior known compat flags))).map
        sent_record ∧
    ∀ (j : Nat) (r : FinishCall) (buffer : List Nat) (n : Nat) (out : StunMessage)
      (validater : Option StunMessageIntegrityValidate),
      STUN_AGENT_MAX_SAVED_IDS (stun_agent_init prior known compat flags) ≤ j →
      reqs.get? j = some r →
      complete_frame X buffer n →
      cookie_ok (finish_all X (stun_agent_init prior known compat flags) reqs).1
        (viewed buffer n) →
      checksum_ok X (finish_all X (stun_agent_init prior known compat flags) reqs).1
        (viewed buffer n) →
      is_reply (viewed buffer n) →
      stun_message_id (viewed buffer n) = stun_message_id r.1 →
      stun_message_get_method (viewed buffer n) = stun_message_get_method r.1 →
      stun_agent_validate X (finish_all X (stun_agent_init prior known compat flags) reqs).1
        out buffer n validater =
        some (StunValidationStatus.STUN_VALIDATION_UNMATCHED_RESPONSE,
          (finish_all X (stun_agent_init prior known compat flags) reqs).1, viewed buffer n) := by
  have hres := finish_all_results X reqs (stun_agent_init prior known compat flags)
    (stun_agent_init prior known compat flags) rfl rfl
  have hfill := finish_all_fills X reqs (stun_agent_init prior known compat flags)
    (stun_agent_init prior known compat flags) []
    (stun_agent_init prior known compat flags).sent_ids rfl rfl (by simp) (by simp)
    (init_slots_invalid prior known compat flags) hreq hroom
  have hcache : (finish_all X (stun_agent_init prior known compat flags) reqs).1.sent_ids =
      (reqs.take (STUN_AGENT_MAX_SAVED_IDS (stun_agent_init prior known compat flags))).map
        sent_record := by
    rw [hfill]
    unfold STUN_AGENT_MAX_SAVED_IDS at hmore ⊢
    rw [List.drop_eq_nil_of_le (by omega)]
    simp
  refine ⟨by rw [hres]; simp, ?_, hcache, ?_⟩
  · intro x hx
    rw [hres, List.mem_map] at hx
    obtain ⟨r, hr, hxr⟩ := hx
    have hne := hroom r hr
    obtain ⟨m2, _, hEq⟩ := finish_message_of_ne_zero X _ r.1 r.2.1 r.2.2 hne
    rw [← hxr]
    refine ⟨?_, hne⟩
    rw [hEq]
    rfl
  · intro j r buffer n out validater hj hget hframe hcookie hsum hreply hid hmeth
    rw [validate_of_complete_frame X _ out buffer n validater hframe,
      validate_demux_of_ok X _ _ validater hcookie hsum,
      validate_correlation_of_reply X _ _ validater hreply]
    rw [if_pos]
    unfold matched_index STUN_AGENT_MAX_SAVED_IDS
    rw [find_sent_id_eq_length_iff, hcache]
    intro s hs hhit
    rw [List.mem_map] at hs
    obtain ⟨r2, hr2, hs2⟩ := hs
    rw [List.mem_take_iff_getElem] at hr2
    obtain ⟨i, hi, hir⟩ := hr2
    have hi2 : i < j := by
      unfold STUN_AGENT_MAX_SAVED_IDS at hj hi
      omega
    have hgi : reqs.get? i = some r2 := by
      rw [List.get?_eq_getElem?, List.getElem?_eq_getElem (by omega), hir]
    have hne := ids_differ_of_nodup reqs hdistinct i j r2 r hi2 hgi hget
    apply hne
    rw [← hid, hhit.2.2, ← hs2]
    rfl

/-- Claim C4, witness: three numbered requests finished on a fresh legacy agent with two
slots; all three calls return 44, the cache holds the first two, and a Response to the
third is unmatched. -/
theorem C4_cache_exhaustion_witness :
    (finish_all refCollab smallLegacyAgent (numberedCalls smallLegacyAgent 3)).2.length = 3 ∧
    (∀ x ∈ (finish_all refCollab smallLegacyAgent (numberedCalls smallLegacyAgent 3)).2,
      x.1 = stun_message_length x.2 ∧ x.1 ≠ 0) ∧
    (finish_all refCollab smallLegacyAgent (numberedCalls smallLegacyAgent 3)).1.sent_ids =
      ((numberedCalls smallLegacyAgent 3).take 2).map sent_record ∧
    stun_agent_validate refCollab
        (finish_all refCollab smallLegacyAgent (numberedCalls smallLegacyAgent 3)).1
        (viewed [] 0) (plainResponse 2) 20 none =
      some (StunValidationStatus.STUN_VALIDATION_UNMATCHED_RESPONSE,
        (finish_all refCollab smallLegacyAgent (numberedCalls smallLegacyAgent 3)).1,
        viewed (plainResponse 2) 20) :=
  have h := C4_cache_exhaustion refCollab
    { known_attributes := [], compatibility := StunCompatibility.STUN_COMPATIBILITY_RFC3489,
      usage_flags := 0, sent_ids := List.replicate 2 emptySlot }
    [6, 8, 0] StunCompatibility.STUN_COMPATIBILITY_RFC3489 0
    (numberedCalls smallLegacyAgent 3) (by decide) (by decide) (by decide) (by decide)
  ⟨h.1, h.2.1, h.2.2.1,
    h.2.2.2 2 (numberedCall smallLegacyAgent 2) (plainResponse 2) 20 (viewed [] 0) none
      (by decide) (by decide) (by decide) (by decide) (by decide) (by decide) (by decide)
      (by decide)⟩

/-- Claim C4, counterexample: on a fresh modern agent that requires the FINGERPRINT and
has two slots, three requests with pairwise distinct transaction ids are finished (each
call returns 52); a complete-frame Response that carries the transaction id and the
method of the third, excess, request but no FINGERPRINT attribute is answered with
STUN_VALIDATION_BAD_REQUEST (line 137, before the cache is consulted, so whatever the
capacity), not with STUN_VALIDATION_UNMATCHED_RESPONSE. -/
theorem C4_counterexample :
    STUN_AGENT_MAX_SAVED_IDS smallModernAgent = 2 ∧
    (∀ r ∈ numberedCalls smallModernAgent 3,
      stun_message_get_class r.1 = StunClass.STUN_REQUEST) ∧
    ((numberedCalls smallModernAgent 3).map (fun r => stun_message_id r.1)).Nodup ∧
    (finish_all refCollab smallModernAgent (numberedCalls smallModernAgent 3)).2.map
      (fun x => x.1) = [52, 52, 52] ∧
    complete_frame refCollab (bareResponse 2) 20 ∧
    stun_message_get_class (viewed (bareResponse 2) 20) = StunClass.STUN_RESPONSE ∧
    stun_message_id (viewed (bareResponse 2) 20) =
      stun_message_id (numberedCall smallModernAgent 2).1 ∧
    stun_message_get_method (viewed (bareResponse 2) 20) =
      stun_message_get_method (numberedCall smallModernAgent 2).1 ∧
    stun_agent_validate refCollab
        (finish_all refCollab smallModernAgent (numberedCalls smallModernAgent 3)).1
        (viewed [] 0) (bareResponse 2) 20 none =
      some (StunValidationStatus.STUN_VALIDATION_BAD_REQUEST,
        (finish_all refCollab smallModernAgent (numberedCalls smallModernAgent 3)).1,
        viewed (bareResponse 2) 20) := by
  refine ⟨by decide, by decide, by decide, by decide, by decide, by decide, by decide,
    by decide, by decide⟩

/-! ## The unknown-attributes error -/

theorem bswap16_div (a : Nat) : (a % 256 * 256 + a / 256 % 256) / 256 = a % 256 := by
  rw [Nat.add_comm, Nat.add_mul_div_right _ _ (by decide : 0 < 256),
    Nat.div_eq_of_lt (Nat.mod_lt _ (by decide)), Nat.zero_add]

theorem bswap16_mod (a : Nat) : (a % 256 * 256 + a / 256 % 256) % 256 = a / 256 % 256 := by
  rw [Nat.add_comm, Nat.add_mul_mod_self_right, Nat.mod_mod]

theorem hostBytes16_htons (X : Collab) (a : Nat) :
    hostBytes16 X (htons X a) = [a / 256 % 256, a % 256] := by
  unfold hostBytes16 htons bswap16
  cases X.bigEndian
  · simp only [Bool.false_eq_true, if_false]
    rw [bswap16_div, bswap16_mod, Nat.mod_mod]
  · simp only [if_true]
    congr 1
    · omega
    · congr 1; omega

/-- When the scan of `stun_agent_build_unknown_attributes_error` stores the single id of
type `a` for a request without the magic cookie, a call that succeeds has appended an
UNKNOWN-ATTRIBUTES attribute of 4 bytes, the id in network byte order followed by a
duplicate of it, and has then finished the message. -/
theorem single_entry_is_duplicated
    (X : Collab) (agent : StunAgent) (msg : StunMessage) (buffer : List Nat) (buffer_len : Nat)
    (request : StunMessage) (a : Nat) (r : Nat × StunAgent × StunMessage)
    (hcookie : stun_has_cookie request = false)
    (hone : stun_agent_find_unknowns X agent request STUN_AGENT_MAX_UNKNOWN_ATTRIBUTES =
      some [htons X a])
    (hr : stun_agent_build_unknown_attributes_error X agent msg buffer buffer_len request =
      some r)
    (hok : r.1 ≠ 0) :
    ∃ m1 m2,
      stun_agent_init_error X agent msg buffer buffer_len request STUN_ERROR_UNKNOWN_ATTRIBUTE =
        (true, m1) ∧
      stun_message_append_bytes m1 STUN_ATTRIBUTE_UNKNOWN_ATTRIBUTES
        [a / 256 % 256, a % 256, a / 256 % 256, a % 256] 4 = some m2 ∧
      r = stun_agent_finish_message X agent m2 request.key request.key_len ∧
      stun_getw m2.buffer (stun_message_length m1) = STUN_ATTRIBUTE_UNKNOWN_ATTRIBUTES ∧
      stun_getw m2.buffer (stun_message_length m1 + 2) = 4 ∧
      rdbs m2.buffer (stun_message_length m1 + 4) 4 =
        [a / 256 % 256, a % 256, a / 256 % 256, a % 256] := by
  unfold stun_agent_build_unknown_attributes_error at hr
  rw [hone] at hr
  simp only at hr
  generalize hie : stun_agent_init_error X agent msg buffer buffer_len request
    STUN_ERROR_UNKNOWN_ATTRIBUTE = ie at hr ⊢
  obtain ⟨ok, m1⟩ := ie
  cases ok with
  | false =>
    simp only [Option.some.injEq] at hr
    rw [← hr] at hok; exact absurd rfl hok
  | true =>
    simp only at hr
    rw [if_pos ⟨hcookie, by simp⟩] at hr
    have hbytes : ([htons X a] ++ [([htons X a]).getD 0 0]).flatMap (hostBytes16 X) =
        [a / 256 % 256, a % 256, a / 256 % 256, a % 256] := by
      simp [List.flatMap, hostBytes16_htons]
    have hlen : ([htons X a] ++ [([htons X a]).getD 0 0]).length * 2 = 4 := by simp
    rw [hbytes, hlen] at hr
    cases hab : stun_message_append_bytes m1 STUN_ATTRIBUTE_UNKNOWN_ATTRIBUTES
        [a / 256 % 256, a % 256, a / 256 % 256, a % 256] 4 with
    | none =>
      rw [hab] at hr
      simp only [Option.some.injEq] at hr
      rw [← hr] at hok; exact absurd rfl hok
    | some m2 =>
      rw [hab] at hr
      simp only [Option.some.injEq] at hr
      refine ⟨m1, m2, rfl, hab, hr.symm, ?_⟩
      unfold stun_message_append_bytes at hab
      cases hap : stun_message_append m1 STUN_ATTRIBUTE_UNKNOWN_ATTRIBUTES 4 with
      | none => rw [hap] at hab; simp at hab
      | some p =>
        have hfit := (stun_message_append_spec m1 _ _ p.1 p.2 hap).2.1
        rw [stun_message_append_aligned m1 _ 4 (by decide) hfit] at hap hab
        simp only [Option.some.injEq] at hab
        rw [← hab]
        simp only
        have hL := stun_message_length_ge m1
        have hv : rdbs [a / 256 % 256, a % 256, a / 256 % 256, a % 256] 0 4 =
            [a / 256 % 256, a % 256, a / 256 % 256, a % 256] := by
          have hr4 : List.range 4 = [0, 1, 2, 3] := by decide
          simp [rdbs, rdb, hr4]
        rw [hv]
        refine ⟨?_, ?_, ?_⟩
        · rw [stun_getw_wrbs_other _ _ _ _ (Or.inl (by omega))]
          unfold with_attribute
          simp only [wrbs]
          rw [stun_getw_setw_other _ _ _ _ (Or.inr (by omega)),
            stun_getw_setw_other _ _ _ _ (Or.inl (by omega)),
            stun_getw_setw_same _ _ _ (by decide)]
        · rw [stun_getw_wrbs_other _ _ _ _ (Or.inl (by omega))]
          unfold with_attribute
          simp only [wrbs]
          rw [stun_getw_setw_other _ _ _ _ (Or.inr (by omega)),
            stun_getw_setw_same _ _ _ (by decide)]
        · exact rdbs_wrbs_self _ _ _ _ rfl (fun i hi => by
            have h4 : i = 0 ∨ i = 1 ∨ i = 2 ∨ i = 3 := by omega
            rcases h4 with h | h | h | h <;> subst h <;> simp <;> omega)

/-- Claim C5, counterexample: a legacy-profile agent builds the error for a Request that
carries the magic cookie and exactly one unknown mandatory attribute (0x0030); the call
succeeds (result 36) and the UNKNOWN-ATTRIBUTES attribute it appended at offset 28 has a
value of 2 bytes, the single id with no duplicate (followed by two padding bytes). -/
theorem C5_counterexample :
    (legacyAgent 0).compatibility = StunCompatibility.STUN_COMPATIBILITY_RFC3489 ∧
    stun_message_get_class unknownCookieRequest = StunClass.STUN_REQUEST ∧
    stun_agent_find_unknowns refCollab (legacyAgent 0) unknownCookieRequest
      STUN_AGENT_MAX_UNKNOWN_ATTRIBUTES = some [htons refCollab 0x30] ∧
    (builtError unknownCookieRequest).map (fun r => r.1) = some 36 ∧
    (builtError unknownCookieRequest).map (fun r => stun_getw r.2.2.buffer 28) =
      some STUN_ATTRIBUTE_UNKNOWN_ATTRIBUTES ∧
    (builtError unknownCookieRequest).map (fun r => stun_getw r.2.2.buffer 30) = some 2 ∧
    (builtError unknownCookieRequest).map (fun r => rdbs r.2.2.buffer 32 4) =
      some [0, 0x30, 0x20, 0x20] ∧
    stun_message_length unknownCookieRequest = 28 ∧
    unknown_mandatory_attributes (legacyAgent 0) unknownCookieRequest = [0x30] := by
  refine ⟨by decide, by decide, by decide, by decide, by decide, by decide, by decide,
    by decide, by decide⟩

/-! ## Integrity verification -/

theorem validate_reaches_credentials (X : Collab) (agent : StunAgent) (msg : StunMessage)
    (buffer : List Nat) (n : Nat) (validater : Option StunMessageIntegrityValidate)
    (hframe : complete_frame X buffer n) (hcookie : cookie_ok agent (viewed buffer n))
    (hsum : checksum_ok X agent (viewed buffer n))
    (hcorr : correlation_ok agent (viewed buffer n)) :
    stun_agent_validate X agent msg buffer n validater =
      validate_credentials X agent (viewed buffer n) validater
        (passed_index agent (viewed buffer n)) (slot_key agent (viewed buffer n))
        (slot_key_len agent (viewed buffer n)) := by
  rw [validate_of_complete_frame X agent msg buffer n validater hframe,
    validate_demux_of_ok X agent _ validater hcookie hsum,
    validate_correlation_of_ok X agent _ validater hcorr]

theorem validate_reaches_integrity (X : Collab) (agent : StunAgent) (msg : StunMessage)
    (buffer : List Nat) (n : Nat) (validater : Option StunMessageIntegrityValidate)
    (key : Option (List Nat)) (key_len : Nat)
    (hframe : complete_frame X buffer n) (hcookie : cookie_ok agent (viewed buffer n))
    (hsum : checksum_ok X agent (viewed buffer n))
    (hcorr : correlation_ok agent (viewed buffer n))
    (hpol : credential_policy_violated agent (viewed buffer n) = false)
    (hres : resolve_key agent (viewed buffer n) validater (slot_key agent (viewed buffer n))
      (slot_key_len agent (viewed buffer n)) = some (key, key_len)) :
    stun_agent_validate X agent msg buffer n validater =
      validate_integrity X agent (viewed buffer n) (passed_index agent (viewed buffer n))
        key key_len := by
  rw [validate_reaches_credentials X agent msg buffer n validater hframe hcookie hsum hcorr]
  unfold validate_credentials
  rw [if_neg (by rw [hpol]; simp), hres]

/-- Claim C6, as amended: for every message that reaches the integrity stage with a
resolved key of non-zero length (taken from the matched cache slot or returned by the
validater callback) and that has a MESSAGE-INTEGRITY attribute, if the received digest
differs from the keyed hash computed with that key over the message bytes up to the end
of the digest, `stun_agent_validate` returns STUN_VALIDATION_UNAUTHORIZED; and whenever it
returns success for such a message the digest equals the keyed hash and the resolved key
and its length are stored in `msg->key` and `msg->key_len`. -/
theorem C6_digest_checked_with_resolved_key
    (X : Collab) (agent : StunAgent) (msg : StunMessage) (buffer : List Nat) (n : Nat)
    (validater : Option StunMessageIntegrityValidate) (k : List Nat) (kl hash hlen : Nat)
    (hframe : complete_frame X buffer n) (hcookie : cookie_ok agent (viewed buffer n))
    (hsum : checksum_ok X agent (viewed buffer n))
    (hcorr : correlation_ok agent (viewed buffer n))
    (hpol : credential_policy_violated agent (viewed buffer n) = false)
    (hres : resolve_key agent (viewed buffer n) validater (slot_key agent (viewed buffer n))
      (slot_key_len agent (viewed buffer n)) = some (some k, kl))
    (hkl : 0 < kl)
    (hfind : stun_message_find (viewed buffer n) STUN_ATTRIBUTE_MESSAGE_INTEGRITY =
      some (hash, hlen)) :
    (stun_sha1 X buffer (hash + 20) k kl ≠ rdbs buffer hash 20 →
      stun_agent_validate X agent msg buffer n validater =
        some (StunValidationStatus.STUN_VALIDATION_UNAUTHORIZED, agent, viewed buffer n)) ∧
    (∀ a m, stun_agent_validate X agent msg buffer n validater =
        some (StunValidationStatus.STUN_VALIDATION_SUCCESS, a, m) →
      stun_sha1 X buffer (hash + 20) k kl = rdbs buffer hash 20 ∧
      m.key = some k ∧ m.key_len = kl) := by
  rw [validate_reaches_integrity X agent msg buffer n validater (some k) kl hframe hcookie hsum
    hcorr hpol hres]
  constructor
  · intro hne
    unfold validate_integrity check_integrity
    simp only
    rw [if_pos hkl, hfind]
    simp only [viewed] at hne ⊢
    rw [if_pos hne]
  · intro a m hval
    rcases validate_integrity_cases X agent _ _ _ _ _ a m hval with h1 | ⟨msg2, h2, h3⟩
    · exact absurd h1.2.1 (by decide)
    · have hm : m = msg2 := (validate_unknowns_cases X _ msg2 _ a m h3).2.1
      rcases check_integrity_cases X _ _ _ _ h2 with ⟨_, h5⟩ | ⟨k2, hash2, hlen2, hk, _, hf, h6⟩
      · rcases h5 with h | h
        · exact absurd h (by simp)
        · omega
      · rw [hfind] at hf
        simp only [Option.some.injEq, Prod.mk.injEq] at hf hk
        obtain ⟨hh, _⟩ := hf
        subst hh
        subst hk
        rcases h6 with ⟨h7, _⟩ | ⟨h7, h8⟩
        · exact absurd h7 (by simp)
        · simp only [Option.some.injEq] at h7
          rw [hm, h7]
          exact ⟨h8, rfl, rfl⟩

/-- Claim C6, witness: on a fresh legacy agent the validater resolves `sampleKey` with
length 3 for a Request whose digest is the keyed hash. -/
theorem C6_digest_checked_with_resolved_key_witness :
    (stun_sha1 refCollab signedRequest (24 + 20) sampleKey 3 ≠ rdbs signedRequest 24 20 →
      stun_agent_validate refCollab (legacyAgent 0) (viewed [] 0) signedRequest 44
          (some sampleValidater) =
        some (StunValidationStatus.STUN_VALIDATION_UNAUTHORIZED, legacyAgent 0,
          viewed signedRequest 44)) ∧
    (∀ a m, stun_agent_validate refCollab (legacyAgent 0) (viewed [] 0) signedRequest 44
          (some sampleValidater) =
        some (StunValidationStatus.STUN_VALIDATION_SUCCESS, a, m) →
      stun_sha1 refCollab signedRequest (24 + 20) sampleKey 3 = rdbs signedRequest 24 20 ∧
      m.key = some sampleKey ∧ m.key_len = 3) :=
  C6_digest_checked_with_resolved_key refCollab (legacyAgent 0) (viewed [] 0) signedRequest 44
    (some sampleValidater) sampleKey 3 24 20
    (by decide) (by decide) (by decide) (by decide) (by decide) (by decide) (by decide)
    (by decide)

/-- Claim C6, counterexample: on a fresh legacy agent with default flags the validater
resolves a non-null key of length 0 for a complete-frame Request whose MESSAGE-INTEGRITY
digest differs from the keyed hash computed with that key; `stun_agent_validate` returns
STUN_VALIDATION_SUCCESS, not STUN_VALIDATION_UNAUTHORIZED, and the message is left
without a key. -/
theorem C6_counterexample :
    complete_frame refCollab zeroDigestRequest 44 ∧
    resolve_key (legacyAgent 0) (viewed zeroDigestRequest 44) (some emptyKeyValidater)
      (slot_key (legacyAgent 0) (viewed zeroDigestRequest 44))
      (slot_key_len (legacyAgent 0) (viewed zeroDigestRequest 44)) = some (some sampleKey, 0) ∧
    stun_message_find (viewed zeroDigestRequest 44) STUN_ATTRIBUTE_MESSAGE_INTEGRITY =
      some (24, 20) ∧
    stun_sha1 refCollab zeroDigestRequest (24 + 20) sampleKey 0 ≠ rdbs zeroDigestRequest 24 20 ∧
    stun_agent_validate refCollab (legacyAgent 0) (viewed [] 0) zeroDigestRequest 44
        (some emptyKeyValidater) =
      some (StunValidationStatus.STUN_VALIDATION_SUCCESS, legacyAgent 0,
        viewed zeroDigestRequest 44) := by
  refine ⟨by decide, by decide, by decide, by decide, by decide⟩

/-! ## Effect of validation on the agent -/

theorem check_integrity_get_class (X : Collab) (msg1 msg2 : StunMessage)
    (key : Option (List Nat)) (key_len : Nat)
    (h : check_integrity X msg1 key key_len = some (some msg2)) :
    stun_message_get_class msg2 = stun_message_get_class msg1 := by
  unfold stun_message_get_class
  rw [(check_integrity_class X msg1 msg2 key key_len h).1]

/-- Claim C7, as amended: `stun_agent_validate` never changes the configuration of the
agent, and changes its transaction cache only when it returns STUN_VALIDATION_SUCCESS or
STUN_VALIDATION_UNKNOWN_ATTRIBUTE for a response or error message, and then only by
marking the one matched slot empty; for every other outcome, and for every request or
indication, every cache slot is left exactly as it was. -/
theorem C7_cache_changed_only_by_release
    (X : Collab) (agent : StunAgent) (msg : StunMessage) (buffer : List Nat) (n : Nat)
    (validater : Option StunMessageIntegrityValidate)
    (st : StunValidationStatus) (a : StunAgent) (m : StunMessage)
    (h : stun_agent_validate X agent msg buffer n validater = some (st, a, m)) :
    a.known_attributes = agent.known_attributes ∧
    a.compatibility = agent.compatibility ∧
    a.usage_flags = agent.usage_flags ∧
    ((¬ is_reply (viewed buffer n) ∨
        (st ≠ StunValidationStatus.STUN_VALIDATION_SUCCESS ∧
         st ≠ StunValidationStatus.STUN_VALIDATION_UNKNOWN_ATTRIBUTE)) →
      a.sent_ids = agent.sent_ids) ∧
    (is_reply (viewed buffer n) →
      (st = StunValidationStatus.STUN_VALIDATION_SUCCESS ∨
       st = StunValidationStatus.STUN_VALIDATION_UNKNOWN_ATTRIBUTE) →
      ∃ s, agent.sent_ids.get? (matched_index agent (viewed buffer n)) = some s ∧
        slot_matches (viewed buffer n) s ∧
        a.sent_ids =
          agent.sent_ids.set (matched_index agent (viewed buffer n)) { s with valid := false }) := by
  rcases validate_cases X agent msg buffer n validater st a m h with
    ⟨ha, hrej⟩ | ⟨_, _, _, hcorr, _, key, kl, msg2, _, hint, hscan⟩
  · subst ha
    refine ⟨rfl, rfl, rfl, fun _ => rfl, ?_⟩
    intro _ hst
    rcases hst with h1 | h1 <;> rw [h1] at hrej <;> simp at hrej
  · obtain ⟨ha, _, unknown, _, hstat⟩ := validate_unknowns_cases X _ msg2 st a m hscan
    have hcls := check_integrity_get_class X _ msg2 key kl hint
    obtain ⟨c1, c2, c3⟩ := release_slot_config agent (passed_index agent (viewed buffer n))
    by_cases hr : is_reply (viewed buffer n)
    · have hlt : matched_index agent (viewed buffer n) < agent.sent_ids.length := by
        have h1 := hcorr hr
        have h2 := find_sent_id_le (stun_message_get_method (viewed buffer n))
          (stun_message_id (viewed buffer n)) agent.sent_ids
        unfold matched_index STUN_AGENT_MAX_SAVED_IDS at h1
        unfold matched_index
        omega
      have hspec := find_sent_id_spec (stun_message_get_method (viewed buffer n))
        (stun_message_id (viewed buffer n)) agent.sent_ids hlt
      obtain ⟨⟨s, hs, hhit⟩, _⟩ := hspec
      change agent.sent_ids.get? (matched_index agent (viewed buffer n)) = some s at hs
      have hpi : passed_index agent (viewed buffer n) =
          (matched_index agent (viewed buffer n) : Int) := by
        unfold passed_index; rw [if_pos hr]
      rw [hpi, release_slot_of_index agent _ s hs] at ha
      have hnotreq : stun_message_get_class msg2 ≠ StunClass.STUN_REQUEST := by
        rw [hcls]
        rcases hr with h1 | h1 <;> rw [h1] <;> decide
      have hst2 : st = StunValidationStatus.STUN_VALIDATION_SUCCESS ∨
          st = StunValidationStatus.STUN_VALIDATION_UNKNOWN_ATTRIBUTE := by
        rcases hstat with ⟨_, h1⟩ | ⟨_, h1, _⟩ | ⟨_, _, h1⟩
        · exact Or.inl h1
        · exact absurd h1 hnotreq
        · exact Or.inr h1
      subst ha
      refine ⟨rfl, rfl, rfl, ?_, ?_⟩
      · intro hcase
        rcases hcase with h1 | ⟨h1, h2⟩
        · exact absurd hr h1
        · rcases hst2 with h3 | h3
          · exact absurd h3 h1
          · exact absurd h3 h2
      · intro _ _
        exact ⟨s, hs, hhit, rfl⟩
    · have hpi : passed_index agent (viewed buffer n) = -1 := by
        unfold passed_index; rw [if_neg hr]
      rw [hpi, release_slot_neg_one] at ha
      subst ha
      exact ⟨rfl, rfl, rfl, fun _ => rfl, fun h1 => absurd h1 hr⟩

/-- Claim C7, witness: the answer to a Response with an unknown mandatory attribute on an
agent that waits for it. -/
theorem C7_cache_changed_only_by_release_witness :
    (release_slot waitingAgent 0).known_attributes = waitingAgent.known_attributes ∧
    (release_slot waitingAgent 0).compatibility = waitingAgent.compatibility ∧
    (release_slot waitingAgent 0).usage_flags = waitingAgent.usage_flags ∧
    ((¬ is_reply (viewed unknownResponse 28) ∨
        (StunValidationStatus.STUN_VALIDATION_UNKNOWN_ATTRIBUTE ≠
          StunValidationStatus.STUN_VALIDATION_SUCCESS ∧
         StunValidationStatus.STUN_VALIDATION_UNKNOWN_ATTRIBUTE ≠
          StunValidationStatus.STUN_VALIDATION_UNKNOWN_ATTRIBUTE)) →
      (release_slot waitingAgent 0).sent_ids = waitingAgent.sent_ids) ∧
    (is_reply (viewed unknownResponse 28) →
      (StunValidationStatus.STUN_VALIDATION_UNKNOWN_ATTRIBUTE =
          StunValidationStatus.STUN_VALIDATION_SUCCESS ∨
       StunValidationStatus.STUN_VALIDATION_UNKNOWN_ATTRIBUTE =
          StunValidationStatus.STUN_VALIDATION_UNKNOWN_ATTRIBUTE) →
      ∃ s, waitingAgent.sent_ids.get? (matched_index waitingAgent (viewed unknownResponse 28)) =
          some s ∧
        slot_matches (viewed unknownResponse 28) s ∧
        (release_slot waitingAgent 0).sent_ids =
          waitingAgent.sent_ids.set (matched_index waitingAgent (viewed unknownResponse 28))
            { s with valid := false }) :=
  C7_cache_changed_only_by_release refCollab waitingAgent (viewed [] 0) unknownResponse 28 none
    StunValidationStatus.STUN_VALIDATION_UNKNOWN_ATTRIBUTE (release_slot waitingAgent 0)
    (viewed unknownResponse 28) (by decide)

/-- Claim C7, counterexample: an agent whose slot 0 holds a sent request validates a
complete-frame Response of the same method and transaction id that carries an unknown
mandatory attribute; the call returns STUN_VALIDATION_UNKNOWN_ATTRIBUTE, not
STUN_VALIDATION_SUCCESS, and slot 0, occupied before, is empty afterwards. -/
theorem C7_counterexample :
    (waitingAgent.sent_ids.get? 0).map (fun s => s.valid) = some true ∧
    stun_message_get_class (viewed unknownResponse 28) = StunClass.STUN_RESPONSE ∧
    stun_agent_validate refCollab waitingAgent (viewed [] 0) unknownResponse 28 none =
      some (StunValidationStatus.STUN_VALIDATION_UNKNOWN_ATTRIBUTE, release_slot waitingAgent 0,
        viewed unknownResponse 28) ∧
    ((release_slot waitingAgent 0).sent_ids.get? 0).map (fun s => s.valid) = some false := by
  refine ⟨by decide, by decide, by decide, by decide⟩

/-! ## Transaction correlation -/

theorem validate_credentials_of_slot_key (X : Collab) (agent : StunAgent) (msg1 : StunMessage)
    (v1 v2 : Option StunMessageIntegrityValidate) (idx : Int) (k : List Nat) (key_len0 : Nat) :
    validate_credentials X agent msg1 v1 idx (some k) key_len0 =
      validate_credentials X agent msg1 v2 idx (some k) key_len0 := by
  unfold validate_credentials resolve_key
  rfl

theorem is_reply_of_slot_key (agent : StunAgent) (m : StunMessage) (k : List Nat)
    (h : slot_key agent m = some k) : is_reply m := by
  unfold slot_key at h
  by_contra hn
  rw [if_neg hn] at h
  exact absurd h (by simp)

theorem validate_correlation_of_slot_key (X : Collab) (agent : StunAgent) (m : StunMessage)
    (v1 v2 : Option StunMessageIntegrityValidate) (k : List Nat)
    (h : slot_key agent m = some k) :
    validate_correlation X agent m v1 = validate_correlation X agent m v2 := by
  have hr := is_reply_of_slot_key agent m k h
  rw [validate_correlation_of_reply X agent m v1 hr, validate_correlation_of_reply X agent m v2 hr,
    h, validate_credentials_of_slot_key X agent m v1 v2 _ k _]

theorem validate_of_slot_key (X : Collab) (agent : StunAgent) (msg : StunMessage)
    (buffer : List Nat) (n : Nat) (v1 v2 : Option StunMessageIntegrityValidate) (k : List Nat)
    (h : slot_key agent (viewed buffer n) = some k) :
    stun_agent_validate X agent msg buffer n v1 = stun_agent_validate X agent msg buffer n v2 := by
  have hc := validate_correlation_of_slot_key X agent (viewed buffer n) v1 v2 k h
  unfold stun_agent_validate validate_demux
  unfold viewed at hc
  simp only [hc]

/-- Claim C9: for every message that passes the credential presence policy, with
credentials not ignored, a MESSAGE-INTEGRITY attribute present and no key taken from a
matched cache slot, `stun_agent_validate` returns STUN_VALIDATION_UNAUTHORIZED when the
validater callback is absent or reports failure; and when a key was taken from a matched
cache slot the result does not depend on the validater callback: it is not invoked. -/
theorem C9_validater_needed_only_without_slot_key
    (X : Collab) (agent : StunAgent) (msg : StunMessage) (buffer : List Nat) (n : Nat)
    (validater : Option StunMessageIntegrityValidate) :
    (complete_frame X buffer n → cookie_ok agent (viewed buffer n) →
      checksum_ok X agent (viewed buffer n) → correlation_ok agent (viewed buffer n) →
      credential_policy_violated agent (viewed buffer n) = false →
      usage agent STUN_AGENT_USAGE_IGNORE_CREDENTIALS = false →
      stun_message_has_attribute (viewed buffer n) STUN_ATTRIBUTE_MESSAGE_INTEGRITY = true →
      slot_key agent (viewed buffer n) = none →
      (validater = none ∨
        ∃ v, validater = some v ∧
          v agent (viewed buffer n) (message_username (viewed buffer n)).1
            (message_username (viewed buffer n)).2 = none) →
      stun_agent_validate X agent msg buffer n validater =
        some (StunValidationStatus.STUN_VALIDATION_UNAUTHORIZED, agent, viewed buffer n)) ∧
    (∀ k, slot_key agent (viewed buffer n) = some k →
      ∀ other : Option StunMessageIntegrityValidate,
        stun_agent_validate X agent msg buffer n validater =
          stun_agent_validate X agent msg buffer n other) := by
  constructor
  · intro hframe hcookie hsum hcorr hpol hign hmi hkey hfail
    rw [validate_reaches_credentials X agent msg buffer n validater hframe hcookie hsum hcorr]
    unfold validate_credentials
    rw [if_neg (by rw [hpol]; simp)]
    have hres : resolve_key agent (viewed buffer n) validater (slot_key agent (viewed buffer n))
        (slot_key_len agent (viewed buffer n)) = none := by
      unfold resolve_key
      rw [if_pos ⟨hign, hmi⟩, hkey]
      rcases hfail with h | ⟨v, hv, hnone⟩
      · rw [h]
      · rw [hv]; exact hnone
    rw [hres]
  · intro k hkey other
    exact validate_of_slot_key X agent msg buffer n validater other k hkey

/-- Claim C9, witness: a Request with MESSAGE-INTEGRITY validated without a validater on
a fresh legacy agent is unauthorized. -/
theorem C9_validater_needed_only_without_slot_key_witness :
    stun_agent_validate refCollab (legacyAgent 0) (viewed [] 0) signedRequest 44 none =
      some (StunValidationStatus.STUN_VALIDATION_UNAUTHORIZED, legacyAgent 0,
        viewed signedRequest 44) :=
  (C9_validater_needed_only_without_slot_key refCollab (legacyAgent 0) (viewed [] 0)
    signedRequest 44 none).1
    (by decide) (by decide) (by decide) (by decide) (by decide) (by decide) (by decide)
    (by decide) (Or.inl rfl)

/-! ## The FINGERPRINT stage -/

/-- The cast `(int) buffer_len` of a buffer length below 2^31 is the length itself. -/
theorem int_of_size_of_lt (n : Nat) (h : n < 2147483648) : int_of_size n = (n : Int) := by
  unfold int_of_size
  have h1 : n % 4294967296 = n := Nat.mod_eq_of_lt (by omega)
  rw [h1, if_pos h]

/-- For a buffer length below 2^31 the frame stage answers as the length pre-check
reports: "not STUN" for an invalid buffer and for a complete length other than
`buffer_len`, "incomplete" for an incomplete one, the agent and the output message being
left as they were. -/
theorem frame_stage_rejects (X : Collab) (agent : StunAgent) (msg : StunMessage)
    (buffer : List Nat) (buffer_len : Nat) (validater : Option StunMessageIntegrityValidate)
    (hn : buffer_len < 2147483648) :
    (X.validate_buffer_length buffer buffer_len = STUN_MESSAGE_BUFFER_INVALID →
      stun_agent_validate X agent msg buffer buffer_len validater =
        some (StunValidationStatus.STUN_VALIDATION_NOT_STUN, agent, msg)) ∧
    (X.validate_buffer_length buffer buffer_len = STUN_MESSAGE_BUFFER_INCOMPLETE →
      stun_agent_validate X agent msg buffer buffer_len validater =
        some (StunValidationStatus.STUN_VALIDATION_INCOMPLETE_STUN, agent, msg)) ∧
    (X.validate_buffer_length buffer buffer_len ≠ STUN_MESSAGE_BUFFER_INVALID →
      X.validate_buffer_length buffer buffer_len ≠ STUN_MESSAGE_BUFFER_INCOMPLETE →
      X.validate_buffer_length buffer buffer_len ≠ (buffer_len : Int) →
      stun_agent_validate X agent msg buffer buffer_len validater =
        some (StunValidationStatus.STUN_VALIDATION_NOT_STUN, agent, msg)) := by
  refine ⟨?_, ?_, ?_⟩
  · intro h
    unfold stun_agent_validate
    simp only
    rw [if_pos h]
  · intro h
    unfold stun_agent_validate
    simp only
    rw [if_neg (by rw [h]; decide), if_pos h]
  · intro h1 h2 h3
    unfold stun_agent_validate
    simp only
    rw [if_neg h1, if_neg h2, if_pos (by rw [int_of_size_of_lt buffer_len hn]; exact h3)]

/-- C11: the frame stage compares the complete length the pre-check reports with
`(int) buffer_len`. For a buffer of 2^32 + 20 bytes that starts with a complete 20-byte
Request the pre-check reports 20, the cast gives 20 as well, and the call goes on to
answer "success" with the message set up over the whole buffer, although the reported
length differs from `buffer_len`. -/
theorem C11_length_compared_after_cast :
    refCollab.validate_buffer_length bareRequest 4294967316 = 20 ∧
    int_of_size 4294967316 = 20 ∧
    stun_agent_validate refCollab (legacyAgent 0) (viewed [] 0) bareRequest 4294967316 none =
      some (StunValidationStatus.STUN_VALIDATION_SUCCESS, legacyAgent 0,
        viewed bareRequest 4294967316) := by
  refine ⟨by decide, by decide, by decide⟩

/-! ## The cache after `stun_agent_finish_message` -/

/-- A call of `stun_agent_finish_message` on a message that is not a Request leaves the
agent as it was. -/
theorem finish_message_of_not_request (X : Collab) (agent : StunAgent) (msg : StunMessage)
    (key : Option (List Nat)) (key_len : Nat)
    (hcls : stun_message_get_class msg ≠ StunClass.STUN_REQUEST) :
    (stun_agent_finish_message X agent msg key key_len).2.1 = agent := by
  rcases finish_message_cases X agent msg key key_len with h0 | ⟨m1, m2, _, _, hhdr, hEq⟩
  · exact h0.2.1
  · rw [hEq]
    simp only [finish_record]
    rw [if_neg (by rw [get_class_of_same_header msg m2 hhdr]; exact hcls)]

/-- C13: when `stun_agent_finish_message` returns non-zero on a Request, the record of
the message (its transaction id, its method, the key and the key length in use, marked
occupied) is stored in the lowest-index empty slot, every other slot being left as it
was, and the cache is unchanged when no slot is empty; for a message of any other class
the cache is unchanged. -/
theorem C13_request_recorded_in_first_empty_slot (X : Collab) (agent : StunAgent)
    (msg : StunMessage) (key : Option (List Nat)) (key_len : Nat) :
    (stun_message_get_class msg = StunClass.STUN_REQUEST →
      (stun_agent_finish_message X agent msg key key_len).1 ≠ 0 →
      (∀ i s, agent.sent_ids.get? i = some s → s.valid = false →
        (∀ j, j < i → ∀ t, agent.sent_ids.get? j = some t → t.valid = true) →
        (stun_agent_finish_message X agent msg key key_len).2.1.sent_ids =
          agent.sent_ids.set i
            { id := stun_message_id msg, method := stun_message_get_method msg,
              key := finish_key msg key, key_len := finish_key_len msg key_len,
              valid := true }) ∧
      ((∀ s ∈ agent.sent_ids, s.valid = true) →
        (stun_agent_finish_message X agent msg key key_len).2.1.sent_ids = agent.sent_ids)) ∧
    (stun_message_get_class msg ≠ StunClass.STUN_REQUEST →
      (stun_agent_finish_message X agent msg key key_len).2.1.sent_ids = agent.sent_ids) := by
  refine ⟨?_, ?_⟩
  · intro hreq hret
    have hrec := finish_message_records X agent (msg, key, key_len) hreq hret
    simp only [sent_record] at hrec
    refine ⟨?_, ?_⟩
    · intro i s hs hfree hbelow
      rw [hrec]
      exact save_sent_id_eq_set _ _ _ _ agent.sent_ids i s hs hfree hbelow
    · intro hfull
      rw [hrec]
      exact save_sent_id_full _ _ _ _ agent.sent_ids hfull
  · intro hcls
    rw [finish_message_of_not_request X agent msg key key_len hcls]

/-- Claim C13, witness: the built Request finished with `sampleKey` on a fresh agent of
two slots is recorded in slot 0. -/
theorem C13_request_recorded_in_first_empty_slot_witness :
    (finishedBy smallLegacyAgent 3).2.1.sent_ids =
      smallLegacyAgent.sent_ids.set 0
        { id := sampleId, method := 1, key := some sampleKey, key_len := 3, valid := true } :=
  ((C13_request_recorded_in_first_empty_slot refCollab smallLegacyAgent
    (builtRequest smallLegacyAgent) (some sampleKey) 3).1 (by decide) (by decide)).1 0
    emptySlot (by decide) (by decide) (fun j hj => absurd hj (Nat.not_lt_zero j))

/-! ## The key used by `stun_agent_finish_message` -/

theorem finish_integrity_key (X : Collab) (msg : StunMessage) (key1 : Option (List Nat))
    (key_len1 : Nat) (m1 : StunMessage) (h : finish_integrity X msg key1 key_len1 = some m1) :
    m1.key = msg.key ∧ m1.key_len = msg.key_len := by
  unfold finish_integrity at h
  cases key1 with
  | none =>
    simp only [Option.some.injEq] at h
    subst h; exact ⟨rfl, rfl⟩
  | some k =>
    simp only at h
    cases ha : stun_message_append msg STUN_ATTRIBUTE_MESSAGE_INTEGRITY 20 with
    | none => rw [ha] at h; simp at h
    | some p =>
      obtain ⟨ptr, m0⟩ := p
      rw [ha] at h
      simp only [Option.some.injEq] at h
      subst h
      have hs := stun_message_append_spec msg _ _ ptr m0 ha
      exact ⟨hs.2.2.2.1, hs.2.2.2.2.1⟩

theorem finish_integrity_digest (X : Collab) (msg : StunMessage) (k : List Nat)
    (key_len1 : Nat) (m1 : StunMessage)
    (h : finish_integrity X msg (some k) key_len1 = some m1) :
    ∃ ptr m0, stun_message_append msg STUN_ATTRIBUTE_MESSAGE_INTEGRITY 20 = some (ptr, m0) ∧
      m1 = { m0 with
        buffer := wrbs m0.buffer ptr (stun_sha1 X m0.buffer (stun_message_length m0) k key_len1) } ∧
      rdbs m1.buffer ptr 20 = stun_sha1 X m0.buffer (stun_message_length m0) k key_len1 := by
  unfold finish_integrity at h
  simp only at h
  cases ha : stun_message_append msg STUN_ATTRIBUTE_MESSAGE_INTEGRITY 20 with
  | none => rw [ha] at h; simp at h
  | some p =>
    obtain ⟨ptr, m0⟩ := p
    rw [ha] at h
    simp only [Option.some.injEq] at h
    refine ⟨ptr, m0, rfl, h.symm, ?_⟩
    rw [← h]
    dsimp only
    exact rdbs_wrbs_self _ _ 20 _ (stun_sha1_length X _ _ _ _)
      (fun i hi => stun_sha1_getD_lt X _ _ _ _ i hi)

/-! ## The value returned by `stun_agent_finish_message` -/

theorem finish_integrity_none_iff (X : Collab) (msg : StunMessage) (key1 : Option (List Nat))
    (key_len1 : Nat) :
    finish_integrity X msg key1 key_len1 = none ↔
      key1 ≠ none ∧ stun_message_append msg STUN_ATTRIBUTE_MESSAGE_INTEGRITY 20 = none := by
  unfold finish_integrity
  cases key1 with
  | none => simp
  | some k =>
    cases ha : stun_message_append msg STUN_ATTRIBUTE_MESSAGE_INTEGRITY 20 with
    | none => simp
    | some p => simp

theorem finish_checksum_none_iff (X : Collab) (agent : StunAgent) (m1 : StunMessage) :
    finish_checksum X agent m1 = none ↔
      agent.compatibility = StunCompatibility.STUN_COMPATIBILITY_3489BIS ∧
      usage agent STUN_AGENT_USAGE_USE_FINGERPRINT = true ∧
      stun_message_append m1 STUN_ATTRIBUTE_FINGERPRINT 4 = none := by
  unfold finish_checksum
  by_cases hfp : agent.compatibility = StunCompatibility.STUN_COMPATIBILITY_3489BIS ∧
      usage agent STUN_AGENT_USAGE_USE_FINGERPRINT = true
  · rw [if_pos hfp]
    cases ha : stun_message_append m1 STUN_ATTRIBUTE_FINGERPRINT 4 with
    | none => simp [hfp.1, hfp.2]
    | some p => simp
  · rw [if_neg hfp]
    constructor
    · intro h; simp at h
    · intro h; exact absurd ⟨h.1, h.2.1⟩ hfp

/-- C15: `stun_agent_finish_message` returns 0 exactly when the append of the
MESSAGE-INTEGRITY attribute, attempted when a key is in use, or the append of the
FINGERPRINT attribute, attempted in the modern profile with the use-fingerprint flag,
fails; when it returns 0 the agent and the key fields of the message are as they were,
and when it does not it returns the declared total length of the finished message. -/
theorem C15_finish_returns_zero_iff_append_fails (X : Collab) (agent : StunAgent)
    (msg : StunMessage) (key : Option (List Nat)) (key_len : Nat) :
    ((stun_agent_finish_message X agent msg key key_len).1 = 0 ↔
      (((msg.key ≠ none ∨ key ≠ none) ∧
          stun_message_append msg STUN_ATTRIBUTE_MESSAGE_INTEGRITY 20 = none) ∨
        (agent.compatibility = StunCompatibility.STUN_COMPATIBILITY_3489BIS ∧
          usage agent STUN_AGENT_USAGE_USE_FINGERPRINT = true ∧
          ∃ m1, finish_integrity X msg (finish_key msg key) (finish_key_len msg key_len) =
              some m1 ∧
            stun_message_append m1 STUN_ATTRIBUTE_FINGERPRINT 4 = none))) ∧
    ((stun_agent_finish_message X agent msg key key_len).1 = 0 →
      (stun_agent_finish_message X agent msg key key_len).2.1 = agent ∧
      (stun_agent_finish_message X agent msg key key_len).2.2.key = msg.key ∧
      (stun_agent_finish_message X agent msg key key_len).2.2.key_len = msg.key_len) ∧
    ((stun_agent_finish_message X agent msg key key_len).1 ≠ 0 →
      (stun_agent_finish_message X agent msg key key_len).1 =
        stun_message_length (stun_agent_finish_message X agent msg key key_len).2.2) := by
  have hkey : finish_key msg key ≠ none ↔ (msg.key ≠ none ∨ key ≠ none) := by
    unfold finish_key
    cases msg.key with
    | none => simp
    | some k => simp
  cases h1 : finish_integrity X msg (finish_key msg key) (finish_key_len msg key_len) with
  | none =>
    have hret : stun_agent_finish_message X agent msg key key_len = (0, agent, msg) := by
      simp only [stun_agent_finish_message, h1]
    have h1b := (finish_integrity_none_iff X msg _ _).1 h1
    rw [hret]
    refine ⟨⟨fun _ => Or.inl ⟨hkey.1 h1b.1, h1b.2⟩, fun _ => rfl⟩, fun _ => ⟨rfl, rfl, rfl⟩,
      fun h => absurd rfl h⟩
  | some m1 =>
    have hk1 := finish_integrity_key X msg _ _ m1 h1
    have hno : ¬ ((msg.key ≠ none ∨ key ≠ none) ∧
        stun_message_append msg STUN_ATTRIBUTE_MESSAGE_INTEGRITY 20 = none) := by
      intro hc
      have := (finish_integrity_none_iff X msg (finish_key msg key)
        (finish_key_len msg key_len)).2 ⟨hkey.2 hc.1, hc.2⟩
      rw [h1] at this
      simp at this
    cases h2 : finish_checksum X agent m1 with
    | none =>
      have hret : stun_agent_finish_message X agent msg key key_len = (0, agent, m1) := by
        simp only [stun_agent_finish_message, h1, h2]
      have h2b := (finish_checksum_none_iff X agent m1).1 h2
      rw [hret]
      refine ⟨⟨fun _ => Or.inr ⟨h2b.1, h2b.2.1, m1, rfl, h2b.2.2⟩, fun _ => rfl⟩,
        fun _ => ⟨rfl, hk1.1, hk1.2⟩, fun h => absurd rfl h⟩
    | some m2 =>
      have hret : stun_agent_finish_message X agent msg key key_len =
          (stun_message_length m2,
           finish_record agent m2 (finish_key msg key) (finish_key_len msg key_len),
           { m2 with key := finish_key msg key, key_len := finish_key_len msg key_len }) := by
        simp only [stun_agent_finish_message, h1, h2]
        rfl
      have hge := stun_message_length_ge m2
      rw [hret]
      refine ⟨⟨fun h => ?_, fun h => ?_⟩, fun h => ?_, fun _ => rfl⟩
      · simp only at h; omega
      · rcases h with h | ⟨ha, hb, m1b, hm1, hap⟩
        · exact absurd h hno
        · simp only [Option.some.injEq] at hm1
          subst hm1
          have := (finish_checksum_none_iff X agent m1).2 ⟨ha, hb, hap⟩
          rw [h2] at this
          simp at this
      · simp only at h; omega

/-- Claim C15, witness: a Request whose buffer has no room left is finished with a key;
the append of MESSAGE-INTEGRITY fails and the call returns 0. -/
theorem C15_finish_returns_zero_iff_append_fails_witness :
    (stun_agent_finish_message refCollab smallLegacyAgent fullRequest (some sampleKey) 3).1 = 0 :=
  (C15_finish_returns_zero_iff_append_fails refCollab smallLegacyAgent fullRequest
    (some sampleKey) 3).1.2 (Or.inl ⟨Or.inr (by decide), by decide⟩)

/-! ## Replies built by `stun_agent_init_response` and `stun_agent_init_error` -/

theorem get_method_lt (m : StunMessage) : stun_message_get_method m < 4096 := by
  unfold stun_message_get_method
  simp only
  omega

theorem set_type_bytes (b : List Nat) (c : StunClass) (m : Nat) :
    ∃ cn, (c = StunClass.STUN_REQUEST ∧ cn = 0 ∨ c = StunClass.STUN_INDICATION ∧ cn = 1 ∨
        c = StunClass.STUN_RESPONSE ∧ cn = 2 ∨ c = StunClass.STUN_ERROR ∧ cn = 3) ∧
      rdb (stun_set_type b c m) 0 = cn / 2 + 2 * (m / 128 % 32) ∧
      rdb (stun_set_type b c m) 1 = 16 * (cn % 2) + 32 * (m / 16 % 8) + m % 16 ∧
      ∀ j, 2 ≤ j → rdb (stun_set_type b c m) j = rdb b j := by
  cases c
  · refine ⟨0, by simp, ?_, ?_, ?_⟩
    · simp only [stun_set_type, rdb_wrb]; simp; omega
    · simp only [stun_set_type, rdb_wrb]; simp; omega
    · intro j hj
      simp only [stun_set_type, rdb_wrb]
      rw [if_neg (by omega), if_neg (by omega)]
  · refine ⟨1, by simp, ?_, ?_, ?_⟩
    · simp only [stun_set_type, rdb_wrb]; simp; omega
    · simp only [stun_set_type, rdb_wrb]; simp; omega
    · intro j hj
      simp only [stun_set_type, rdb_wrb]
      rw [if_neg (by omega), if_neg (by omega)]
  · refine ⟨2, by simp, ?_, ?_, ?_⟩
    · simp only [stun_set_type, rdb_wrb]; simp; omega
    · simp only [stun_set_type, rdb_wrb]; simp; omega
    · intro j hj
      simp only [stun_set_type, rdb_wrb]
      rw [if_neg (by omega), if_neg (by omega)]
  · refine ⟨3, by simp, ?_, ?_, ?_⟩
    · simp only [stun_set_type, rdb_wrb]; simp; omega
    · simp only [stun_set_type, rdb_wrb]; simp; omega
    · intro j hj
      simp only [stun_set_type, rdb_wrb]
      rw [if_neg (by omega), if_neg (by omega)]

theorem class_method_of_bytes (M : StunMessage) (m : Nat)
    (cn : Nat) (h0 : rdb M.buffer 0 = cn / 2 + 2 * (m / 128 % 32))
    (h1 : rdb M.buffer 1 = 16 * (cn % 2) + 32 * (m / 16 % 8) + m % 16) (hcn : cn < 4) :
    stun_message_get_method M = m % 4096 ∧
    (cn = 2 → stun_message_get_class M = StunClass.STUN_RESPONSE) ∧
    (cn = 3 → stun_message_get_class M = StunClass.STUN_ERROR) := by
  have hb0 := rdb_lt M.buffer 0
  have hb1 := rdb_lt M.buffer 1
  refine ⟨?_, ?_, ?_⟩
  · unfold stun_message_get_method stun_getw
    simp only [Nat.zero_add]
    have hm : m % 4096 = m / 128 % 32 * 128 + m / 16 % 8 * 16 + m % 16 := by omega
    have hp : m / 128 % 32 < 32 := Nat.mod_lt _ (by decide)
    have hq : m / 16 % 8 < 8 := Nat.mod_lt _ (by decide)
    have hr : m % 16 < 16 := Nat.mod_lt _ (by decide)
    have ha : cn / 2 < 2 := by omega
    have hc : cn % 2 < 2 := Nat.mod_lt _ (by decide)
    rw [hm, h0, h1]
    generalize m / 128 % 32 = p at hp ⊢
    generalize m / 16 % 8 = q at hq ⊢
    generalize m % 16 = r at hr ⊢
    generalize cn / 2 = a at ha ⊢
    generalize cn % 2 = c at hc ⊢
    have e1 : ((a + 2 * p) * 256 + (16 * c + 32 * q + r)) / 512 % 32 = p := by omega
    have e2 : ((a + 2 * p) * 256 + (16 * c + 32 * q + r)) / 32 % 8 = q := by omega
    have e3 : ((a + 2 * p) * 256 + (16 * c + 32 * q + r)) % 16 = r := by omega
    rw [e1, e2, e3]
  · intro hc
    subst hc
    unfold stun_message_get_class stun_getw
    have e1 : (rdb M.buffer 0 * 256 + rdb M.buffer (0 + 1)) / 256 % 2 = 1 := by
      simp only [Nat.zero_add]; omega
    have e2 : (rdb M.buffer 0 * 256 + rdb M.buffer (0 + 1)) / 16 % 2 = 0 := by
      simp only [Nat.zero_add]; omega
    simp only [e1, e2]
  · intro hc
    subst hc
    unfold stun_message_get_class stun_getw
    have e1 : (rdb M.buffer 0 * 256 + rdb M.buffer (0 + 1)) / 256 % 2 = 1 := by
      simp only [Nat.zero_add]; omega
    have e2 : (rdb M.buffer 0 * 256 + rdb M.buffer (0 + 1)) / 16 % 2 = 1 := by
      simp only [Nat.zero_add]; omega
    simp only [e1, e2]

theorem rdbs_rdbs (B : List Nat) (off n : Nat) : rdbs (rdbs B off n) 0 n = rdbs B off n := by
  apply List.ext_getElem
  · rw [rdbs_length, rdbs_length]
  · intro i h1 h2
    rw [rdbs_length] at h1
    have e1 : (rdbs (rdbs B off n) 0 n)[i] = (rdbs (rdbs B off n) 0 n).getD i 0 := by
      rw [List.getD_eq_getElem?_getD, List.getElem?_eq_getElem (by rw [rdbs_length]; exact h1)]
      rfl
    have e2 : (rdbs B off n)[i] = (rdbs B off n).getD i 0 := by
      rw [List.getD_eq_getElem?_getD, List.getElem?_eq_getElem h2]; rfl
    rw [e1, e2, rdbs_getD _ _ _ _ h1, rdbs_getD _ _ _ _ h1]
    show (rdbs B off n).getD (0 + i) 0 % 256 = rdb B (off + i)
    rw [Nat.zero_add, rdbs_getD _ _ _ _ h1]
    exact Nat.mod_eq_of_lt (rdb_lt _ _)

/-- A header written by `stun_message_init` reads back the class, the method (of twelve
bits) and the transaction id it was given. -/
theorem stun_message_init_header (msg : StunMessage) (c : StunClass) (m : Nat) (id : List Nat)
    (h : (stun_message_init msg c m id).1 = true)
    (hc : c = StunClass.STUN_RESPONSE ∨ c = StunClass.STUN_ERROR) :
    stun_message_get_class (stun_message_init msg c m id).2 = c ∧
    stun_message_get_method (stun_message_init msg c m id).2 = m % 4096 ∧
    stun_message_id (stun_message_init msg c m id).2 = rdbs id 0 16 := by
  unfold stun_message_init at h ⊢
  simp only [STUN_MESSAGE_HEADER_LENGTH, STUN_MESSAGE_TRANS_ID_POS, STUN_MESSAGE_TRANS_ID_LEN] at h ⊢
  by_cases hlen : msg.buffer_len < 20
  · rw [if_pos hlen] at h; simp at h
  · rw [if_neg hlen]
    obtain ⟨cn, hcn, hb0, hb1, _⟩ := set_type_bytes (wrbs msg.buffer 0 [0, 0, 0, 0]) c m
    have hcn4 : cn < 4 := by
      rcases hcn with h | h | h | h <;> omega
    have hcm := class_method_of_bytes
      { buffer := wrbs (stun_set_type (wrbs msg.buffer 0 [0, 0, 0, 0]) c m) 4 (rdbs id 0 16),
        buffer_len := msg.buffer_len, key := msg.key, key_len := msg.key_len } m cn
      (by dsimp only; rw [rdb_wrbs, if_neg (by omega)]; exact hb0)
      (by dsimp only; rw [rdb_wrbs, if_neg (by omega)]; exact hb1) hcn4
    refine ⟨?_, hcm.1, ?_⟩
    · rcases hc with hc | hc
      · subst hc
        rcases hcn with h | h | h | h
        · exact absurd h.1 (by decide)
        · exact absurd h.1 (by decide)
        · exact hcm.2.1 h.2
        · exact absurd h.1 (by decide)
      · subst hc
        rcases hcn with h | h | h | h
        · exact absurd h.1 (by decide)
        · exact absurd h.1 (by decide)
        · exact absurd h.1 (by decide)
        · exact hcm.2.2 h.2
    · unfold stun_message_id
      simp only [STUN_MESSAGE_TRANS_ID_POS, STUN_MESSAGE_TRANS_ID_LEN]
      exact rdbs_wrbs_self _ 4 16 _ (rdbs_length _ _ _)
        (fun i hi => by rw [rdbs_getD _ _ _ _ hi]; exact rdb_lt _ _)

theorem append_bytes_keeps (msg : StunMessage) (type : Nat) (data : List Nat) (len : Nat)
    (m1 : StunMessage) (h : stun_message_append_bytes msg type data len = some m1) :
    same_header msg.buffer m1.buffer ∧ m1.key = msg.key ∧ m1.key_len = msg.key_len := by
  unfold stun_message_append_bytes at h
  cases ha : stun_message_append msg type len with
  | none => rw [ha] at h; simp at h
  | some p =>
    obtain ⟨ptr, m0⟩ := p
    rw [ha] at h
    simp only [Option.some.injEq] at h
    subst h
    have hs := stun_message_append_spec msg _ _ ptr m0 ha
    have hl := stun_message_length_ge msg
    dsimp only
    exact ⟨same_header_trans msg.buffer m0.buffer _
      (stun_message_append_same_header msg _ _ ptr m0 ha)
      (same_header_wrbs m0.buffer ptr _ (by omega)), hs.2.2.2.1, hs.2.2.2.2.1⟩

theorem append_server_keeps (X : Collab) (msg : StunMessage) :
    same_header msg.buffer (stun_message_append_server X msg).buffer ∧
    (stun_message_append_server X msg).key = msg.key ∧
    (stun_message_append_server X msg).key_len = msg.key_len := by
  unfold stun_message_append_server
  cases h : stun_message_append_bytes msg STUN_ATTRIBUTE_SERVER X.server X.server.length with
  | none => exact ⟨same_header_refl _, rfl, rfl⟩
  | some m1 => exact append_bytes_keeps msg _ _ _ m1 h

theorem append_error_keeps (X : Collab) (msg : StunMessage) (code : Nat) (m1 : StunMessage)
    (h : stun_message_append_error X msg code = some m1) :
    same_header msg.buffer m1.buffer ∧ m1.key = msg.key ∧ m1.key_len = msg.key_len := by
  unfold stun_message_append_error at h
  simp only at h
  cases ha : stun_message_append msg STUN_ATTRIBUTE_ERROR_CODE (4 + (X.strerror code).length) with
  | none => rw [ha] at h; simp at h
  | some p =>
    obtain ⟨ptr, m0⟩ := p
    rw [ha] at h
    simp only [Option.some.injEq] at h
    subst h
    have hs := stun_message_append_spec msg _ _ ptr m0 ha
    have hl := stun_message_length_ge msg
    dsimp only
    exact ⟨same_header_trans msg.buffer m0.buffer _
      (stun_message_append_same_header msg _ _ ptr m0 ha)
      (same_header_wrbs m0.buffer ptr _ (by omega)), hs.2.2.2.1, hs.2.2.2.2.1⟩

/-- A successful `stun_agent_init_response` gives a Response with the method, the
transaction id, the key and the key length of the request. -/
theorem init_response_spec (X : Collab) (agent : StunAgent) (msg : StunMessage)
    (buffer : List Nat) (buffer_len : Nat) (request : StunMessage)
    (h : (stun_agent_init_response X agent msg buffer buffer_len request).1 = true) :
    stun_message_get_class (stun_agent_init_response X agent msg buffer buffer_len request).2 =
      StunClass.STUN_RESPONSE ∧
    stun_message_get_method (stun_agent_init_response X agent msg buffer buffer_len request).2 =
      stun_message_get_method request ∧
    stun_message_id (stun_agent_init_response X agent msg buffer buffer_len request).2 =
      stun_message_id request ∧
    (stun_agent_init_response X agent msg buffer buffer_len request).2.key = request.key ∧
    (stun_agent_init_response X agent msg buffer buffer_len request).2.key_len =
      request.key_len := by
  unfold stun_agent_init_response at h ⊢
  by_cases hcls : stun_message_get_class request ≠ StunClass.STUN_REQUEST
  · rw [if_pos hcls] at h; simp at h
  · rw [if_neg hcls] at h ⊢
    simp only at h ⊢
    generalize hr : stun_message_init
      { buffer := buffer, buffer_len := buffer_len, key := request.key,
        key_len := request.key_len }
      StunClass.STUN_RESPONSE (stun_message_get_method request) (stun_message_id request) = r
      at h ⊢
    obtain ⟨ok, m1⟩ := r
    cases ok with
    | false => simp at h
    | true =>
      have hh := stun_message_init_header
        { buffer := buffer, buffer_len := buffer_len, key := request.key,
          key_len := request.key_len }
        StunClass.STUN_RESPONSE (stun_message_get_method request) (stun_message_id request)
        (by rw [hr]) (Or.inl rfl)
      have hs := stun_message_init_spec
        { buffer := buffer, buffer_len := buffer_len, key := request.key,
          key_len := request.key_len }
        StunClass.STUN_RESPONSE (stun_message_get_method request) (stun_message_id request)
        (by rw [hr])
      rw [hr] at hh hs
      simp only at hh hs
      have hid : rdbs (stun_message_id request) 0 16 = stun_message_id request := by
        unfold stun_message_id
        simp only [STUN_MESSAGE_TRANS_ID_POS, STUN_MESSAGE_TRANS_ID_LEN]
        exact rdbs_rdbs _ _ _
      have hmeth : stun_message_get_method request % 4096 = stun_message_get_method request :=
        Nat.mod_eq_of_lt (get_method_lt request)
      simp only
      by_cases hsrv : agent.compatibility = StunCompatibility.STUN_COMPATIBILITY_3489BIS ∧
          usage agent STUN_AGENT_USAGE_ADD_SERVER = true
      · rw [if_pos hsrv]
        simp only
        obtain ⟨hk1, hk2, hk3⟩ := append_server_keeps X m1
        refine ⟨?_, ?_, ?_, ?_, ?_⟩
        · rw [get_class_of_same_header m1 _ hk1]; exact hh.1
        · rw [get_method_of_same_header m1 _ hk1, hh.2.1, hmeth]
        · rw [message_id_of_same_header m1 _ hk1, hh.2.2, hid]
        · rw [hk2]; exact hs.2.2.1
        · rw [hk3]; exact hs.2.2.2.1
      · rw [if_neg hsrv]
        simp only
        refine ⟨hh.1, ?_, ?_, hs.2.2.1, hs.2.2.2.1⟩
        · rw [hh.2.1, hmeth]
        · rw [hh.2.2, hid]

/-- A successful `stun_agent_init_error` gives an Error with the method, the transaction
id, the key and the key length of the request. -/
theorem init_error_spec (X : Collab) (agent : StunAgent) (msg : StunMessage)
    (buffer : List Nat) (buffer_len : Nat) (request : StunMessage) (err : Nat)
    (h : (stun_agent_init_error X agent msg buffer buffer_len request err).1 = true) :
    stun_message_get_class (stun_agent_init_error X agent msg buffer buffer_len request err).2 =
      StunClass.STUN_ERROR ∧
    stun_message_get_method (stun_agent_init_error X agent msg buffer buffer_len request err).2 =
      stun_message_get_method request ∧
    stun_message_id (stun_agent_init_error X agent msg buffer buffer_len request err).2 =
      stun_message_id request ∧
    (stun_agent_init_error X agent msg buffer buffer_len request err).2.key = request.key ∧
    (stun_agent_init_error X agent msg buffer buffer_len request err).2.key_len =
      request.key_len := by
  unfold stun_agent_init_error at h ⊢
  by_cases hcls : stun_message_get_class request ≠ StunClass.STUN_REQUEST
  · rw [if_pos hcls] at h; simp at h
  · rw [if_neg hcls] at h ⊢
    simp only at h ⊢
    generalize hr : stun_message_init
      { buffer := buffer, buffer_len := buffer_len, key := request.key,
        key_len := request.key_len }
      StunClass.STUN_ERROR (stun_message_get_method request) (stun_message_id request) = r
      at h ⊢
    obtain ⟨ok, m1⟩ := r
    cases ok with
    | false => simp at h
    | true =>
      have hh := stun_message_init_header
        { buffer := buffer, buffer_len := buffer_len, key := request.key,
          key_len := request.key_len }
        StunClass.STUN_ERROR (stun_message_get_method request) (stun_message_id request)
        (by rw [hr]) (Or.inr rfl)
      have hs := stun_message_init_spec
        { buffer := buffer, buffer_len := buffer_len, key := request.key,
          key_len := request.key_len }
        StunClass.STUN_ERROR (stun_message_get_method request) (stun_message_id request)
        (by rw [hr])
      rw [hr] at hh hs
      simp only at hh hs
      have hid : rdbs (stun_message_id request) 0 16 = stun_message_id request := by
        unfold stun_message_id
        simp only [STUN_MESSAGE_TRANS_ID_POS, STUN_MESSAGE_TRANS_ID_LEN]
        exact rdbs_rdbs _ _ _
      have hmeth : stun_message_get_method request % 4096 = stun_message_get_method request :=
        Nat.mod_eq_of_lt (get_method_lt request)
      simp only at h ⊢
      have hm2 : ∀ m2 : StunMessage,
          m2 = (if agent.compatibility = StunCompatibility.STUN_COMPATIBILITY_3489BIS ∧
              usage agent STUN_AGENT_USAGE_ADD_SERVER = true then
            stun_message_append_server X m1 else m1) →
          same_header m1.buffer m2.buffer ∧ m2.key = m1.key ∧ m2.key_len = m1.key_len := by
        intro m2 hm2
        by_cases hsrv : agent.compatibility = StunCompatibility.STUN_COMPATIBILITY_3489BIS ∧
            usage agent STUN_AGENT_USAGE_ADD_SERVER = true
        · rw [if_pos hsrv] at hm2
          rw [hm2]; exact append_server_keeps X m1
        · rw [if_neg hsrv] at hm2
          rw [hm2]; exact ⟨same_header_refl _, rfl, rfl⟩
      generalize hg : (if agent.compatibility = StunCompatibility.STUN_COMPATIBILITY_3489BIS ∧
              usage agent STUN_AGENT_USAGE_ADD_SERVER = true then
            stun_message_append_server X m1 else m1) = m2 at h ⊢
      obtain ⟨hk1, hk2, hk3⟩ := hm2 m2 hg.symm
      cases he : stun_message_append_error X m2 err with
      | none => rw [he] at h; simp at h
      | some m3 =>
        simp only
        obtain ⟨he1, he2, he3⟩ := append_error_keeps X m2 err m3 he
        have h13 := same_header_trans m1.buffer m2.buffer m3.buffer hk1 he1
        refine ⟨?_, ?_, ?_, ?_, ?_⟩
        · rw [get_class_of_same_header m1 _ h13]; exact hh.1
        · rw [get_method_of_same_header m1 _ h13, hh.2.1, hmeth]
        · rw [message_id_of_same_header m1 _ h13, hh.2.2, hid]
        · rw [he2, hk2]; exact hs.2.2.1
        · rw [he3, hk3]; exact hs.2.2.2.1

/-! ## The default validater -/

theorem default_validater_loop_spec (username : Option (List Nat)) (username_len : Nat)
    (val : List stun_validater_data) :
    stun_agent_default_validater_loop username username_len val =
      ((credential_entries val).find? (username_matches username username_len)).map
        (fun v => (v.password, v.password_len)) := by
  induction val with
  | nil => rfl
  | cons v vs ih =>
    unfold stun_agent_default_validater_loop credential_entries
    cases hu : v.username with
    | none => simp [List.takeWhile, hu]
    | some u =>
      have hm : username_matches username username_len v = true ↔
          (username_len = v.username_len ∨
            rdbs (username.getD []) 0 username_len = rdbs u 0 username_len) := by
        unfold username_matches
        rw [hu]
        simp
      simp only [List.takeWhile, hu, Option.isSome_some]
      by_cases hc : username_len = v.username_len ∨
          rdbs (username.getD []) 0 username_len = rdbs u 0 username_len
      · rw [if_pos hc, List.find?_cons_of_pos _ (hm.2 hc)]
        rfl
      · rw [if_neg hc, List.find?_cons_of_neg _ (fun h => hc (hm.1 h)), ih]
        rfl

/-- C17: `stun_agent_default_validater` returns true (here: a result, the password
pointer and the password length it stores) exactly when the credential list is not null
and some entry before the terminating null-username entry has the supplied
`username_len` or has the supplied bytes as its first `username_len` bytes; the password
and password length are those of the first such entry; otherwise it returns false and
stores nothing. -/
theorem C17_default_validater_first_length_or_content_match
    (user_data : Option (List stun_validater_data)) (agent : StunAgent) (msg : StunMessage)
    (username : Option (List Nat)) (username_len : Nat) :
    ((stun_agent_default_validater user_data agent msg username username_len).isSome = true ↔
      ∃ val, user_data = some val ∧
        ∃ v ∈ credential_entries val, username_matches username username_len v = true) ∧
    (∀ val, user_data = some val →
      stun_agent_default_validater user_data agent msg username username_len =
        ((credential_entries val).find? (username_matches username username_len)).map
          (fun v => (v.password, v.password_len))) ∧
    (user_data = none →
      stun_agent_default_validater user_data agent msg username username_len = none) := by
  cases user_data with
  | none =>
    refine ⟨?_, ?_, ?_⟩
    · simp [stun_agent_default_validater]
    · intro val h; simp at h
    · intro _; rfl
  | some val =>
    have hspec : stun_agent_default_validater (some val) agent msg username username_len =
        ((credential_entries val).find? (username_matches username username_len)).map
          (fun v => (v.password, v.password_len)) := by
      unfold stun_agent_default_validater
      exact default_validater_loop_spec username username_len val
    refine ⟨?_, ?_, ?_⟩
    · rw [hspec]
      have hmap : ∀ o : Option stun_validater_data,
          (o.map (fun v => (v.password, v.password_len))).isSome = o.isSome := by
        intro o; cases o <;> rfl
      rw [hmap, List.find?_isSome]
      constructor
      · intro ⟨v, hv, hm⟩
        exact ⟨val, rfl, v, hv, hm⟩
      · intro ⟨val2, hval, v, hv, hm⟩
        simp only [Option.some.injEq] at hval
        subst hval
        exact ⟨v, hv, hm⟩
    · intro val2 hval
      simp only [Option.some.injEq] at hval
      subst hval
      exact hspec
    · intro h; simp at h

/-- Claim C17, witness: a username of five bytes that is not in the sample list is given
the password of the first entry, whose username has five bytes as well. -/
theorem C17_default_validater_first_length_or_content_match_witness :
    stun_agent_default_validater (some sampleCredentials) (legacyAgent 0) (viewed [] 0)
        (some [120, 121, 122, 49, 50]) 5 = some (some [112, 49], 2) :=
  ((C17_default_validater_first_length_or_content_match (some sampleCredentials)
    (legacyAgent 0) (viewed [] 0) (some [120, 121, 122, 49, 50]) 5).2.1 sampleCredentials
    rfl).trans (by decide)

/-! ## The scan for unknown mandatory attributes -/

theorem is_unknown_loop_spec (L : List Nat) (t : Nat) :
    stun_agent_is_unknown_loop L t =
      !((L.takeWhile (fun k => k % 65536 != 0)).any (fun k => k % 65536 == t)) := by
  induction L with
  | nil => rfl
  | cons k ks ih =>
    unfold stun_agent_is_unknown_loop
    rw [List.takeWhile_cons]
    by_cases h0 : k % 65536 = 0
    · have hb : (k % 65536 != 0) = false := by simp [h0]
      rw [if_pos h0, hb]
      rfl
    · have hb : (k % 65536 != 0) = true := by simp [h0]
      rw [if_neg h0, hb]
      by_cases ht : k % 65536 = t
      · rw [if_pos ht]
        simp [ht]
      · rw [if_neg ht, ih]
        simp [ht]

theorem is_unknown_eq_not_known (agent : StunAgent) (t : Nat) :
    stun_agent_is_unknown agent t = !known_attribute agent t := by
  unfold stun_agent_is_unknown known_attribute
  exact is_unknown_loop_spec _ _

theorem stun_align_ge (l : Nat) : l ≤ stun_align l := by
  unfold stun_align; omega

/-- Two amounts of fuel that both cover the rest of the walk give the same result. -/
theorem find_unknowns_loop_fuel (X : Collab) (agent : StunAgent) (buf : List Nat)
    (len max : Nat) (f1 : Nat) :
    ∀ (f2 offset : Nat) (list : List Nat), len ≤ offset + 4 * f1 → len ≤ offset + 4 * f2 →
      stun_agent_find_unknowns_loop X agent buf len max f1 offset list =
        stun_agent_find_unknowns_loop X agent buf len max f2 offset list := by
  induction f1 with
  | zero =>
    intro f2 offset list h1 h2
    have hno : ¬ (offset < len ∧ list.length < max) := fun h => by omega
    cases f2 with
    | zero => rfl
    | succ f2 =>
      unfold stun_agent_find_unknowns_loop
      rw [if_neg hno, if_neg hno]
  | succ f1 ih =>
    intro f2 offset list h1 h2
    cases f2 with
    | zero =>
      have hno : ¬ (offset < len ∧ list.length < max) := fun h => by omega
      unfold stun_agent_find_unknowns_loop
      rw [if_neg hno, if_neg hno]
    | succ f2 =>
      unfold stun_agent_find_unknowns_loop
      by_cases hc : offset < len ∧ list.length < max
      · rw [if_pos hc, if_pos hc]
        simp only [STUN_ATTRIBUTE_VALUE_POS]
        split
        · exact ih f2 _ _ (by omega) (by omega)
        · exact ih f2 _ _ (by omega) (by omega)
      · rw [if_neg hc, if_neg hc]

/-- With fuel that covers the rest of the walk the loop returns, and what it returns are
the first unknown mandatory type codes from `offset` on, up to `max` entries in all. -/
theorem find_unknowns_loop_spec (X : Collab) (agent : StunAgent) (buf : List Nat)
    (len max : Nat) (fuel : Nat) :
    ∀ (offset : Nat) (list : List Nat), len ≤ offset + 4 * fuel → list.length ≤ max →
      stun_agent_find_unknowns_loop X agent buf len max fuel offset list =
        some (list ++
          (((attribute_types_loop buf len fuel offset).filter
            (fun t => !stun_optional t && !known_attribute agent t)).take
              (max - list.length)).map (htons X)) := by
  induction fuel with
  | zero =>
    intro offset list h1 h2
    have hno : ¬ (offset < len ∧ list.length < max) := fun h => by omega
    unfold stun_agent_find_unknowns_loop attribute_types_loop
    rw [if_neg hno]
    simp
  | succ fuel ih =>
    intro offset list h1 h2
    unfold stun_agent_find_unknowns_loop attribute_types_loop
    by_cases hc : offset < len ∧ list.length < max
    · rw [if_pos hc, if_pos hc.1]
      simp only [STUN_ATTRIBUTE_VALUE_POS, STUN_ATTRIBUTE_TYPE_LEN]
      obtain ⟨n, hn⟩ : ∃ n, max - list.length = n + 1 := ⟨max - list.length - 1, by omega⟩
      by_cases hp : (!stun_optional (stun_getw buf offset) &&
          stun_agent_is_unknown agent (stun_getw buf offset)) = true
      · rw [if_pos hp, ih _ _ (by omega) (by simp; omega)]
        have hp2 : (!stun_optional (stun_getw buf offset) &&
            !known_attribute agent (stun_getw buf offset)) = true := by
          rw [← is_unknown_eq_not_known]; exact hp
        rw [List.filter_cons, if_pos hp2, hn]
        have hn2 : max - (list ++ [htons X (stun_getw buf offset)]).length = n := by
          simp; omega
        rw [hn2]
        simp
      · rw [if_neg hp, ih _ _ (by omega) h2]
        have hp2 : ¬ (!stun_optional (stun_getw buf offset) &&
            !known_attribute agent (stun_getw buf offset)) = true := by
          rw [← is_unknown_eq_not_known]; exact hp
        rw [List.filter_cons, if_neg hp2]
    · rw [if_neg hc]
      by_cases hoff : offset < len
      · have hfull : max - list.length = 0 := by
          have : ¬ list.length < max := fun h => hc ⟨hoff, h⟩
          omega
        rw [hfull]
        simp
      · rw [if_neg hoff]
        simp

/-- Below 65536 bytes of declared total length, `stun_agent_find_unknowns` stores the
first `max` unknown mandatory type codes of the message, in message order, each in
network byte order. -/
theorem find_unknowns_spec (X : Collab) (agent : StunAgent) (msg : StunMessage) (max : Nat)
    (hlen : stun_message_length msg < 65536) :
    stun_agent_find_unknowns X agent msg max =
      some (((unknown_mandatory_attributes agent msg).take max).map (htons X)) := by
  unfold stun_agent_find_unknowns unknown_mandatory_attributes message_attribute_types
  simp only [Nat.mod_eq_of_lt hlen, STUN_MESSAGE_ATTRIBUTES_POS]
  rw [find_unknowns_loop_spec X agent msg.buffer _ max _ 20 [] (by omega) (by simp)]
  simp

/-- C20: the attribute walk of `stun_agent_find_unknowns` always returns. Each
iteration advances the offset by at least 4 bytes, so the walk is over after at most
ceil((len - 20) / 4) iterations, `len` being the 16-bit length the loop runs to (which
is at most the declared total length): every amount of fuel from that bound on gives the
same result, and this result has at most `max` entries. -/
theorem C20_attribute_walk_terminates (X : Collab) (agent : StunAgent) (msg : StunMessage)
    (max : Nat) :
    (∀ offset alen : Nat,
      offset + 4 ≤ offset + (STUN_ATTRIBUTE_VALUE_POS + stun_align alen)) ∧
    ∃ list, stun_agent_find_unknowns X agent msg max = some list ∧ list.length ≤ max ∧
      (∀ fuel, (stun_message_length msg % 65536 - STUN_MESSAGE_HEADER_LENGTH + 3) / 4 ≤ fuel →
        stun_agent_find_unknowns_loop X agent msg.buffer (stun_message_length msg % 65536) max
          fuel STUN_MESSAGE_ATTRIBUTES_POS [] = some list) ∧
      (∀ fuel, (stun_message_length msg - STUN_MESSAGE_HEADER_LENGTH + 3) / 4 ≤ fuel →
        stun_agent_find_unknowns_loop X agent msg.buffer (stun_message_length msg % 65536) max
          fuel STUN_MESSAGE_ATTRIBUTES_POS [] = some list) := by
  refine ⟨?_, ?_⟩
  · intro offset alen
    have := stun_align_ge alen
    simp only [STUN_ATTRIBUTE_VALUE_POS]
    omega
  · have hspec := find_unknowns_loop_spec X agent msg.buffer (stun_message_length msg % 65536)
      max (stun_message_length msg % 65536) STUN_MESSAGE_ATTRIBUTES_POS []
      (by simp only [STUN_MESSAGE_ATTRIBUTES_POS]; omega) (by simp)
    have hmod : stun_message_length msg % 65536 ≤ stun_message_length msg :=
      Nat.mod_le _ _
    refine ⟨_, hspec, ?_, ?_, ?_⟩
    · simp only [List.nil_append, List.length_map, List.length_take, List.length_nil,
        Nat.sub_zero]
      exact Nat.min_le_left _ _
    · intro fuel hfuel
      rw [← hspec]
      apply find_unknowns_loop_fuel
      · simp only [STUN_MESSAGE_ATTRIBUTES_POS, STUN_MESSAGE_HEADER_LENGTH] at hfuel ⊢
        omega
      · simp only [STUN_MESSAGE_ATTRIBUTES_POS]
        omega
    · intro fuel hfuel
      rw [← hspec]
      apply find_unknowns_loop_fuel
      · simp only [STUN_MESSAGE_ATTRIBUTES_POS, STUN_MESSAGE_HEADER_LENGTH] at hfuel ⊢
        omega
      · simp only [STUN_MESSAGE_ATTRIBUTES_POS]
        omega

/-- Claim C20, witness: for the Request with one unknown attribute (28 bytes) two
iterations of fuel are enough. -/
theorem C20_attribute_walk_terminates_witness :
    ∃ list, stun_agent_find_unknowns refCollab (legacyAgent 0) unknownRequest 1 = some list ∧
      list.length ≤ 1 ∧
      stun_agent_find_unknowns_loop refCollab (legacyAgent 0) unknownRequest.buffer
          (stun_message_length unknownRequest % 65536) 1 2 STUN_MESSAGE_ATTRIBUTES_POS [] =
        some list :=
  match (C20_attribute_walk_terminates refCollab (legacyAgent 0) unknownRequest 1).2 with
  | ⟨list, h1, h2, _, h4⟩ => ⟨list, h1, h2, h4 2 (by decide)⟩

/-- C18: `stun_agent_find_unknowns` runs its walk to the declared total length of the
message after this length is stored in 16 bits. For the Request of 65536 bytes whose one
attribute has the unknown mandatory type 0x0030 the stored length is 0: the walk does
not start and no entry is written, although the message has one unknown mandatory
attribute. -/
theorem C18_walk_runs_to_truncated_length :
    stun_message_length (viewed oversizeRequest 65536) = 65536 ∧
    unknown_mandatory_attributes (legacyAgent 0) (viewed oversizeRequest 65536) = [0x30] ∧
    stun_agent_find_unknowns refCollab (legacyAgent 0) (viewed oversizeRequest 65536) 1 =
      some [] := by
  refine ⟨by decide, by decide, by decide⟩

/-! ## The last stage of `stun_agent_validate` -/

theorem unknown_mandatory_congr (a1 a2 : StunAgent) (m1 m2 : StunMessage)
    (ha : a1.known_attributes = a2.known_attributes) (hm : m1.buffer = m2.buffer) :
    unknown_mandatory_attributes a1 m1 = unknown_mandatory_attributes a2 m2 := by
  unfold unknown_mandatory_attributes message_attribute_types known_attribute
    stun_message_length
  rw [ha, hm]

/-- Below 65536 bytes of declared total length, the last stage answers "success" when
the message has no unknown mandatory attribute, and otherwise "unknown request
attribute" for a Request and "unknown attribute" for every other class. -/
theorem validate_unknowns_spec (X : Collab) (agent1 : StunAgent) (msg2 : StunMessage)
    (hlen : stun_message_length msg2 < 65536) :
    validate_unknowns X agent1 msg2 =
      some (
        (if unknown_mandatory_attributes agent1 msg2 = [] then
          StunValidationStatus.STUN_VALIDATION_SUCCESS
        else if stun_message_get_class msg2 = StunClass.STUN_REQUEST then
          StunValidationStatus.STUN_VALIDATION_UNKNOWN_REQUEST_ATTRIBUTE
        else StunValidationStatus.STUN_VALIDATION_UNKNOWN_ATTRIBUTE), agent1, msg2) := by
  unfold validate_unknowns
  rw [find_unknowns_spec X agent1 msg2 1 hlen]
  simp only
  cases hu : unknown_mandatory_attributes agent1 msg2 with
  | nil => simp
  | cons a l =>
    by_cases hc : stun_message_get_class msg2 = StunClass.STUN_REQUEST
    · simp [hc]
    · simp [hc]

/-- A message of less than 65536 bytes that passes every earlier stage of
`stun_agent_validate` is answered "success" exactly when each of its mandatory-class
attributes is known to the agent, and otherwise "unknown request attribute" when it is
a Request and "unknown attribute" when it is not. -/
theorem validate_last_stage (X : Collab) (agent : StunAgent) (msg : StunMessage)
    (buffer : List Nat) (n : Nat) (validater : Option StunMessageIntegrityValidate)
    (key : Option (List Nat)) (key_len : Nat) (msg2 : StunMessage)
    (hframe : complete_frame X buffer n) (hcookie : cookie_ok agent (viewed buffer n))
    (hsum : checksum_ok X agent (viewed buffer n))
    (hcorr : correlation_ok agent (viewed buffer n))
    (hpol : credential_policy_violated agent (viewed buffer n) = false)
    (hres : resolve_key agent (viewed buffer n) validater (slot_key agent (viewed buffer n))
      (slot_key_len agent (viewed buffer n)) = some (key, key_len))
    (hint : check_integrity X (viewed buffer n) key key_len = some (some msg2))
    (hlen : stun_message_length (viewed buffer n) < 65536) :
    stun_agent_validate X agent msg buffer n validater =
      some (
        (if unknown_mandatory_attributes agent (viewed buffer n) = [] then
          StunValidationStatus.STUN_VALIDATION_SUCCESS
        else if stun_message_get_class (viewed buffer n) = StunClass.STUN_REQUEST then
          StunValidationStatus.STUN_VALIDATION_UNKNOWN_REQUEST_ATTRIBUTE
        else StunValidationStatus.STUN_VALIDATION_UNKNOWN_ATTRIBUTE),
        release_slot agent (passed_index agent (viewed buffer n)), msg2) := by
  rw [validate_reaches_integrity X agent msg buffer n validater key key_len hframe hcookie hsum
    hcorr hpol hres]
  unfold validate_integrity
  rw [hint]
  simp only
  have hbuf : msg2.buffer = (viewed buffer n).buffer := by
    rcases check_integrity_cases X (viewed buffer n) key key_len (some msg2) hint with
      ⟨h, _⟩ | ⟨k, hash, hl, _, _, _, h | h⟩
    · simp only [Option.some.injEq] at h
      rw [h]
    · exact absurd h.1 (by simp)
    · have := h.1
      simp only [Option.some.injEq] at this
      rw [this]
  have hlen2 : stun_message_length msg2 < 65536 := by
    unfold stun_message_length at hlen ⊢
    rw [hbuf]; exact hlen
  rw [validate_unknowns_spec X _ msg2 hlen2,
    unknown_mandatory_congr (release_slot agent (passed_index agent (viewed buffer n))) agent
      msg2 (viewed buffer n) (release_slot_config agent _).1 hbuf]
  have hcls : stun_message_get_class msg2 = stun_message_get_class (viewed buffer n) := by
    unfold stun_message_get_class
    rw [hbuf]
  rw [hcls]

/-- C12: the last stage of `stun_agent_validate` scans for unknown mandatory attributes
up to the declared total length stored in 16 bits. The Request of 65536 bytes whose one
attribute has the unknown mandatory type 0x0030 passes every earlier stage of a legacy
agent with default flags and is answered "success", not "unknown request attribute". -/
theorem C12_oversize_request_is_accepted :
    complete_frame refCollab oversizeRequest 65536 ∧
    stun_message_get_class (viewed oversizeRequest 65536) = StunClass.STUN_REQUEST ∧
    message_attribute_types (viewed oversizeRequest 65536) = [0x30] ∧
    stun_optional 0x30 = false ∧
    known_attribute (legacyAgent 0) 0x30 = false ∧
    stun_agent_validate refCollab (legacyAgent 0) (viewed [] 0) oversizeRequest 65536 none =
      some (StunValidationStatus.STUN_VALIDATION_SUCCESS, legacyAgent 0,
        viewed oversizeRequest 65536) := by
  refine ⟨by decide, by decide, by decide, by decide, by decide, by decide⟩

/-! ## The digest lookup of the integrity stage -/

/-- A key that was not taken from a cache slot has been returned by the validater, which
is only called for a message with a MESSAGE-INTEGRITY attribute. -/
theorem resolved_key_without_slot_key (agent : StunAgent) (msg1 : StunMessage)
    (validater : Option StunMessageIntegrityValidate) (key_len0 : Nat) (k : List Nat)
    (key_len : Nat) (h : resolve_key agent msg1 validater none key_len0 = some (some k, key_len)) :
    stun_message_has_attribute msg1 STUN_ATTRIBUTE_MESSAGE_INTEGRITY = true := by
  unfold resolve_key at h
  by_cases hc : usage agent STUN_AGENT_USAGE_IGNORE_CREDENTIALS = false ∧
      stun_message_has_attribute msg1 STUN_ATTRIBUTE_MESSAGE_INTEGRITY = true
  · exact hc.2
  · rw [if_neg hc] at h
    simp at h

/-- C19: the integrity stage can be reached with a key of non-zero length and a message
without MESSAGE-INTEGRITY. The agent has sent a Request with a key; a Response of the
same method and transaction id without any attribute passes the credential policy of the
default flags, the key of length 3 is taken from the matched slot, and the lookup of the
received digest comes back absent: the call does not return a status. -/
theorem C19_digest_lookup_comes_back_absent :
    keyedAgent.usage_flags = 0 ∧
    complete_frame refCollab unsignedResponse 20 ∧
    correlation_ok keyedAgent (viewed unsignedResponse 20) ∧
    credential_policy_violated keyedAgent (viewed unsignedResponse 20) = false ∧
    resolve_key keyedAgent (viewed unsignedResponse 20) none
      (slot_key keyedAgent (viewed unsignedResponse 20))
      (slot_key_len keyedAgent (viewed unsignedResponse 20)) = some (some sampleKey, 3) ∧
    stun_message_find (viewed unsignedResponse 20) STUN_ATTRIBUTE_MESSAGE_INTEGRITY = none ∧
    check_integrity refCollab (viewed unsignedResponse 20) (some sampleKey) 3 = none ∧
    stun_agent_validate refCollab keyedAgent (viewed [] 0) unsignedResponse 20 none = none := by
  refine ⟨by decide, by decide, by decide, by decide, by decide, by decide, by decide,
    by decide⟩

/-! ## When a reply can be built -/

theorem stun_message_init_ok_iff (msg : StunMessage) (c : StunClass) (m : Nat) (id : List Nat) :
    (stun_message_init msg c m id).1 = true ↔ 20 ≤ msg.buffer_len := by
  unfold stun_message_init
  simp only [STUN_MESSAGE_HEADER_LENGTH]
  by_cases h : msg.buffer_len < 20
  · rw [if_pos h]
    constructor
    · intro h1; simp at h1
    · intro h1; omega
  · rw [if_neg h]
    constructor
    · intro _; omega
    · intro _; rfl

theorem init_response_ok_iff (X : Collab) (agent : StunAgent) (msg : StunMessage)
    (buffer : List Nat) (buffer_len : Nat) (request : StunMessage) :
    (stun_agent_init_response X agent msg buffer buffer_len request).1 = true ↔
      stun_message_get_class request = StunClass.STUN_REQUEST ∧ 20 ≤ buffer_len := by
  unfold stun_agent_init_response
  by_cases hcls : stun_message_get_class request ≠ StunClass.STUN_REQUEST
  · rw [if_pos hcls]
    constructor
    · intro h; simp at h
    · intro h; exact absurd h.1 hcls
  · rw [if_neg hcls]
    simp only
    have hok := stun_message_init_ok_iff
      { buffer := buffer, buffer_len := buffer_len, key := request.key,
        key_len := request.key_len }
      StunClass.STUN_RESPONSE (stun_message_get_method request) (stun_message_id request)
    generalize stun_message_init
      { buffer := buffer, buffer_len := buffer_len, key := request.key,
        key_len := request.key_len }
      StunClass.STUN_RESPONSE (stun_message_get_method request) (stun_message_id request) = r
      at hok ⊢
    obtain ⟨ok, m1⟩ := r
    simp only at hok
    cases ok with
    | false =>
      simp only
      constructor
      · intro h; simp at h
      · intro h; exact absurd (hok.2 h.2) (by simp)
    | true =>
      simp only
      have h20 := hok.1 rfl
      constructor
      · intro _; exact ⟨not_not.mp hcls, h20⟩
      · intro _; split <;> rfl

/-- Without the server attribute, `stun_agent_init_error` succeeds exactly for a Request
and a buffer that holds the header and the error-code attribute. -/
theorem init_error_ok_iff (X : Collab) (agent : StunAgent) (msg : StunMessage)
    (buffer : List Nat) (buffer_len : Nat) (request : StunMessage) (err : Nat)
    (hsrv : ¬ (agent.compatibility = StunCompatibility.STUN_COMPATIBILITY_3489BIS ∧
      usage agent STUN_AGENT_USAGE_ADD_SERVER = true)) :
    (stun_agent_init_error X agent msg buffer buffer_len request err).1 = true ↔
      stun_message_get_class request = StunClass.STUN_REQUEST ∧
      28 + (X.strerror err).length ≤ buffer_len := by
  unfold stun_agent_init_error
  by_cases hcls : stun_message_get_class request ≠ StunClass.STUN_REQUEST
  · rw [if_pos hcls]
    constructor
    · intro h; simp at h
    · intro h; exact absurd h.1 hcls
  · rw [if_neg hcls]
    simp only
    have hok := stun_message_init_ok_iff
      { buffer := buffer, buffer_len := buffer_len, key := request.key,
        key_len := request.key_len }
      StunClass.STUN_ERROR (stun_message_get_method request) (stun_message_id request)
    have hsp := stun_message_init_spec
      { buffer := buffer, buffer_len := buffer_len, key := request.key,
        key_len := request.key_len }
      StunClass.STUN_ERROR (stun_message_get_method request) (stun_message_id request)
    generalize stun_message_init
      { buffer := buffer, buffer_len := buffer_len, key := request.key,
        key_len := request.key_len }
      StunClass.STUN_ERROR (stun_message_get_method request) (stun_message_id request) = r
      at hok hsp ⊢
    obtain ⟨ok, m1⟩ := r
    simp only at hok hsp
    cases ok with
    | false =>
      simp only
      constructor
      · intro h; simp at h
      · intro h
        have : 20 ≤ buffer_len := by omega
        exact absurd (hok.2 this) (by simp)
    | true =>
      simp only
      rw [if_neg hsrv]
      obtain ⟨h20, hbl, _, _, h2, h3, _⟩ := hsp rfl
      have hlen : stun_message_length m1 = 20 := by
        simp [stun_message_length, stun_getw, STUN_MESSAGE_LENGTH_POS,
          STUN_MESSAGE_HEADER_LENGTH, h2, h3]
      cases he : stun_message_append_error X m1 err with
      | none =>
        simp only
        constructor
        · intro h; simp at h
        · intro h
          exfalso
          unfold stun_message_append_error at he
          simp only at he
          cases ha : stun_message_append m1 STUN_ATTRIBUTE_ERROR_CODE
              (4 + (X.strerror err).length) with
          | none =>
            unfold stun_message_append at ha
            simp only [hlen, hbl, STUN_ATTRIBUTE_VALUE_POS] at ha
            rw [if_neg (by omega)] at ha
            simp at ha
          | some p => rw [ha] at he; simp at he
      | some m3 =>
        simp only
        constructor
        · intro _
          refine ⟨not_not.mp hcls, ?_⟩
          unfold stun_message_append_error at he
          simp only at he
          cases ha : stun_message_append m1 STUN_ATTRIBUTE_ERROR_CODE
              (4 + (X.strerror err).length) with
          | none => rw [ha] at he; simp at he
          | some p =>
            have := (stun_message_append_spec m1 _ _ p.1 p.2 ha).2.1
            rw [hlen, hbl] at this
            omega
        · intro _; trivial

/-- C16: `stun_agent_init_response` and `stun_agent_init_error` return false and leave
the output message as it was when the class of the request is not Request.
`stun_agent_init_response` returns true exactly for a Request and a buffer of at least 20
bytes, `stun_agent_init_error` (when no server attribute is added) exactly for a Request
and a buffer that also holds the error-code attribute; when they return true the new
message has the transaction id and the method of the request, the class Response
(respectively Error), and the key and key length of the request. -/
theorem C16_replies_take_over_the_request (X : Collab) (agent : StunAgent) (msg : StunMessage)
    (buffer : List Nat) (buffer_len : Nat) (request : StunMessage) (err : Nat) :
    (stun_message_get_class request ≠ StunClass.STUN_REQUEST →
      stun_agent_init_response X agent msg buffer buffer_len request = (false, msg) ∧
      stun_agent_init_error X agent msg buffer buffer_len request err = (false, msg)) ∧
    ((stun_agent_init_response X agent msg buffer buffer_len request).1 = true ↔
      stun_message_get_class request = StunClass.STUN_REQUEST ∧ 20 ≤ buffer_len) ∧
    (¬ (agent.compatibility = StunCompatibility.STUN_COMPATIBILITY_3489BIS ∧
        usage agent STUN_AGENT_USAGE_ADD_SERVER = true) →
      ((stun_agent_init_error X agent msg buffer buffer_len request err).1 = true ↔
        stun_message_get_class request = StunClass.STUN_REQUEST ∧
        28 + (X.strerror err).length ≤ buffer_len)) ∧
    ((stun_agent_init_response X agent msg buffer buffer_len request).1 = true →
      stun_message_id (stun_agent_init_response X agent msg buffer buffer_len request).2 =
        stun_message_id request ∧
      stun_message_get_method (stun_agent_init_response X agent msg buffer buffer_len request).2 =
        stun_message_get_method request ∧
      stun_message_get_class (stun_agent_init_response X agent msg buffer buffer_len request).2 =
        StunClass.STUN_RESPONSE ∧
      (stun_agent_init_response X agent msg buffer buffer_len request).2.key = request.key ∧
      (stun_agent_init_response X agent msg buffer buffer_len request).2.key_len =
        request.key_len) ∧
    ((stun_agent_init_error X agent msg buffer buffer_len request err).1 = true →
      stun_message_id (stun_agent_init_error X agent msg buffer buffer_len request err).2 =
        stun_message_id request ∧
      stun_message_get_method (stun_agent_init_error X agent msg buffer buffer_len request err).2 =
        stun_message_get_method request ∧
      stun_message_get_class (stun_agent_init_error X agent msg buffer buffer_len request err).2 =
        StunClass.STUN_ERROR ∧
      (stun_agent_init_error X agent msg buffer buffer_len request err).2.key = request.key ∧
      (stun_agent_init_error X agent msg buffer buffer_len request err).2.key_len =
        request.key_len) := by
  refine ⟨?_, init_response_ok_iff X agent msg buffer buffer_len request,
    init_error_ok_iff X agent msg buffer buffer_len request err, ?_, ?_⟩
  · intro hcls
    constructor
    · unfold stun_agent_init_response
      rw [if_pos hcls]
    · unfold stun_agent_init_error
      rw [if_pos hcls]
  · intro h
    obtain ⟨h1, h2, h3, h4, h5⟩ := init_response_spec X agent msg buffer buffer_len request h
    exact ⟨h3, h2, h1, h4, h5⟩
  · intro h
    obtain ⟨h1, h2, h3, h4, h5⟩ := init_error_spec X agent msg buffer buffer_len request err h
    exact ⟨h3, h2, h1, h4, h5⟩

/-- Claim C16, witness: for the Request that carries `sampleKey`, both calls succeed in
a 64-byte buffer; the Response and the Error they build have the transaction id
`sampleId`, method 1, their class, and the key of the request. -/
theorem C16_replies_take_over_the_request_witness :
    ((stun_agent_init_response refCollab smallLegacyAgent (viewed [] 0)
        (List.replicate 64 0) 64 keyedRequest).1 = true ∧
      stun_message_id (stun_agent_init_response refCollab smallLegacyAgent (viewed [] 0)
        (List.replicate 64 0) 64 keyedRequest).2 = sampleId ∧
      stun_message_get_method (stun_agent_init_response refCollab smallLegacyAgent (viewed [] 0)
        (List.replicate 64 0) 64 keyedRequest).2 = 1 ∧
      stun_message_get_class (stun_agent_init_response refCollab smallLegacyAgent (viewed [] 0)
        (List.replicate 64 0) 64 keyedRequest).2 = StunClass.STUN_RESPONSE ∧
      (stun_agent_init_response refCollab smallLegacyAgent (viewed [] 0)
        (List.replicate 64 0) 64 keyedRequest).2.key = some sampleKey ∧
      (stun_agent_init_response refCollab smallLegacyAgent (viewed [] 0)
        (List.replicate 64 0) 64 keyedRequest).2.key_len = 3) ∧
    ((stun_agent_init_error refCollab smallLegacyAgent (viewed [] 0)
        (List.replicate 64 0) 64 keyedRequest 420).1 = true ∧
      stun_message_id (stun_agent_init_error refCollab smallLegacyAgent (viewed [] 0)
        (List.replicate 64 0) 64 keyedRequest 420).2 = sampleId ∧
      stun_message_get_method (stun_agent_init_error refCollab smallLegacyAgent (viewed [] 0)
        (List.replicate 64 0) 64 keyedRequest 420).2 = 1 ∧
      stun_message_get_class (stun_agent_init_error refCollab smallLegacyAgent (viewed [] 0)
        (List.replicate 64 0) 64 keyedRequest 420).2 = StunClass.STUN_ERROR ∧
      (stun_agent_init_error refCollab smallLegacyAgent (viewed [] 0)
        (List.replicate 64 0) 64 keyedRequest 420).2.key = some sampleKey ∧
      (stun_agent_init_error refCollab smallLegacyAgent (viewed [] 0)
        (List.replicate 64 0) 64 keyedRequest 420).2.key_len = 3) :=
  have T := C16_replies_take_over_the_request refCollab smallLegacyAgent (viewed [] 0)
    (List.replicate 64 0) 64 keyedRequest 420
  have hr := T.2.1.2 ⟨by decide, by decide⟩
  have he := (T.2.2.1 (by decide)).2 ⟨by decide, by decide⟩
  ⟨⟨hr, T.2.2.2.1 hr⟩, ⟨he, T.2.2.2.2 he⟩⟩

/-! ## The key used by `stun_agent_finish_message` -/

/-- The FINGERPRINT step leaves every byte of the message it is given, the declared
length apart, as it was. -/
theorem finish_checksum_keeps_below (X : Collab) (agent : StunAgent) (m1 m2 : StunMessage)
    (h : finish_checksum X agent m1 = some m2) :
    ∀ i, i < stun_message_length m1 → i ≠ 2 → i ≠ 3 → rdb m2.buffer i = rdb m1.buffer i := by
  intro i hi h2 h3
  unfold finish_checksum at h
  split at h
  · cases ha : stun_message_append m1 STUN_ATTRIBUTE_FINGERPRINT 4 with
    | none => rw [ha] at h; simp at h
    | some p =>
      obtain ⟨ptr, m0⟩ := p
      rw [ha] at h
      simp only [Option.some.injEq] at h
      subst h
      have hs := stun_message_append_spec m1 _ _ ptr m0 ha
      dsimp only
      rw [rdb_wrbs, if_neg (by omega)]
      exact hs.2.2.2.2.2 i hi h2 h3
  · simp only [Option.some.injEq] at h
    subst h; rfl

/-- The MESSAGE-INTEGRITY value in the finished message is the keyed hash, under the
key and key length in use, of the message with the attribute appended. -/
theorem finish_message_digest (X : Collab) (agent : StunAgent) (msg : StunMessage)
    (k1 : List Nat) (KL : Nat) (m1 m2 : StunMessage)
    (hi : finish_integrity X msg (some k1) KL = some m1)
    (hc : finish_checksum X agent m1 = some m2)
    (hsmall : stun_message_length msg + 24 < 65536) :
    rdbs m2.buffer (stun_message_length msg + 4) 20 =
      stun_sha1 X
        (with_attribute msg.buffer (stun_message_length msg) STUN_ATTRIBUTE_MESSAGE_INTEGRITY
          20 [])
        (stun_message_length msg + 24) k1 KL := by
  have h20 := stun_message_length_ge msg
  have hfs := (finish_integrity_some X msg k1 KL (stun_message_length msg) m1 rfl h20
    (by omega) hi).2
  have hlen1 : stun_message_length m1 = stun_message_length msg + 24 := by
    rw [hfs]
    unfold stun_message_length
    simp only [STUN_MESSAGE_LENGTH_POS, STUN_MESSAGE_HEADER_LENGTH]
    have := (appended_layout msg.buffer (stun_getw msg.buffer 2 + 20)
      STUN_ATTRIBUTE_MESSAGE_INTEGRITY 20
      (stun_sha1 X
        (with_attribute msg.buffer (stun_getw msg.buffer 2 + 20)
          STUN_ATTRIBUTE_MESSAGE_INTEGRITY 20 [])
        (stun_getw msg.buffer 2 + 20 + 24) k1 KL) (by omega) (by decide) (by decide)
      (by
        unfold stun_message_length at hsmall
        simp only [STUN_MESSAGE_LENGTH_POS, STUN_MESSAGE_HEADER_LENGTH] at hsmall
        omega)).1
    rw [this]
    omega
  have hkeep := finish_checksum_keeps_below X agent m1 m2 hc
  have e1 : rdbs m2.buffer (stun_message_length msg + 4) 20 =
      rdbs m1.buffer (stun_message_length msg + 4) 20 := by
    apply rdbs_congr
    intro i h1 h2
    exact hkeep i (by omega) (by omega) (by omega)
  rw [e1, hfs]
  dsimp only
  rw [with_attribute_value]
  exact rdbs_wrbs_self _ _ 20 _ (stun_sha1_length X _ _ _ _)
    (fun i hi => stun_sha1_getD_lt X _ _ _ _ i hi)

/-- C14: the key in use in `stun_agent_finish_message` is the key of the message, with
the key length of the message, when the message carries one, whatever the caller passed,
and the key and key length of the caller otherwise. When the call returns non-zero, the
MESSAGE-INTEGRITY value of the finished message is the keyed hash under the key in use,
a Request is recorded in the lowest empty slot with the key in use, and the key in use
is left in the key fields of the message. -/
theorem C14_message_key_overrides_caller_key (X : Collab) (agent : StunAgent)
    (msg : StunMessage) (key : Option (List Nat)) (key_len : Nat) :
    (∀ k, msg.key = some k → ∀ (key2 : Option (List Nat)) (key_len2 : Nat),
      stun_agent_finish_message X agent msg key2 key_len2 =
        stun_agent_finish_message X agent msg key key_len) ∧
    (∀ (K : Option (List Nat)) (KL : Nat),
      ((∃ k, msg.key = some k ∧ K = some k ∧ KL = msg.key_len) ∨
        (msg.key = none ∧ K = key ∧ KL = key_len)) →
      (stun_agent_finish_message X agent msg key key_len).1 ≠ 0 →
      (∀ k1, K = some k1 → stun_message_length msg + 24 < 65536 →
        rdbs (stun_agent_finish_message X agent msg key key_len).2.2.buffer
            (stun_message_length msg + 4) 20 =
          stun_sha1 X
            (with_attribute msg.buffer (stun_message_length msg)
              STUN_ATTRIBUTE_MESSAGE_INTEGRITY 20 [])
            (stun_message_length msg + 24) k1 KL) ∧
      (stun_message_get_class msg = StunClass.STUN_REQUEST →
        ∀ i s, agent.sent_ids.get? i = some s → s.valid = false →
          (∀ j, j < i → ∀ t, agent.sent_ids.get? j = some t → t.valid = true) →
          (stun_agent_finish_message X agent msg key key_len).2.1.sent_ids =
            agent.sent_ids.set i
              { id := stun_message_id msg, method := stun_message_get_method msg,
                key := K, key_len := KL, valid := true }) ∧
      (stun_agent_finish_message X agent msg key key_len).2.2.key = K ∧
      (stun_agent_finish_message X agent msg key key_len).2.2.key_len = KL) := by
  refine ⟨?_, ?_⟩
  · intro k hk key2 key_len2
    unfold stun_agent_finish_message finish_key finish_key_len
    simp only [hk]
  · intro K KL huse hret
    have hK : finish_key msg key = K ∧ finish_key_len msg key_len = KL := by
      rcases huse with ⟨k, h1, h2, h3⟩ | ⟨h1, h2, h3⟩
      · simp [finish_key, finish_key_len, h1, h2, h3]
      · simp [finish_key, finish_key_len, h1, h2, h3]
    rcases finish_message_cases X agent msg key key_len with h0 | ⟨m1, m2, hi, hc, hhdr, hEq⟩
    · exact absurd h0.1 hret
    · rw [hK.1, hK.2] at hi hEq
      refine ⟨?_, ?_, ?_, ?_⟩
      · intro k1 hk1 hsmall
        rw [hk1] at hi
        rw [hEq]
        exact finish_message_digest X agent msg k1 KL m1 m2 hi hc hsmall
      · intro hreq i s hs hfree hbelow
        rw [hEq]
        simp only [finish_record]
        rw [if_pos (by rw [get_class_of_same_header msg m2 hhdr]; exact hreq),
          get_method_of_same_header msg m2 hhdr, message_id_of_same_header msg m2 hhdr]
        exact save_sent_id_eq_set _ _ _ _ agent.sent_ids i s hs hfree hbelow
      · rw [hEq]
      · rw [hEq]

/-- Claim C14, witness: a Request that carries `sampleKey` with key length 3 and is
finished by a caller who passes another key is signed with `sampleKey` (the toy digest
163), recorded with it in slot 0 and keeps it; the same Request without a key, finished
by a caller who passes `sampleKey`, is signed and recorded with the key of the caller,
which is left in the message. -/
theorem C14_message_key_overrides_caller_key_witness :
    ((stun_agent_finish_message refCollab smallLegacyAgent keyedRequest (some [1]) 1).1 ≠ 0 ∧
      rdbs (stun_agent_finish_message refCollab smallLegacyAgent keyedRequest
        (some [1]) 1).2.2.buffer 24 20 = List.replicate 20 163 ∧
      (stun_agent_finish_message refCollab smallLegacyAgent keyedRequest
        (some [1]) 1).2.1.sent_ids =
        smallLegacyAgent.sent_ids.set 0
          { id := sampleId, method := 1, key := some sampleKey, key_len := 3, valid := true } ∧
      (stun_agent_finish_message refCollab smallLegacyAgent keyedRequest
        (some [1]) 1).2.2.key = some sampleKey ∧
      (stun_agent_finish_message refCollab smallLegacyAgent keyedRequest
        (some [1]) 1).2.2.key_len = 3) ∧
    ((stun_agent_finish_message refCollab smallLegacyAgent (builtRequest smallLegacyAgent)
        (some sampleKey) 3).1 ≠ 0 ∧
      rdbs (stun_agent_finish_message refCollab smallLegacyAgent (builtRequest smallLegacyAgent)
        (some sampleKey) 3).2.2.buffer 24 20 = List.replicate 20 163 ∧
      (stun_agent_finish_message refCollab smallLegacyAgent (builtRequest smallLegacyAgent)
        (some sampleKey) 3).2.1.sent_ids =
        smallLegacyAgent.sent_ids.set 0
          { id := sampleId, method := 1, key := some sampleKey, key_len := 3, valid := true } ∧
      (stun_agent_finish_message refCollab smallLegacyAgent (builtRequest smallLegacyAgent)
        (some sampleKey) 3).2.2.key = some sampleKey ∧
      (stun_agent_finish_message refCollab smallLegacyAgent (builtRequest smallLegacyAgent)
        (some sampleKey) 3).2.2.key_len = 3) :=
  have T1 := (C14_message_key_overrides_caller_key refCollab smallLegacyAgent keyedRequest
    (some [1]) 1).2 (some sampleKey) 3 (Or.inl ⟨sampleKey, rfl, rfl, rfl⟩) (by decide)
  have T2 := (C14_message_key_overrides_caller_key refCollab smallLegacyAgent
    (builtRequest smallLegacyAgent) (some sampleKey) 3).2 (some sampleKey) 3
    (Or.inr ⟨rfl, rfl, rfl⟩) (by decide)
  ⟨⟨by decide, (T1.1 sampleKey rfl (by decide)).trans (by decide),
      T1.2.1 (by decide) 0 emptySlot (by decide) (by decide)
        (fun j hj => absurd hj (Nat.not_lt_zero j)),
      T1.2.2⟩,
   ⟨by decide, (T2.1 sampleKey rfl (by decide)).trans (by decide),
      T2.2.1 (by decide) 0 emptySlot (by decide) (by decide)
        (fun j hj => absurd hj (Nat.not_lt_zero j)),
      T2.2.2⟩⟩

/-! ## The error for a single unknown attribute -/

/-- Claim C5, as amended: for every agent, whatever its profile, and every request of
less than 65536 bytes that does not carry the magic cookie and carries exactly one
unknown mandatory attribute, of type `a`, `stun_agent_build_unknown_attributes_error`,
when it succeeds, has appended to the error message an UNKNOWN-ATTRIBUTES attribute
holding an even number of 16-bit ids, the single unknown id in network byte order
followed by a duplicate of it (4 bytes of value), and has then finished that message. -/
theorem C5_single_unknown_is_duplicated
    (X : Collab) (agent : StunAgent) (msg : StunMessage) (buffer : List Nat) (buffer_len : Nat)
    (request : StunMessage) (a : Nat) (r : Nat × StunAgent × StunMessage)
    (hcookie : stun_has_cookie request = false)
    (hlen : stun_message_length request < 65536)
    (hone : unknown_mandatory_attributes agent request = [a])
    (hr : stun_agent_build_unknown_attributes_error X agent msg buffer buffer_len request =
      some r)
    (hok : r.1 ≠ 0) :
    ∃ m1 m2,
      stun_agent_init_error X agent msg buffer buffer_len request STUN_ERROR_UNKNOWN_ATTRIBUTE =
        (true, m1) ∧
      stun_message_append_bytes m1 STUN_ATTRIBUTE_UNKNOWN_ATTRIBUTES
        [a / 256 % 256, a % 256, a / 256 % 256, a % 256] 4 = some m2 ∧
      r = stun_agent_finish_message X agent m2 request.key request.key_len ∧
      stun_getw m2.buffer (stun_message_length m1) = STUN_ATTRIBUTE_UNKNOWN_ATTRIBUTES ∧
      stun_getw m2.buffer (stun_message_length m1 + 2) = 4 ∧
      rdbs m2.buffer (stun_message_length m1 + 4) 4 =
        [a / 256 % 256, a % 256, a / 256 % 256, a % 256] := by
  have hscan : stun_agent_find_unknowns X agent request STUN_AGENT_MAX_UNKNOWN_ATTRIBUTES =
      some [htons X a] := by
    rw [find_unknowns_spec X agent request _ hlen, hone]
    rfl
  exact single_entry_is_duplicated X agent msg buffer buffer_len request a r hcookie hscan hr hok

/-- Claim C5, witness: the error built for a cookie-less Request of 28 bytes whose one
unknown mandatory attribute is 0x0030 holds the id twice. -/
theorem C5_single_unknown_is_duplicated_witness :
    ∃ m1 m2,
      stun_agent_init_error refCollab (legacyAgent 0) (viewed [] 0) (List.replicate 64 0) 64
        unknownRequest STUN_ERROR_UNKNOWN_ATTRIBUTE = (true, m1) ∧
      stun_message_append_bytes m1 STUN_ATTRIBUTE_UNKNOWN_ATTRIBUTES
        [48 / 256 % 256, 48 % 256, 48 / 256 % 256, 48 % 256] 4 = some m2 ∧
      (builtError unknownRequest).getD (0, legacyAgent 0, viewed [] 0) =
        stun_agent_finish_message refCollab (legacyAgent 0) m2
          unknownRequest.key unknownRequest.key_len ∧
      stun_getw m2.buffer (stun_message_length m1) = STUN_ATTRIBUTE_UNKNOWN_ATTRIBUTES ∧
      stun_getw m2.buffer (stun_message_length m1 + 2) = 4 ∧
      rdbs m2.buffer (stun_message_length m1 + 4) 4 =
        [48 / 256 % 256, 48 % 256, 48 / 256 % 256, 48 % 256] :=
  C5_single_unknown_is_duplicated refCollab (legacyAgent 0) (viewed [] 0) (List.replicate 64 0)
    64 unknownRequest 48 ((builtError unknownRequest).getD (0, legacyAgent 0, viewed [] 0))
    (by decide) (by decide) (by decide) (by decide) (by decide)

/-! ## Outcome of a matched reply -/

theorem find_unknowns_total (X : Collab) (agent : StunAgent) (msg : StunMessage) (max : Nat) :
    ∃ list, stun_agent_find_unknowns X agent msg max = some list :=
  ⟨_, find_unknowns_loop_spec X agent msg.buffer (stun_message_length msg % 65536) max
    (stun_message_length msg % 65536) STUN_MESSAGE_ATTRIBUTES_POS []
    (by simp only [STUN_MESSAGE_ATTRIBUTES_POS]; omega) (by simp)⟩

/-- The unknown-attribute scan always answers, and leaves the agent and the message it
is given as they are. -/
theorem validate_unknowns_total (X : Collab) (agent1 : StunAgent) (msg2 : StunMessage) :
    ∃ st, validate_unknowns X agent1 msg2 = some (st, agent1, msg2) ∧
      (st = StunValidationStatus.STUN_VALIDATION_SUCCESS ∨
       (stun_message_get_class msg2 = StunClass.STUN_REQUEST ∧
          st = StunValidationStatus.STUN_VALIDATION_UNKNOWN_REQUEST_ATTRIBUTE) ∨
       (stun_message_get_class msg2 ≠ StunClass.STUN_REQUEST ∧
          st = StunValidationStatus.STUN_VALIDATION_UNKNOWN_ATTRIBUTE)) := by
  obtain ⟨list, hl⟩ := find_unknowns_total X agent1 msg2 1
  unfold validate_unknowns
  rw [hl]
  simp only
  by_cases hpos : list.length > 0
  · rw [if_pos hpos]
    by_cases hc : stun_message_get_class msg2 = StunClass.STUN_REQUEST
    · rw [if_pos hc]
      exact ⟨_, rfl, Or.inr (Or.inl ⟨hc, rfl⟩)⟩
    · rw [if_neg hc]
      exact ⟨_, rfl, Or.inr (Or.inr ⟨hc, rfl⟩)⟩
  · rw [if_neg hpos]
    exact ⟨_, rfl, Or.inl rfl⟩

theorem not_request_of_reply (m : StunMessage) (h : is_reply m) :
    stun_message_get_class m ≠ StunClass.STUN_REQUEST := by
  unfold is_reply at h
  rcases h with h | h <;> rw [h] <;> decide

theorem resolve_key_of_slot_key (agent : StunAgent) (msg1 : StunMessage)
    (validater : Option StunMessageIntegrityValidate) (k : List Nat) (key_len0 : Nat) :
    resolve_key agent msg1 validater (some k) key_len0 = some (some k, key_len0) := by
  unfold resolve_key
  split <;> rfl

theorem finish_key_some (req : StunMessage) (key : List Nat) :
    ∃ k, finish_key req (some key) = some k := by
  unfold finish_key
  cases req.key with
  | none => exact ⟨key, rfl⟩
  | some k => exact ⟨k, rfl⟩

/-- A Request finished with a non-zero result is recorded in the first empty slot;
provided no occupied slot already holds its transaction id and method, the correlation
loop stops at that slot for every message with the method and the bytes from offset 2 on
of the finished buffer. -/
theorem finished_request_slot
    (X : Collab) (agent : StunAgent) (req : StunMessage) (key : List Nat) (key_len : Nat)
    (i : Nat) (s : StunAgentSavedIds) (copy : List Nat) (n : Nat)
    (hreq : stun_message_get_class req = StunClass.STUN_REQUEST)
    (hfin : (stun_agent_finish_message X agent req (some key) key_len).1 ≠ 0)
    (hslot : agent.sent_ids.get? i = some s) (hfree : s.valid = false)
    (hbelow : ∀ j, j < i → ∀ t, agent.sent_ids.get? j = some t → t.valid = true)
    (huniq : ∀ t ∈ agent.sent_ids, ¬ slot_matches req t)
    (hmethod : stun_message_get_method (viewed copy n) = stun_message_get_method req)
    (hbytes : ∀ j, 2 ≤ j →
      rdb copy j = rdb (stun_agent_finish_message X agent req (some key) key_len).2.2.buffer j) :
    matched_index (stun_agent_finish_message X agent req (some key) key_len).2.1
      (viewed copy n) = i ∧
    (stun_agent_finish_message X agent req (some key) key_len).2.1.sent_ids.get? i =
      some { id := stun_message_id req, method := stun_message_get_method req,
             key := finish_key req (some key), key_len := finish_key_len req key_len,
             valid := true } ∧
    i < (stun_agent_finish_message X agent req (some key) key_len).2.1.sent_ids.length := by
  obtain ⟨m2, hhdr, hfinEq⟩ := finish_message_of_ne_zero X agent req (some key) key_len hfin
  rw [hfinEq] at hbytes ⊢
  simp only at hbytes ⊢
  have hi : i < agent.sent_ids.length := by
    rw [List.get?_eq_some] at hslot; exact hslot.1
  have hc2 : stun_message_get_class m2 = StunClass.STUN_REQUEST := by
    rw [get_class_of_same_header req m2 hhdr, hreq]
  have hm2 : stun_message_get_method m2 = stun_message_get_method req :=
    get_method_of_same_header req m2 hhdr
  have hid2 : stun_message_id m2 = stun_message_id req := message_id_of_same_header req m2 hhdr
  have hidc : stun_message_id (viewed copy n) = stun_message_id req := by
    rw [← hid2]
    unfold stun_message_id
    apply rdbs_congr
    intro j hj _
    exact hbytes j (by simp only [STUN_MESSAGE_TRANS_ID_POS] at hj; omega)
  have hrec : (finish_record agent m2 (finish_key req (some key))
      (finish_key_len req key_len)).sent_ids =
      agent.sent_ids.set i
        { id := stun_message_id req, method := stun_message_get_method req,
          key := finish_key req (some key), key_len := finish_key_len req key_len,
          valid := true } := by
    unfold finish_record
    rw [if_pos hc2, hm2, hid2]
    exact save_sent_id_eq_set _ _ _ _ _ i s hslot hfree hbelow
  generalize finish_record agent m2 (finish_key req (some key))
      (finish_key_len req key_len) = agent1 at hrec ⊢
  have hget : agent1.sent_ids.get? i =
      some { id := stun_message_id req, method := stun_message_get_method req,
             key := finish_key req (some key), key_len := finish_key_len req key_len,
             valid := true } := by
    rw [hrec]; simp [hi]
  refine ⟨?_, hget, by rw [hrec, List.length_set]; exact hi⟩
  unfold matched_index
  rw [hmethod, hidc]
  apply find_sent_id_eq_of_first _ _ _ i _ hget ⟨rfl, rfl, rfl⟩
  intro j hj t ht
  rw [hrec] at ht
  have ht2 : agent.sent_ids.get? j = some t := by
    simpa [List.getElem?_set_ne (show i ≠ j by omega)] using ht
  exact huniq t (List.get?_mem ht2)

/-- Claim C2, as amended: a Request finished with a non-null key (non-zero result) is
recorded in the first empty slot of the agent. Provided no occupied slot already holds
its transaction id and method, validating on the same agent a Response-class copy of the
finished buffer (same transaction id and method, all bytes from offset 2 on identical)
pairs it with that slot. The copy is answered STUN_VALIDATION_SUCCESS or
STUN_VALIDATION_UNKNOWN_ATTRIBUTE exactly when it passes the frame, cookie, checksum and
credential-policy stages and the integrity check under the recorded key and key length;
the slot is then left empty and validating the same buffer a second time returns
STUN_VALIDATION_UNMATCHED_RESPONSE. With every other answer the agent, and so the slot,
is left as it was. -/
theorem C2_response_copy_pairs_and_clears_when_accepted
    (X : Collab) (agent : StunAgent) (req : StunMessage) (key : List Nat) (key_len : Nat)
    (i : Nat) (s : StunAgentSavedIds) (copy : List Nat) (n : Nat)
    (hreq : stun_message_get_class req = StunClass.STUN_REQUEST)
    (hfin : (stun_agent_finish_message X agent req (some key) key_len).1 ≠ 0)
    (hslot : agent.sent_ids.get? i = some s) (hfree : s.valid = false)
    (hbelow : ∀ j, j < i → ∀ t, agent.sent_ids.get? j = some t → t.valid = true)
    (huniq : ∀ t ∈ agent.sent_ids, ¬ slot_matches req t)
    (hclass : stun_message_get_class (viewed copy n) = StunClass.STUN_RESPONSE)
    (hmethod : stun_message_get_method (viewed copy n) = stun_message_get_method req)
    (hbytes : ∀ j, 2 ≤ j →
      rdb copy j = rdb (stun_agent_finish_message X agent req (some key) key_len).2.2.buffer j) :
    matched_index (stun_agent_finish_message X agent req (some key) key_len).2.1
      (viewed copy n) = i ∧
    (stun_agent_finish_message X agent req (some key) key_len).2.1.sent_ids.get? i =
      some { id := stun_message_id req, method := stun_message_get_method req,
             key := finish_key req (some key), key_len := finish_key_len req key_len,
             valid := true } ∧
    (∀ (out : StunMessage) (validater : Option StunMessageIntegrityValidate)
        (st : StunValidationStatus) (a1 : StunAgent) (m1 : StunMessage),
      stun_agent_validate X (stun_agent_finish_message X agent req (some key) key_len).2.1
        out copy n validater = some (st, a1, m1) →
      ((st = StunValidationStatus.STUN_VALIDATION_SUCCESS ∨
          st = StunValidationStatus.STUN_VALIDATION_UNKNOWN_ATTRIBUTE) ∧
        a1.sent_ids =
          (stun_agent_finish_message X agent req (some key) key_len).2.1.sent_ids.set i
            { id := stun_message_id req, method := stun_message_get_method req,
              key := finish_key req (some key), key_len := finish_key_len req key_len,
              valid := false } ∧
        ∀ (out2 : StunMessage) (validater2 : Option StunMessageIntegrityValidate),
          stun_agent_validate X a1 out2 copy n validater2 =
            some (StunValidationStatus.STUN_VALIDATION_UNMATCHED_RESPONSE, a1,
              viewed copy n)) ∨
      (st ≠ StunValidationStatus.STUN_VALIDATION_SUCCESS ∧
        st ≠ StunValidationStatus.STUN_VALIDATION_UNKNOWN_ATTRIBUTE ∧
        a1 = (stun_agent_finish_message X agent req (some key) key_len).2.1)) ∧
    (∀ (out : StunMessage) (validater : Option StunMessageIntegrityValidate),
      (∃ st a1 m1,
        stun_agent_validate X (stun_agent_finish_message X agent req (some key) key_len).2.1
          out copy n validater = some (st, a1, m1) ∧
        (st = StunValidationStatus.STUN_VALIDATION_SUCCESS ∨
          st = StunValidationStatus.STUN_VALIDATION_UNKNOWN_ATTRIBUTE)) ↔
      (complete_frame X copy n ∧
        cookie_ok (stun_agent_finish_message X agent req (some key) key_len).2.1
          (viewed copy n) ∧
        checksum_ok X (stun_agent_finish_message X agent req (some key) key_len).2.1
          (viewed copy n) ∧
        credential_policy_violated
          (stun_agent_finish_message X agent req (some key) key_len).2.1 (viewed copy n) =
            false ∧
        ∃ msg2, check_integrity X (viewed copy n) (finish_key req (some key))
          (finish_key_len req key_len) = some (some msg2))) := by
  obtain ⟨hmatch, hget, hilt⟩ := finished_request_slot X agent req key key_len i s copy n
    hreq hfin hslot hfree hbelow huniq hmethod hbytes
  have hreply : is_reply (viewed copy n) := Or.inl hclass
  have hnr := not_request_of_reply (viewed copy n) hreply
  have hpair := accepted_copy_pairs_once X agent req key key_len i s copy n
  generalize (stun_agent_finish_message X agent req (some key) key_len).2.1 = A1
    at hmatch hget hilt hpair ⊢
  have hskey : slot_key A1 (viewed copy n) = finish_key req (some key) := by
    unfold slot_key; rw [if_pos hreply, hmatch, hget]; rfl
  have hslen : slot_key_len A1 (viewed copy n) = finish_key_len req key_len := by
    unfold slot_key_len; rw [if_pos hreply, hmatch, hget]; rfl
  obtain ⟨k, hk⟩ := finish_key_some req key
  have hcorr : correlation_ok A1 (viewed copy n) := by
    intro _
    rw [hmatch]; unfold STUN_AGENT_MAX_SAVED_IDS; omega
  refine ⟨hmatch, hget, ?_, ?_⟩
  · intro out validater st a1 m1 hval
    rcases validate_cases X A1 out copy n validater st a1 m1 hval with
      ⟨ha, hrej⟩ | ⟨_, _, _, _, _, key1, kl1, msg2, _, hint, hscan⟩
    · right
      refine ⟨?_, ?_, ha⟩
      · rcases hrej with h | h | h | h | h <;> rw [h] <;> decide
      · rcases hrej with h | h | h | h | h <;> rw [h] <;> decide
    · left
      obtain ⟨_, _, unknown, _, hstat⟩ := validate_unknowns_cases X _ msg2 st a1 m1 hscan
      have hcls := check_integrity_get_class X (viewed copy n) msg2 key1 kl1 hint
      have hst : st = StunValidationStatus.STUN_VALIDATION_SUCCESS ∨
          st = StunValidationStatus.STUN_VALIDATION_UNKNOWN_ATTRIBUTE := by
        rcases hstat with ⟨_, h1⟩ | ⟨_, hc, _⟩ | ⟨_, _, h1⟩
        · exact Or.inl h1
        · rw [hcls] at hc; exact absurd hc hnr
        · exact Or.inr h1
      refine ⟨hst, ?_, ?_⟩
      · exact (hpair out out validater validater st a1 m1 hreq hfin hslot hfree hbelow huniq
          hclass hmethod hbytes hval hst).2.2.1
      · intro out2 validater2
        exact (hpair out out2 validater validater2 st a1 m1 hreq hfin hslot hfree hbelow huniq
          hclass hmethod hbytes hval hst).2.2.2
  · intro out validater
    constructor
    · rintro ⟨st, a1, m1, hval, hacc⟩
      rcases validate_cases X A1 out copy n validater st a1 m1 hval with
        ⟨_, hrej⟩ | ⟨hframe, hcookie, hsum, _, hpol, key1, kl1, msg2, hres, hint, _⟩
      · exfalso
        rcases hacc with h | h <;> rw [h] at hrej <;> simp at hrej
      · rw [hskey, hslen, hk, resolve_key_of_slot_key] at hres
        simp only [Option.some.injEq, Prod.mk.injEq] at hres
        rw [← hres.1, ← hres.2, ← hk] at hint
        exact ⟨hframe, hcookie, hsum, hpol, msg2, hint⟩
    · rintro ⟨hframe, hcookie, hsum, hpol, msg2, hint⟩
      have hres : resolve_key A1 (viewed copy n) validater (slot_key A1 (viewed copy n))
          (slot_key_len A1 (viewed copy n)) =
          some (finish_key req (some key), finish_key_len req key_len) := by
        rw [hskey, hslen, hk, resolve_key_of_slot_key]
      obtain ⟨st, hst, hcase⟩ := validate_unknowns_total X
        (release_slot A1 (passed_index A1 (viewed copy n))) msg2
      have hcls := check_integrity_get_class X (viewed copy n) msg2 _ _ hint
      refine ⟨st, release_slot A1 (passed_index A1 (viewed copy n)), msg2, ?_, ?_⟩
      · rw [validate_reaches_integrity X A1 out copy n validater _ _ hframe hcookie hsum hcorr
          hpol hres]
        unfold validate_integrity
        rw [hint]
        exact hst
      · rcases hcase with h1 | ⟨hc, _⟩ | ⟨_, h1⟩
        · exact Or.inl h1
        · rw [hcls] at hc; exact absurd hc hnr
        · exact Or.inr h1

/-- Claim C2, witness: under a keyed hash that does not read the type field, the
Response-class copy of a Request finished with `sampleKey` (key length 3) is paired with
slot 0, passes the integrity check and is answered "success"; slot 0 is left empty and
the second validation is answered "unmatched response". Under the reference hash, which
reads the type field, the copy is paired with slot 0 and answered "unauthorized", and the
agent is left as it was. -/
theorem C2_response_copy_pairs_and_clears_when_accepted_witness :
    (matched_index blindFinished.2.1 (viewed blindCopy 44) = 0 ∧
      stun_agent_validate blindCollab blindFinished.2.1 (viewed [] 0) blindCopy 44 none =
        some (StunValidationStatus.STUN_VALIDATION_SUCCESS, release_slot blindFinished.2.1 0,
          { buffer := blindCopy, buffer_len := 44, key := some sampleKey, key_len := 3 }) ∧
      (release_slot blindFinished.2.1 0).sent_ids =
        blindFinished.2.1.sent_ids.set 0
          { id := sampleId, method := 1, key := some sampleKey, key_len := 3,
            valid := false } ∧
      stun_agent_validate blindCollab (release_slot blindFinished.2.1 0) (viewed [] 0)
          blindCopy 44 none =
        some (StunValidationStatus.STUN_VALIDATION_UNMATCHED_RESPONSE,
          release_slot blindFinished.2.1 0, viewed blindCopy 44)) ∧
    (matched_index (finishedBy smallLegacyAgent 3).2.1 (viewed keyedCopy 44) = 0 ∧
      stun_agent_validate refCollab (finishedBy smallLegacyAgent 3).2.1 (viewed [] 0)
          keyedCopy 44 none =
        some (StunValidationStatus.STUN_VALIDATION_UNAUTHORIZED,
          (finishedBy smallLegacyAgent 3).2.1, viewed keyedCopy 44) ∧
      ¬ ∃ st a1 m1,
        stun_agent_validate refCollab (finishedBy smallLegacyAgent 3).2.1 (viewed [] 0)
          keyedCopy 44 none = some (st, a1, m1) ∧
        (st = StunValidationStatus.STUN_VALIDATION_SUCCESS ∨
          st = StunValidationStatus.STUN_VALIDATION_UNKNOWN_ATTRIBUTE)) :=
  have T1 := C2_response_copy_pairs_and_clears_when_accepted blindCollab smallLegacyAgent
    (builtRequest smallLegacyAgent) sampleKey 3 0 emptySlot blindCopy 44
    (by decide) (by decide) (by decide) (by decide)
    (fun j hj => absurd hj (Nat.not_lt_zero j))
    (by decide) (by decide) (by decide)
    (fun j hj => by
      show rdb (wrb blindFinished.2.2.buffer 0 1) j = rdb blindFinished.2.2.buffer j
      rw [rdb_wrb, if_neg (by omega)])
  have T2 := C2_response_copy_pairs_and_clears_when_accepted refCollab smallLegacyAgent
    (builtRequest smallLegacyAgent) sampleKey 3 0 emptySlot keyedCopy 44
    (by decide) (by decide) (by decide) (by decide)
    (fun j hj => absurd hj (Nat.not_lt_zero j))
    (by decide) (by decide) (by decide)
    (fun j hj => by
      show rdb (wrb (finishedBy smallLegacyAgent 3).2.2.buffer 0 1) j =
        rdb (finishedBy smallLegacyAgent 3).2.2.buffer j
      rw [rdb_wrb, if_neg (by omega)])
  have hrun1 : stun_agent_validate blindCollab blindFinished.2.1 (viewed [] 0) blindCopy 44
      none = some (StunValidationStatus.STUN_VALIDATION_SUCCESS,
        release_slot blindFinished.2.1 0,
        { buffer := blindCopy, buffer_len := 44, key := some sampleKey, key_len := 3 }) := by
    decide
  have hrun2 : stun_agent_validate refCollab (finishedBy smallLegacyAgent 3).2.1 (viewed [] 0)
      keyedCopy 44 none = some (StunValidationStatus.STUN_VALIDATION_UNAUTHORIZED,
        (finishedBy smallLegacyAgent 3).2.1, viewed keyedCopy 44) := by
    decide
  have hacc1 := (T1.2.2.1 (viewed [] 0) none _ _ _ hrun1).elim (fun h => h.2)
    (fun h => absurd rfl h.1)
  ⟨⟨T1.1, hrun1, hacc1.1, hacc1.2 (viewed [] 0) none⟩,
   ⟨T2.1, hrun2,
    fun h => by
      obtain ⟨msg2, hm⟩ := ((T2.2.2.2 (viewed [] 0) none).1 h).2.2.2.2
      have hcheck : check_integrity refCollab (viewed keyedCopy 44)
          (finish_key (builtRequest smallLegacyAgent) (some sampleKey))
          (finish_key_len (builtRequest smallLegacyAgent) 3) = some none := by decide
      rw [hcheck] at hm
      simp at hm⟩⟩

end StunAgentModel
